import Mathlib

/-!
# Clementine audio engines: the VLC and Phonon backends

A shallow embedding of `src/engines/vlcengine.cpp` and
`src/engines/phononengine.cpp`, with the inline methods of
`src/engines/gstenginepipeline.h`, the image fetcher of
`src/songinfo/echonestimages.cpp`, the tab bar slots of
`src/playlist/playlistcontainer.cpp` and the constants of
`src/wiimotedev/consts.h`.

* Member variables become structure fields with the names of the source.
* The native libraries (libvlc, Phonon, Qt) are outside the repository.  What a
  native call answers is an argument of the embedded method (`Reply`), the
  native calls a method issues are appended to the field `native`, and the Qt
  signals it emits are appended to the field `emitted`.
* `qFatal` aborts the process; a method that reaches it has the outcome
  `Outcome.fatal` instead of a returned value.
* `float` values are kept as exact rationals: rounding to single precision is
  not part of the embedding.
-/

namespace Clementine

/-! ## Shared engine types -/

namespace Engine

/-- The playback state `Engine::State`. -/
inductive State where
  | Empty
  | Idle
  | Playing
  | Paused
  deriving DecidableEq, Repr

end Engine

/-- The Qt signals the engines emit. -/
inductive Signal where
  | StateChanged (state : Engine.State)
  | TrackEnded
  | Error (message : String)
  deriving DecidableEq, Repr

/-- Recognises `StateChanged` signals. -/
def Signal.isStateChanged : Signal → Bool
  | .StateChanged _ => true
  | _ => false

/-- Recognises `TrackEnded` signals. -/
def Signal.isTrackEnded : Signal → Bool
  | .TrackEnded => true
  | _ => false

/-- Recognises `Error` signals. -/
def Signal.isError : Signal → Bool
  | .Error _ => true
  | _ => false

/-! ## `boost::circular_buffer` -/

/-- A `boost::circular_buffer`: a capacity and the stored items, oldest first. -/
structure CircularBuffer (α : Type) where
  capacity : Nat
  items : List α
  deriving DecidableEq, Repr

namespace CircularBuffer

variable {α : Type}

/-- The constructor `circular_buffer(capacity)`: empty, with the given capacity. -/
def create (capacity : Nat) : CircularBuffer α :=
  { capacity := capacity, items := [] }

/-- The member `size()`. -/
def size (b : CircularBuffer α) : Nat := b.items.length

/-- The member `operator[]`, with a default for an index out of range. -/
def get (b : CircularBuffer α) (i : Nat) (dflt : α) : α := b.items.getD i dflt

/-- The member `push_back`: appends the item; a full buffer first loses its
oldest item, and a buffer of capacity zero stores nothing. -/
def push_back (b : CircularBuffer α) (x : α) : CircularBuffer α :=
  if b.capacity = 0 then b
  else if b.capacity ≤ b.items.length then { b with items := b.items.tail ++ [x] }
  else { b with items := b.items ++ [x] }

/-- The member `rresize(new_size, item)`: a larger size inserts copies of `item`
at the front (growing the capacity when needed), a smaller one erases items
from the front until `new_size` are left. -/
def rresize (b : CircularBuffer α) (new_size : Nat) (item : α) : CircularBuffer α :=
  if b.items.length < new_size then
    { capacity := max b.capacity new_size,
      items := List.replicate (new_size - b.items.length) item ++ b.items }
  else
    { b with items := b.items.drop (b.items.length - new_size) }

end CircularBuffer

/-! ## `VlcEngine` -/

/-- The libvlc functions `VlcEngine` calls, with the arguments that matter. -/
inductive NativeCall where
  | media_new (url : String)
  | media_player_set_media
  | media_player_play
  | media_player_stop
  | media_player_pause
  | media_player_is_playing
  | media_player_get_position
  | media_player_get_length
  | media_player_set_position (pos : Rat)
  | audio_set_volume (volume : Int)
  deriving DecidableEq, Repr

/-- What a native libvlc call answers: its return value and whether it raises
a libvlc exception on the `libvlc_exception_t` it was handed. -/
structure Reply (α : Type) where
  value : α
  raises : Bool
  deriving DecidableEq, Repr

/-- The event types of `libvlc_event_type_t` the callback distinguishes; every
other value of the enumeration is `Other`. -/
inductive libvlc_event_type_t where
  | MediaPlayerNothingSpecial
  | MediaPlayerOpening
  | MediaPlayerBuffering
  | MediaPlayerPlaying
  | MediaPlayerPaused
  | MediaPlayerStopped
  | MediaPlayerEndReached
  | MediaPlayerEncounteredError
  | Other (code : Nat)
  deriving DecidableEq, Repr

/-- The member variables of `VlcEngine` that the methods read or write, with
the log of native calls and of emitted signals. -/
structure VlcEngine where
  /-- Whether `libvlc_exception_raised(&exception_)` holds. -/
  exception_ : Bool
  scope_data_ : CircularBuffer Rat
  /-- The snapshot `scope_` of the base class. -/
  scope_ : List Int
  state_ : Engine.State
  native : List NativeCall
  emitted : List Signal
  deriving DecidableEq, Repr

/-- The result of running a method: it returns a value, or `qFatal` aborted the
process.  Both keep the engine as the method left it. -/
inductive Outcome (α : Type) where
  | returned (value : α) (engine : VlcEngine)
  | fatal (engine : VlcEngine)
  deriving DecidableEq, Repr

/-- Whether the method returned to its caller. -/
def Outcome.isReturned {α : Type} : Outcome α → Bool
  | .returned _ _ => true
  | .fatal _ => false

/-- The engine as the method left it. -/
def Outcome.engine {α : Type} : Outcome α → VlcEngine
  | .returned _ e => e
  | .fatal e => e

namespace VlcEngine

/-- The engine the constructor leaves behind: no exception raised (a native
call of the constructor body that raises ends in `qFatal`, and then there is no
engine), an empty buffer of capacity 4096, state `Empty`.  The snapshot of the
base class has `kScopeSize` entries. -/
def create (kScopeSize : Nat) : VlcEngine :=
  { exception_ := false
    scope_data_ := CircularBuffer.create 4096
    scope_ := List.replicate kScopeSize 0
    state_ := Engine.State.Empty
    native := []
    emitted := [] }

/-- A native call made with `&exception_`: the call is logged, and the
exception becomes raised when the call raises.  A libvlc exception stays
raised until its owner clears it, and nothing in the source clears
`exception_`. -/
def call (e : VlcEngine) (c : NativeCall) (raises : Bool) : VlcEngine :=
  { e with native := e.native ++ [c], exception_ := e.exception_ || raises }

/-- The method `HandleErrors`: `qFatal` when the exception is raised. -/
def HandleErrors (e : VlcEngine) : Outcome Unit :=
  if e.exception_ then Outcome.fatal e else Outcome.returned () e

/-- The conversion of a `float` to an integer: truncation towards zero. -/
def truncate (x : Rat) : Int :=
  if 0 ≤ x then x.floor else -(-x).floor

/-- The narrowing of an integer to `int16_t`: the value with the same low 16
bits in the range from `-2 ^ 15` to `2 ^ 15 - 1`. -/
def toInt16 (n : Int) : Int :=
  (n + 2 ^ 15) % 2 ^ 16 - 2 ^ 15

/-- The conversion of a scaled sample to an entry of the snapshot, an
`int16_t`: truncation towards zero of a value within the range of `int16_t`.
For a value outside that range, where C++ leaves the conversion undefined, the
entry is taken to keep the low 16 bits of the truncated value. -/
def toScopeEntry (x : Rat) : Int :=
  toInt16 (truncate x)

/-- The loop `for (i = 0; i < n; ++i) scope_[i] = scope_data_[i] * (1 << 15)`,
started at index `i` with `fuel` iterations left. -/
def fillScope (data : CircularBuffer Rat) : Nat → Nat → List Int → List Int
  | 0, _, scope => scope
  | fuel + 1, i, scope =>
    fillScope data fuel (i + 1) (scope.set i (toScopeEntry (data.get i 0 * (2 : Rat) ^ 15)))

/-- The method `Scope`.  `kScopeSize` is a constant of the base class. -/
def Scope (kScopeSize : Nat) (e : VlcEngine) : List Int × VlcEngine :=
  if e.scope_data_.size < kScopeSize then
    (e.scope_, e)
  else
    let scope := fillScope e.scope_data_ kScopeSize 0 e.scope_
    let new_size := (max 0 ((e.scope_data_.size : Int) - (kScopeSize : Int) * 2)).toNat
    (scope, { e with scope_ := scope, scope_data_ := e.scope_data_.rresize new_size 0 })

/-- The method `length`. -/
def length (e : VlcEngine) (is_playing : Reply Bool) (get_length : Reply Int) : Outcome Nat :=
  match HandleErrors (e.call .media_player_is_playing is_playing.raises) with
  | .fatal e' => .fatal e'
  | .returned _ e1 =>
    if !is_playing.value then .returned 0 e1
    else
      match HandleErrors (e1.call .media_player_get_length get_length.raises) with
      | .fatal e' => .fatal e'
      | .returned _ e2 => .returned (get_length.value % 2 ^ 32).toNat e2

/-- The conversion of `pos * length()` to `uint`: truncation of a value that is
not negative. -/
def toUInt (x : Rat) : Nat := x.floor.toNat % 2 ^ 32

/-- The method `position`.  The second pair of replies answers the nested call
of `length()`. -/
def position (e : VlcEngine) (is_playing : Reply Bool) (get_position : Reply Rat)
    (is_playing2 : Reply Bool) (get_length : Reply Int) : Outcome Nat :=
  match HandleErrors (e.call .media_player_is_playing is_playing.raises) with
  | .fatal e' => .fatal e'
  | .returned _ e1 =>
    if !is_playing.value then .returned 0 e1
    else
      match HandleErrors (e1.call .media_player_get_position get_position.raises) with
      | .fatal e' => .fatal e'
      | .returned _ e2 =>
        match length e2 is_playing2 get_length with
        | .fatal e' => .fatal e'
        | .returned len e3 => .returned (toUInt (get_position.value * (len : Rat))) e3

/-- The static callback `StateChangedCallback`, with `data` the engine. -/
def StateChangedCallback (e : VlcEngine) (type : libvlc_event_type_t) : VlcEngine :=
  match type with
  | .MediaPlayerNothingSpecial | .MediaPlayerStopped | .MediaPlayerEncounteredError =>
    let e1 := { e with state_ := Engine.State.Empty }
    { e1 with emitted := e1.emitted ++ [Signal.StateChanged e1.state_] }
  | .MediaPlayerOpening | .MediaPlayerBuffering | .MediaPlayerPlaying =>
    let e1 := { e with state_ := Engine.State.Playing }
    { e1 with emitted := e1.emitted ++ [Signal.StateChanged e1.state_] }
  | .MediaPlayerPaused =>
    let e1 := { e with state_ := Engine.State.Paused }
    { e1 with emitted := e1.emitted ++ [Signal.StateChanged e1.state_] }
  | .MediaPlayerEndReached =>
    let e1 := { e with state_ := Engine.State.Idle }
    { e1 with emitted := e1.emitted ++ [Signal.TrackEnded] }
  | .Other _ =>
    { e with emitted := e.emitted ++ [Signal.StateChanged e.state_] }

/-- The event types the constructor attaches `StateChangedCallback` to. -/
def attached : libvlc_event_type_t → Bool
  | .Other _ => false
  | _ => true

/-- The callback run on a sequence of native events, in order. -/
def handleEvents (e : VlcEngine) (events : List libvlc_event_type_t) : VlcEngine :=
  events.foldl StateChangedCallback e

/-- The method `Load`.  It tests the exception itself and never calls
`HandleErrors`. -/
def Load (e : VlcEngine) (url : String) (media_new set_media : Bool) : Bool × VlcEngine :=
  let e1 := e.call (.media_new url) media_new
  if e1.exception_ then (false, e1)
  else
    let e2 := e1.call .media_player_set_media set_media
    if e2.exception_ then (false, e2) else (true, e2)

/-- The method `Stop`. -/
def Stop (e : VlcEngine) (stop : Bool) : Outcome Unit :=
  HandleErrors (e.call .media_player_stop stop)

/-- The method `Pause`. -/
def Pause (e : VlcEngine) (pause : Bool) : Outcome Unit :=
  HandleErrors (e.call .media_player_pause pause)

/-- The method `Unpause`. -/
def Unpause (e : VlcEngine) (play : Bool) : Outcome Unit :=
  HandleErrors (e.call .media_player_play play)

/-- The method `Seek`. -/
def Seek (e : VlcEngine) (ms : Nat) (is_playing : Reply Bool) (get_length : Reply Int)
    (set_position : Bool) : Outcome Unit :=
  match length e is_playing get_length with
  | .fatal e' => .fatal e'
  | .returned len e1 =>
    if len = 0 then .returned () e1
    else
      let pos : Rat := (ms : Rat) / (len : Rat)
      HandleErrors (e1.call (.media_player_set_position pos) set_position)

/-- The method `Play`. -/
def Play (e : VlcEngine) (offset : Nat) (play : Bool) (is_playing : Reply Bool)
    (get_length : Reply Int) (set_position : Bool) : Outcome Bool :=
  let e1 := e.call .media_player_play play
  if e1.exception_ then .returned false e1
  else
    match Seek e1 offset is_playing get_length set_position with
    | .fatal e' => .fatal e'
    | .returned _ e2 => .returned true e2

/-- The conversion of a `uint` argument to an `int` parameter: a value below
`2 ^ 31` is kept, a larger one arrives lowered by `2 ^ 32`. -/
def uintToInt (v : Nat) : Int :=
  if v % 2 ^ 32 < 2 ^ 31 then ((v % 2 ^ 32 : Nat) : Int) else ((v % 2 ^ 32 : Nat) : Int) - 2 ^ 32

/-- The method `SetVolumeSW`.  The volume parameter of `libvlc_audio_set_volume`
is an `int`, so the `uint` is converted on the way. -/
def SetVolumeSW (e : VlcEngine) (volume : Nat) (set_volume : Bool) : Outcome Unit :=
  HandleErrors (e.call (.audio_set_volume (uintToInt volume)) set_volume)

/-- The fixed mapping of event types to engine states of the specification:
NothingSpecial, Stopped and EncounteredError give Empty; Opening, Buffering and
Playing give Playing; Paused gives Paused.  EndReached, and event types the
callback is not attached to, publish no state. -/
def specifiedState : libvlc_event_type_t → Option Engine.State
  | .MediaPlayerNothingSpecial => some Engine.State.Empty
  | .MediaPlayerStopped => some Engine.State.Empty
  | .MediaPlayerEncounteredError => some Engine.State.Empty
  | .MediaPlayerOpening => some Engine.State.Playing
  | .MediaPlayerBuffering => some Engine.State.Playing
  | .MediaPlayerPlaying => some Engine.State.Playing
  | .MediaPlayerPaused => some Engine.State.Paused
  | .MediaPlayerEndReached => none
  | .Other _ => none

/-- The positions handed to `libvlc_media_player_set_position`, in call order. -/
def setPositions (e : VlcEngine) : List Rat :=
  e.native.filterMap fun c =>
    match c with
    | .media_player_set_position p => some p
    | _ => none

end VlcEngine

/-! ## `PhononEngine` -/

namespace Phonon

/-- The enumeration `Phonon::State`; any other integer value is `Other`. -/
inductive State where
  | LoadingState
  | StoppedState
  | PlayingState
  | BufferingState
  | PausedState
  | ErrorState
  | Other (code : Nat)
  deriving DecidableEq, Repr

/-- What the engine reads from its `Phonon::MediaObject`. -/
structure MediaObject where
  state : State
  errorString : String
  currentTime : Int
  totalTime : Int
  deriving DecidableEq, Repr

end Phonon

/-- The calls `PhononEngine` makes on its media object and audio output. -/
inductive PhononCall where
  | setCurrentSource (url : String)
  | play
  | stop
  | pause
  | seek (ms : Int)
  | setVolume (volume : Nat)
  deriving DecidableEq, Repr

/-- The member variables of `PhononEngine`, with the log of native calls and of
emitted signals.  `state_timer_` is the single-shot timer of the constructor:
`none` when inactive, `some d` when it will time out at time `d`
(milliseconds). -/
structure PhononEngine where
  media_object_ : Phonon.MediaObject
  state_timer_ : Option Nat
  seek_offset_ : Int
  native : List PhononCall
  emitted : List Signal
  deriving DecidableEq, Repr

namespace PhononEngine

/-- The constructor: an inactive timer and `seek_offset_ = -1`. -/
def create (media : Phonon.MediaObject) : PhononEngine :=
  { media_object_ := media
    state_timer_ := none
    seek_offset_ := -1
    native := []
    emitted := [] }

/-- The method `state`. -/
def state (e : PhononEngine) : Engine.State :=
  match e.media_object_.state with
  | .LoadingState | .PlayingState | .BufferingState => Engine.State.Playing
  | .PausedState => Engine.State.Paused
  | .StoppedState | .ErrorState => Engine.State.Empty
  | .Other _ => Engine.State.Empty

/-- The method `Play`. -/
def Play (e : PhononEngine) (offset : Nat) : Bool × PhononEngine :=
  (true, { e with seek_offset_ := (offset : Int), native := e.native ++ [PhononCall.play] })

/-- The method `Seek`. -/
def Seek (e : PhononEngine) (ms : Nat) : PhononEngine :=
  { e with native := e.native ++ [PhononCall.seek (ms : Int)] }

/-- The slot `PhononStateChanged`, run at time `now`. -/
def PhononStateChanged (e : PhononEngine) (now : Nat) (new_state : Phonon.State) :
    PhononEngine :=
  let e1 :=
    if new_state = Phonon.State.ErrorState then
      { e with emitted := e.emitted ++ [Signal.Error e.media_object_.errorString] }
    else e
  let e2 :=
    if new_state = Phonon.State.PlayingState ∧ e1.seek_offset_ ≠ -1 then
      { e1 with native := e1.native ++ [PhononCall.seek e1.seek_offset_], seek_offset_ := -1 }
    else e1
  { e2 with state_timer_ := some (now + 100) }

/-- The slot `StateTimeoutExpired`. -/
def StateTimeoutExpired (e : PhononEngine) : PhononEngine :=
  { e with emitted := e.emitted ++ [Signal.StateChanged e.state] }

/-- The event loop reaching time `now`: a single-shot timer that is due
becomes inactive and its `timeout()` runs the connected slot once. -/
def processTimers (e : PhononEngine) (now : Nat) : PhononEngine :=
  match e.state_timer_ with
  | some d => if d ≤ now then StateTimeoutExpired { e with state_timer_ := none } else e
  | none => e

/-- A native state change at time `now`: timers due by then have run, the media
object reports the new state, and its `stateChanged` signal runs the slot. -/
def nativeStateChange (e : PhononEngine) (change : Nat × Phonon.State) : PhononEngine :=
  let e1 := processTimers e change.1
  PhononStateChanged { e1 with media_object_ := { e1.media_object_ with state := change.2 } }
    change.1 change.2

/-- A sequence of timed native state changes, in order. -/
def run (e : PhononEngine) (changes : List (Nat × Phonon.State)) : PhononEngine :=
  changes.foldl nativeStateChange e

/-- Consecutive changes of a burst: the later one arrives less than 100 ms
after the earlier one. -/
def closeInTime (a b : Nat × Phonon.State) : Bool :=
  decide (a.1 ≤ b.1 ∧ b.1 < a.1 + 100)

/-- A burst that starts with the change `a`: every change arrives less than
100 ms after the one before it. -/
def isBurst : Nat × Phonon.State → List (Nat × Phonon.State) → Bool
  | _, [] => true
  | a, b :: rest => closeInTime a b && isBurst b rest

/-- The `StateChanged` signals among the emitted ones, in order. -/
def stateChanges (e : PhononEngine) : List Signal :=
  e.emitted.filter Signal.isStateChanged

/-- The `Error` signals among the emitted ones, in order. -/
def errors (e : PhononEngine) : List Signal :=
  e.emitted.filter Signal.isError

end PhononEngine

/-! ## The scope buffer of `VlcEngine` -/

namespace VlcEngine

/-- The loop `for (i = 0; i < size; ++i) scope_data_.push_back(data[i])`,
started at index `i` with `fuel` iterations left.  The array `data` is the
function from an index to the sample stored there. -/
def pushSamples (data : Nat → Rat) : Nat → Nat → CircularBuffer Rat → CircularBuffer Rat
  | 0, _, buffer => buffer
  | fuel + 1, i, buffer => pushSamples data fuel (i + 1) (buffer.push_back (data i))

/-- The static method `SetScopeData`.  `sInstance` is the static pointer to the
engine, `none` when it is null. -/
def SetScopeData (sInstance : Option VlcEngine) (data : Nat → Rat) (size : Int) :
    Option VlcEngine :=
  match sInstance with
  | none => none
  | some e => some { e with scope_data_ := pushSamples data size.toNat 0 e.scope_data_ }

/-- A call on the scope buffer: the plugin pushing samples, or a scope query. -/
inductive ScopeCall where
  | SetScopeData (data : Nat → Rat) (size : Int)
  | Scope

/-- One call on the scope buffer of the engine `sInstance` points to. -/
def scopeCall (kScopeSize : Nat) (e : VlcEngine) : ScopeCall → VlcEngine
  | .SetScopeData data size => (SetScopeData (some e) data size).getD e
  | .Scope => (e.Scope kScopeSize).2

/-- A sequence of calls on the scope buffer, in order. -/
def scopeCalls (kScopeSize : Nat) (e : VlcEngine) (calls : List ScopeCall) : VlcEngine :=
  calls.foldl (scopeCall kScopeSize) e

/-- The last `n` items of a list, in order. -/
def lastItems {α : Type} (n : Nat) (items : List α) : List α :=
  items.drop (items.length - n)

/-- The volumes handed to `libvlc_audio_set_volume`, in call order. -/
def volumes (e : VlcEngine) : List Int :=
  e.native.filterMap fun c =>
    match c with
    | .audio_set_volume v => some v
    | _ => none

end VlcEngine

/-! ## More of `PhononEngine` -/

namespace PhononEngine

/-- The method `SetVolumeSW`.  The parameter of `AudioOutput::setVolume` is a
`qreal`, which holds every `uint` as it is. -/
def SetVolumeSW (e : PhononEngine) (volume : Nat) : PhononEngine :=
  { e with native := e.native ++ [PhononCall.setVolume volume] }

/-- The volumes handed to `AudioOutput::setVolume`, in call order. -/
def volumes (e : PhononEngine) : List Nat :=
  e.native.filterMap fun c =>
    match c with
    | .setVolume v => some v
    | _ => none

/-- The positions handed to `MediaObject::seek`, in call order. -/
def seeks (e : PhononEngine) : List Int :=
  e.native.filterMap fun c =>
    match c with
    | .seek ms => some ms
    | _ => none

/-- The media object reporting the native state `s`. -/
def withNativeState (e : PhononEngine) (s : Phonon.State) : PhononEngine :=
  { e with media_object_ := { e.media_object_ with state := s } }

/-- Whether no change of the sequence is a change to `PlayingState`. -/
def noPlaying (changes : List (Nat × Phonon.State)) : Bool :=
  changes.all fun c => decide (c.2 ≠ Phonon.State.PlayingState)

end PhononEngine

/-! ## `EchoNestImages` -/

namespace Echonest

/-- What the fetcher uses of an `Echonest::Artist`: its name and the URLs of
its images. -/
structure Artist where
  name : String
  images : List String
  deriving DecidableEq, Repr

/-- What `Artist::parseProfile` did with a reply: the artist as it left it, and
whether it threw `Echonest::ParseError`. -/
structure Parsed where
  artist : Artist
  threw : Bool
  deriving DecidableEq, Repr

end Echonest

/-- The signals of `EchoNestImages`. -/
inductive FetcherSignal where
  | ImageReady (id : Int) (url : String)
  | Finished (id : Int)
  deriving DecidableEq, Repr

namespace EchoNestImages

/-- The struct `EchoNestImages::Request`. -/
structure Request where
  id_ : Int
  artist_ : Echonest.Artist
  deriving DecidableEq, Repr

end EchoNestImages

/-- The member `requests_` of `EchoNestImages`, a map from the address of a
reply to its request, kept as an association list with one entry for a key;
with the signals emitted and the replies handed to `deleteLater`. -/
structure EchoNestImages where
  requests_ : List (Nat × EchoNestImages.Request)
  emitted : List FetcherSignal
  deleted : List Nat
  deriving DecidableEq, Repr

namespace EchoNestImages

/-- The member `QMap::contains`. -/
def contains (requests : List (Nat × Request)) (reply : Nat) : Bool :=
  requests.any fun entry => entry.1 == reply

/-- The value `QMap::take` returns. -/
def value (requests : List (Nat × Request)) (reply : Nat) : Option Request :=
  requests.lookup reply

/-- The map `QMap::take` leaves: no entry for the key any more. -/
def remove (requests : List (Nat × Request)) (reply : Nat) : List (Nat × Request) :=
  requests.filter fun entry => !(entry.1 == reply)

/-- The assignment `requests_[reply] = request`. -/
def insert (requests : List (Nat × Request)) (reply : Nat) (request : Request) :
    List (Nat × Request) :=
  (reply, request) :: remove requests reply

/-- The method `FetchInfo`; `reply` is the address of the reply `fetchImages`
returned. -/
def FetchInfo (e : EchoNestImages) (id : Int) (artist : String) (reply : Nat) :
    EchoNestImages :=
  let request : Request := { id_ := id, artist_ := { name := artist, images := [] } }
  { e with requests_ := insert e.requests_ reply request }

/-- The slot `RequestFinished`.  `sender` is the address of the reply that sent
the signal, `none` when the cast gives null; `parseProfile` is the native
parser run on the artist of the request and the reply. -/
def RequestFinished (e : EchoNestImages) (sender : Option Nat)
    (parseProfile : Echonest.Artist → Nat → Echonest.Parsed) : EchoNestImages :=
  match sender with
  | none => e
  | some reply =>
    if !contains e.requests_ reply then e
    else
      match value e.requests_ reply with
      | none => e
      | some request =>
        let artist := (parseProfile request.artist_ reply).artist
        { requests_ := remove e.requests_ reply
          emitted := e.emitted ++ artist.images.map (FetcherSignal.ImageReady request.id_)
            ++ [FetcherSignal.Finished request.id_]
          deleted := e.deleted ++ [reply] }

end EchoNestImages

/-! ## `GstEnginePipeline` -/

/-- The data members of `GstEnginePipeline` declared in the header, without the
GStreamer elements and the timers.  A `QUrl` is its string, a
`BufferConsumer*` its address. -/
structure GstEnginePipeline where
  valid_ : Bool
  sink_ : String
  device_ : String
  buffer_consumers_ : List Nat
  segment_start_ : Int
  segment_start_received_ : Bool
  eq_enabled_ : Bool
  eq_preamp_ : Int
  eq_band_gains_ : List Int
  rg_enabled_ : Bool
  rg_mode_ : Int
  rg_preamp_ : Rat
  rg_compression_ : Bool
  buffer_duration_ms_ : Nat
  url_ : String
  next_url_ : String
  ignore_tags_ : Bool
  redirect_url_ : String
  volume_percent_ : Int
  volume_modifier_ : Rat
  deriving DecidableEq, Repr

namespace GstEnginePipeline

/-- The inline method `SetNextUrl`. -/
def SetNextUrl (p : GstEnginePipeline) (url : String) : GstEnginePipeline :=
  { p with next_url_ := url }

/-- The inline method `url`. -/
def url (p : GstEnginePipeline) : String := p.url_

/-- The inline method `is_valid`. -/
def is_valid (p : GstEnginePipeline) : Bool := p.valid_

/-- The inline method `segment_start`. -/
def segment_start (p : GstEnginePipeline) : Int := p.segment_start_

/-- The inline method `redirect_url`. -/
def redirect_url (p : GstEnginePipeline) : String := p.redirect_url_

/-- Modelled from the spec: the body of `AddBufferConsumer`, which the header
only declares.  The specification asks for exactly one registration per
consumer and makes a duplicate registration a no-op: a consumer that is
already registered is not added again, a new one is appended. -/
def AddBufferConsumer (p : GstEnginePipeline) (consumer : Nat) : GstEnginePipeline :=
  if consumer ∈ p.buffer_consumers_ then p
  else { p with buffer_consumers_ := p.buffer_consumers_ ++ [consumer] }

/-- Modelled from the spec: the body of `RemoveBufferConsumer`, which the header
only declares.  The consumer is taken out of the registered ones; when it is
not registered nothing changes. -/
def RemoveBufferConsumer (p : GstEnginePipeline) (consumer : Nat) : GstEnginePipeline :=
  { p with buffer_consumers_ := p.buffer_consumers_.filter fun c => !(c == consumer) }

/-- Modelled from the spec: the body of `RemoveAllBufferConsumers`, which the
header only declares.  No consumer stays registered. -/
def RemoveAllBufferConsumers (p : GstEnginePipeline) : GstEnginePipeline :=
  { p with buffer_consumers_ := [] }

/-- A call that registers or unregisters buffer consumers. -/
inductive ConsumerCall where
  | Add (consumer : Nat)
  | Remove (consumer : Nat)
  | RemoveAll
  deriving DecidableEq, Repr

/-- One call on the registered consumers. -/
def consumerCall (p : GstEnginePipeline) : ConsumerCall → GstEnginePipeline
  | .Add c => p.AddBufferConsumer c
  | .Remove c => p.RemoveBufferConsumer c
  | .RemoveAll => p.RemoveAllBufferConsumers

/-- A sequence of calls on the registered consumers, in order. -/
def consumerCalls (p : GstEnginePipeline) (calls : List ConsumerCall) : GstEnginePipeline :=
  calls.foldl consumerCall p

end GstEnginePipeline

/-! ## `PlaylistContainer` -/

/-- The widget `ui_->tab_bar` as the container uses it: the tabs from left to
right, each with the id of its playlist and its text, the index of the current
tab (-1 when there is none) and the maximum height.  Its class derives from
`QTabBar` and is outside the sources; the methods below follow `QTabBar`. -/
structure PlaylistTabBar where
  tabs : List (Int × String)
  currentIndex : Int
  maximumHeight : Int
  deriving DecidableEq, Repr

namespace PlaylistTabBar

/-- The method `count`. -/
def count (t : PlaylistTabBar) : Nat := t.tabs.length

/-- The index of the first tab with the id, -1 when there is none. -/
def index_of (t : PlaylistTabBar) (id : Int) : Int :=
  match t.tabs.findIdx? fun tab => tab.1 == id with
  | some i => (i : Int)
  | none => -1

/-- The method `current_id`: the id of the current tab, -1 when there is none. -/
def current_id (t : PlaylistTabBar) : Int :=
  if t.currentIndex < 0 then -1
  else
    match t.tabs.get? t.currentIndex.toNat with
    | some tab => tab.1
    | none => -1

/-- The method `set_current_id`: the first tab with the id becomes current;
nothing changes when there is none. -/
def set_current_id (t : PlaylistTabBar) (id : Int) : PlaylistTabBar :=
  if t.index_of id < 0 then t else { t with currentIndex := t.index_of id }

/-- The method `InsertTab`: a new tab at `index`.  The first tab of a bar becomes
current; a tab inserted at or before the current one moves the current index
along. -/
def InsertTab (t : PlaylistTabBar) (id : Int) (index : Nat) (name : String) : PlaylistTabBar :=
  { t with
    tabs := t.tabs.take index ++ (id, name) :: t.tabs.drop index
    currentIndex :=
      if t.tabs.isEmpty then 0
      else if (index : Int) ≤ t.currentIndex then t.currentIndex + 1
      else t.currentIndex }

/-- The method `RemoveTab`: the first tab with the id is removed; nothing
changes when there is none.  After the current tab is removed the tab to its
right is current, or the last one. -/
def RemoveTab (t : PlaylistTabBar) (id : Int) : PlaylistTabBar :=
  if t.index_of id < 0 then t
  else
    let tabs := t.tabs.eraseIdx (t.index_of id).toNat
    { t with
      tabs := tabs
      currentIndex :=
        if t.index_of id < t.currentIndex then t.currentIndex - 1
        else if t.index_of id = t.currentIndex then
          min t.currentIndex ((tabs.length : Int) - 1)
        else t.currentIndex }

/-- Whether `InsertTab` emits `currentChanged`: `QTabBar::insertTab` makes the
first tab of a bar current, which emits the signal; a tab inserted at or before
the current one moves the current index along without a signal. -/
def InsertTab_emits (t : PlaylistTabBar) : Bool :=
  t.tabs.isEmpty

/-- Whether `set_current_id` emits `currentChanged`: it does when there is a tab
with the id and that tab is not the current one. -/
def set_current_id_emits (t : PlaylistTabBar) (id : Int) : Bool :=
  decide (0 ≤ t.index_of id ∧ t.index_of id ≠ t.currentIndex)

/-- Whether `RemoveTab` emits `currentChanged`: it does when the removed tab is
the current one or one to the left of it. -/
def RemoveTab_emits (t : PlaylistTabBar) (id : Int) : Bool :=
  decide (0 ≤ t.index_of id ∧ t.index_of id ≤ t.currentIndex)

end PlaylistTabBar

/-- What the container uses of its `QTimeLine`: the direction, the end of the
frame range, and how often it was started. -/
structure QTimeLine where
  forward : Bool
  endFrame : Int
  starts : Nat
  deriving DecidableEq, Repr

/-- The members of `PlaylistContainer` that the slots below read or write.
`current_playlist` is the entry of that name in `settings_`, `none` when the
settings have no such entry. -/
structure PlaylistContainer where
  tab_bar : PlaylistTabBar
  starting_up_ : Bool
  tab_bar_visible_ : Bool
  tab_bar_animation_ : QTimeLine
  current_playlist : Option Int
  deriving DecidableEq, Repr

namespace PlaylistContainer

/-- The constructor: no tabs, a tab bar of maximum height 0, `starting_up_`
set, `tab_bar_visible_` clear.  `stored` is the `current_playlist` entry the
settings hold. -/
def create (stored : Option Int) : PlaylistContainer :=
  { tab_bar := { tabs := [], currentIndex := -1, maximumHeight := 0 }
    starting_up_ := true
    tab_bar_visible_ := false
    tab_bar_animation_ := { forward := true, endFrame := 0, starts := 0 }
    current_playlist := stored }

/-- The slot `SetTabBarVisible`. -/
def SetTabBarVisible (c : PlaylistContainer) (visible : Bool) : PlaylistContainer :=
  if c.tab_bar_visible_ = visible then c
  else
    { c with
      tab_bar_visible_ := visible
      tab_bar_animation_ :=
        { c.tab_bar_animation_ with
          forward := visible
          starts := c.tab_bar_animation_.starts + 1 } }

/-- The slot `Save`. -/
def Save (c : PlaylistContainer) : PlaylistContainer :=
  if c.starting_up_ then c
  else { c with current_playlist := some c.tab_bar.current_id }

/-- The signal `currentChanged` of the tab bar.  The constructor connects it to
`Save`, so when a method of the tab bar emits it, `Save` runs inside that
method, on the tab bar as it is then. -/
def currentChanged (c : PlaylistContainer) (emitted : Bool) : PlaylistContainer :=
  if emitted then c.Save else c

/-- The slot `PlaylistAdded`.  `isVisible` is what `isVisible()` answers and
`height` the height of the size hint of the tab bar.  `idOnInsert` is the id
the new tab answers with while `InsertTab` emits `currentChanged` for the first
tab of a bar: `InsertTab` is outside the sources, and whether the tab carries
`id` by then is not known.  When `InsertTab` returns the tab carries `id`. -/
def PlaylistAdded (c : PlaylistContainer) (id : Int) (name : String) (isVisible : Bool)
    (height : Int) (idOnInsert : Int) : PlaylistContainer :=
  let index := c.tab_bar.count
  let c0 :=
    ({ c with tab_bar := c.tab_bar.InsertTab idOnInsert index name } :
      PlaylistContainer).currentChanged c.tab_bar.InsertTab_emits
  let c1 := { c0 with tab_bar := c.tab_bar.InsertTab id index name }
  let c2 :=
    if c1.starting_up_ ∧ c1.current_playlist.getD 1 = id then
      ({ c1 with starting_up_ := false, tab_bar := c1.tab_bar.set_current_id id } :
        PlaylistContainer).currentChanged (c1.tab_bar.set_current_id_emits id)
    else c1
  if 1 < c2.tab_bar.count then
    let c3 := { c2 with tab_bar_animation_ := { c2.tab_bar_animation_ with endFrame := height } }
    if !isVisible then
      { c3 with
        tab_bar_visible_ := true
        tab_bar := { c3.tab_bar with maximumHeight := c3.tab_bar_animation_.endFrame } }
    else c3.SetTabBarVisible true
  else c2

/-- The slot `PlaylistRemoved`. -/
def PlaylistRemoved (c : PlaylistContainer) (id : Int) : PlaylistContainer :=
  let c1 :=
    ({ c with tab_bar := c.tab_bar.RemoveTab id } :
      PlaylistContainer).currentChanged (c.tab_bar.RemoveTab_emits id)
  if c1.tab_bar.count ≤ 1 then c1.SetTabBarVisible false else c1

/-- A notification the container receives. -/
inductive Notification where
  | PlaylistAdded (id : Int) (name : String) (isVisible : Bool) (height : Int)
      (idOnInsert : Int)
  | PlaylistRemoved (id : Int)
  | Save
  deriving DecidableEq, Repr

/-- The slot a notification runs. -/
def notify (c : PlaylistContainer) : Notification → PlaylistContainer
  | .PlaylistAdded id name isVisible height idOnInsert =>
    c.PlaylistAdded id name isVisible height idOnInsert
  | .PlaylistRemoved id => c.PlaylistRemoved id
  | .Save => c.Save

/-- A sequence of notifications, in order. -/
def notifyAll (c : PlaylistContainer) (notifications : List Notification) : PlaylistContainer :=
  notifications.foldl notify c

/-- Whether the notification adds a playlist with the id. -/
def addsPlaylist (id : Int) : Notification → Bool
  | .PlaylistAdded id' _ _ _ _ => id' == id
  | _ => false

/-! ### The directory of the last saved playlist -/

/-- The fields `QString::split` gives with empty parts kept. -/
def splitSections (sep : Char) : List Char → List (List Char)
  | [] => [[]]
  | c :: cs =>
    if c = sep then [] :: splitSections sep cs
    else
      match splitSections sep cs with
      | [] => [[c]]
      | field :: fields => (c :: field) :: fields

/-- Fields joined with the separator between them. -/
def joinSections (sep : Char) : List (List Char) → List Char
  | [] => []
  | [field] => field
  | field :: next :: fields => field ++ sep :: joinSections sep (next :: fields)

/-- The method `QString::section(sep, start, end)` with the default flags: the
fields from `start` to `end`, a negative position counting from the end. -/
def «section» (text : List Char) (sep : Char) (start stop : Int) : List Char :=
  let fields := splitSections sep text
  let first := if start < 0 then start + fields.length else start
  let last := if stop < 0 then stop + fields.length else stop
  joinSections sep ((fields.take (last + 1).toNat).drop first.toNat)

/-- The loop of `SavePlaylist` that strips file name components until a folder
is left, with `fuel` iterations at most.  `isDir n text` is what the file system
answers when the `n`-th iteration asks whether `text` is a directory. -/
def stripToFolder (isDir : Nat → List Char → Bool) :
    Nat → Nat → List Char → Option (List Char)
  | 0, _, _ => none
  | fuel + 1, n, filename =>
    if filename.isEmpty || isDir n filename then some filename
    else stripToFolder isDir fuel (n + 1) («section» filename '/' 0 (-2))

/-- The folder `SavePlaylist` suggests: what the loop leaves, or the home
directory when that is empty. -/
def saveFolder (isDir : Nat → List Char → Bool) (homePath : List Char) (fuel : Nat)
    (filename : List Char) : Option (List Char) :=
  match stripToFolder isDir fuel 0 filename with
  | none => none
  | some folder => some (if folder.isEmpty then homePath else folder)

end PlaylistContainer

/-! ## The button constants of `wiimotedev/consts.h` -/

namespace WiimoteDev

/-- The enumerator `GENERAL_WIIMOTE_BTN_1` of `GENERAL_BUTTONS`, given the value 0. -/
def GENERAL_WIIMOTE_BTN_1 : Nat := 0

/-- The enumerator `GENERAL_WIIMOTE_BTN_2` of `GENERAL_BUTTONS`: one more than the enumerator
before it. -/
def GENERAL_WIIMOTE_BTN_2 : Nat := GENERAL_WIIMOTE_BTN_1 + 1

/-- The enumerator `GENERAL_WIIMOTE_BTN_A` of `GENERAL_BUTTONS`: one more than the enumerator
before it. -/
def GENERAL_WIIMOTE_BTN_A : Nat := GENERAL_WIIMOTE_BTN_2 + 1

/-- The enumerator `GENERAL_WIIMOTE_BTN_B` of `GENERAL_BUTTONS`: one more than the enumerator
before it. -/
def GENERAL_WIIMOTE_BTN_B : Nat := GENERAL_WIIMOTE_BTN_A + 1

/-- The enumerator `GENERAL_WIIMOTE_BTN_MINUS` of `GENERAL_BUTTONS`: one more than the enumerator
before it. -/
def GENERAL_WIIMOTE_BTN_MINUS : Nat := GENERAL_WIIMOTE_BTN_B + 1

/-- The enumerator `GENERAL_WIIMOTE_BTN_PLUS` of `GENERAL_BUTTONS`: one more than the enumerator
before it. -/
def GENERAL_WIIMOTE_BTN_PLUS : Nat := GENERAL_WIIMOTE_BTN_MINUS + 1

/-- The enumerator `GENERAL_WIIMOTE_BTN_HOME` of `GENERAL_BUTTONS`: one more than the enumerator
before it. -/
def GENERAL_WIIMOTE_BTN_HOME : Nat := GENERAL_WIIMOTE_BTN_PLUS + 1

/-- The enumerator `GENERAL_WIIMOTE_BTN_RIGHT` of `GENERAL_BUTTONS`: one more than the enumerator
before it. -/
def GENERAL_WIIMOTE_BTN_RIGHT : Nat := GENERAL_WIIMOTE_BTN_HOME + 1

/-- The enumerator `GENERAL_WIIMOTE_BTN_LEFT` of `GENERAL_BUTTONS`: one more than the enumerator
before it. -/
def GENERAL_WIIMOTE_BTN_LEFT : Nat := GENERAL_WIIMOTE_BTN_RIGHT + 1

/-- The enumerator `GENERAL_WIIMOTE_BTN_DOWN` of `GENERAL_BUTTONS`: one more than the enumerator
before it. -/
def GENERAL_WIIMOTE_BTN_DOWN : Nat := GENERAL_WIIMOTE_BTN_LEFT + 1

/-- The enumerator `GENERAL_WIIMOTE_BTN_UP` of `GENERAL_BUTTONS`: one more than the enumerator
before it. -/
def GENERAL_WIIMOTE_BTN_UP : Nat := GENERAL_WIIMOTE_BTN_DOWN + 1

/-- The enumerator `GENERAL_WIIMOTE_BTN_SHIFT_BACKWARD` of `GENERAL_BUTTONS`: one more than the enumerator
before it. -/
def GENERAL_WIIMOTE_BTN_SHIFT_BACKWARD : Nat := GENERAL_WIIMOTE_BTN_UP + 1

/-- The enumerator `GENERAL_WIIMOTE_BTN_SHIFT_FORWARD` of `GENERAL_BUTTONS`: one more than the enumerator
before it. -/
def GENERAL_WIIMOTE_BTN_SHIFT_FORWARD : Nat := GENERAL_WIIMOTE_BTN_SHIFT_BACKWARD + 1

/-- The enumerator `GENERAL_WIIMOTE_BTN_SHIFT_RIGHT` of `GENERAL_BUTTONS`: one more than the enumerator
before it. -/
def GENERAL_WIIMOTE_BTN_SHIFT_RIGHT : Nat := GENERAL_WIIMOTE_BTN_SHIFT_FORWARD + 1

/-- The enumerator `GENERAL_WIIMOTE_BTN_SHIFT_LEFT` of `GENERAL_BUTTONS`: one more than the enumerator
before it. -/
def GENERAL_WIIMOTE_BTN_SHIFT_LEFT : Nat := GENERAL_WIIMOTE_BTN_SHIFT_RIGHT + 1

/-- The enumerator `GENERAL_WIIMOTE_BTN_SHIFT_DOWN` of `GENERAL_BUTTONS`: one more than the enumerator
before it. -/
def GENERAL_WIIMOTE_BTN_SHIFT_DOWN : Nat := GENERAL_WIIMOTE_BTN_SHIFT_LEFT + 1

/-- The enumerator `GENERAL_WIIMOTE_BTN_SHIFT_UP` of `GENERAL_BUTTONS`: one more than the enumerator
before it. -/
def GENERAL_WIIMOTE_BTN_SHIFT_UP : Nat := GENERAL_WIIMOTE_BTN_SHIFT_DOWN + 1

/-- The enumerator `GENERAL_WIIMOTE_BTN_TILT_FRONT` of `GENERAL_BUTTONS`: one more than the enumerator
before it. -/
def GENERAL_WIIMOTE_BTN_TILT_FRONT : Nat := GENERAL_WIIMOTE_BTN_SHIFT_UP + 1

/-- The enumerator `GENERAL_WIIMOTE_BTN_TILT_BACK` of `GENERAL_BUTTONS`: one more than the enumerator
before it. -/
def GENERAL_WIIMOTE_BTN_TILT_BACK : Nat := GENERAL_WIIMOTE_BTN_TILT_FRONT + 1

/-- The enumerator `GENERAL_WIIMOTE_BTN_TILT_RIGHT` of `GENERAL_BUTTONS`: one more than the enumerator
before it. -/
def GENERAL_WIIMOTE_BTN_TILT_RIGHT : Nat := GENERAL_WIIMOTE_BTN_TILT_BACK + 1

/-- The enumerator `GENERAL_WIIMOTE_BTN_TILT_LEFT` of `GENERAL_BUTTONS`: one more than the enumerator
before it. -/
def GENERAL_WIIMOTE_BTN_TILT_LEFT : Nat := GENERAL_WIIMOTE_BTN_TILT_RIGHT + 1

/-- The enumerator `GENERAL_NUNCHUK_BTN_C` of `GENERAL_BUTTONS`: one more than the enumerator
before it. -/
def GENERAL_NUNCHUK_BTN_C : Nat := GENERAL_WIIMOTE_BTN_TILT_LEFT + 1

/-- The enumerator `GENERAL_NUNCHUK_BTN_Z` of `GENERAL_BUTTONS`: one more than the enumerator
before it. -/
def GENERAL_NUNCHUK_BTN_Z : Nat := GENERAL_NUNCHUK_BTN_C + 1

/-- The enumerator `GENERAL_NUNCHUK_BTN_STICK_RIGHT` of `GENERAL_BUTTONS`: one more than the enumerator
before it. -/
def GENERAL_NUNCHUK_BTN_STICK_RIGHT : Nat := GENERAL_NUNCHUK_BTN_Z + 1

/-- The enumerator `GENERAL_NUNCHUK_BTN_STICK_LEFT` of `GENERAL_BUTTONS`: one more than the enumerator
before it. -/
def GENERAL_NUNCHUK_BTN_STICK_LEFT : Nat := GENERAL_NUNCHUK_BTN_STICK_RIGHT + 1

/-- The enumerator `GENERAL_NUNCHUK_BTN_STICK_DOWN` of `GENERAL_BUTTONS`: one more than the enumerator
before it. -/
def GENERAL_NUNCHUK_BTN_STICK_DOWN : Nat := GENERAL_NUNCHUK_BTN_STICK_LEFT + 1

/-- The enumerator `GENERAL_NUNCHUK_BTN_STICK_UP` of `GENERAL_BUTTONS`: one more than the enumerator
before it. -/
def GENERAL_NUNCHUK_BTN_STICK_UP : Nat := GENERAL_NUNCHUK_BTN_STICK_DOWN + 1

/-- The enumerator `GENERAL_NUNCHUK_BTN_SHIFT_BACKWARD` of `GENERAL_BUTTONS`: one more than the enumerator
before it. -/
def GENERAL_NUNCHUK_BTN_SHIFT_BACKWARD : Nat := GENERAL_NUNCHUK_BTN_STICK_UP + 1

/-- The enumerator `GENERAL_NUNCHUK_BTN_SHIFT_FORWARD` of `GENERAL_BUTTONS`: one more than the enumerator
before it. -/
def GENERAL_NUNCHUK_BTN_SHIFT_FORWARD : Nat := GENERAL_NUNCHUK_BTN_SHIFT_BACKWARD + 1

/-- The enumerator `GENERAL_NUNCHUK_BTN_SHIFT_RIGHT` of `GENERAL_BUTTONS`: one more than the enumerator
before it. -/
def GENERAL_NUNCHUK_BTN_SHIFT_RIGHT : Nat := GENERAL_NUNCHUK_BTN_SHIFT_FORWARD + 1

/-- The enumerator `GENERAL_NUNCHUK_BTN_SHIFT_LEFT` of `GENERAL_BUTTONS`: one more than the enumerator
before it. -/
def GENERAL_NUNCHUK_BTN_SHIFT_LEFT : Nat := GENERAL_NUNCHUK_BTN_SHIFT_RIGHT + 1

/-- The enumerator `GENERAL_NUNCHUK_BTN_SHIFT_DOWN` of `GENERAL_BUTTONS`: one more than the enumerator
before it. -/
def GENERAL_NUNCHUK_BTN_SHIFT_DOWN : Nat := GENERAL_NUNCHUK_BTN_SHIFT_LEFT + 1

/-- The enumerator `GENERAL_NUNCHUK_BTN_SHIFT_UP` of `GENERAL_BUTTONS`: one more than the enumerator
before it. -/
def GENERAL_NUNCHUK_BTN_SHIFT_UP : Nat := GENERAL_NUNCHUK_BTN_SHIFT_DOWN + 1

/-- The enumerator `GENERAL_NUNCHUK_BTN_TILT_FRONT` of `GENERAL_BUTTONS`: one more than the enumerator
before it. -/
def GENERAL_NUNCHUK_BTN_TILT_FRONT : Nat := GENERAL_NUNCHUK_BTN_SHIFT_UP + 1

/-- The enumerator `GENERAL_NUNCHUK_BTN_TILT_BACK` of `GENERAL_BUTTONS`: one more than the enumerator
before it. -/
def GENERAL_NUNCHUK_BTN_TILT_BACK : Nat := GENERAL_NUNCHUK_BTN_TILT_FRONT + 1

/-- The enumerator `GENERAL_NUNCHUK_BTN_TILT_RIGHT` of `GENERAL_BUTTONS`: one more than the enumerator
before it. -/
def GENERAL_NUNCHUK_BTN_TILT_RIGHT : Nat := GENERAL_NUNCHUK_BTN_TILT_BACK + 1

/-- The enumerator `GENERAL_NUNCHUK_BTN_TILT_LEFT` of `GENERAL_BUTTONS`: one more than the enumerator
before it. -/
def GENERAL_NUNCHUK_BTN_TILT_LEFT : Nat := GENERAL_NUNCHUK_BTN_TILT_RIGHT + 1

/-- The enumerator `GENERAL_CLASSIC_BTN_X` of `GENERAL_BUTTONS`: one more than the enumerator
before it. -/
def GENERAL_CLASSIC_BTN_X : Nat := GENERAL_NUNCHUK_BTN_TILT_LEFT + 1

/-- The enumerator `GENERAL_CLASSIC_BTN_Y` of `GENERAL_BUTTONS`: one more than the enumerator
before it. -/
def GENERAL_CLASSIC_BTN_Y : Nat := GENERAL_CLASSIC_BTN_X + 1

/-- The enumerator `GENERAL_CLASSIC_BTN_A` of `GENERAL_BUTTONS`: one more than the enumerator
before it. -/
def GENERAL_CLASSIC_BTN_A : Nat := GENERAL_CLASSIC_BTN_Y + 1

/-- The enumerator `GENERAL_CLASSIC_BTN_B` of `GENERAL_BUTTONS`: one more than the enumerator
before it. -/
def GENERAL_CLASSIC_BTN_B : Nat := GENERAL_CLASSIC_BTN_A + 1

/-- The enumerator `GENERAL_CLASSIC_BTN_L` of `GENERAL_BUTTONS`: one more than the enumerator
before it. -/
def GENERAL_CLASSIC_BTN_L : Nat := GENERAL_CLASSIC_BTN_B + 1

/-- The enumerator `GENERAL_CLASSIC_BTN_R` of `GENERAL_BUTTONS`: one more than the enumerator
before it. -/
def GENERAL_CLASSIC_BTN_R : Nat := GENERAL_CLASSIC_BTN_L + 1

/-- The enumerator `GENERAL_CLASSIC_BTN_ZL` of `GENERAL_BUTTONS`: one more than the enumerator
before it. -/
def GENERAL_CLASSIC_BTN_ZL : Nat := GENERAL_CLASSIC_BTN_R + 1

/-- The enumerator `GENERAL_CLASSIC_BTN_ZR` of `GENERAL_BUTTONS`: one more than the enumerator
before it. -/
def GENERAL_CLASSIC_BTN_ZR : Nat := GENERAL_CLASSIC_BTN_ZL + 1

/-- The enumerator `GENERAL_CLASSIC_BTN_MINUS` of `GENERAL_BUTTONS`: one more than the enumerator
before it. -/
def GENERAL_CLASSIC_BTN_MINUS : Nat := GENERAL_CLASSIC_BTN_ZR + 1

/-- The enumerator `GENERAL_CLASSIC_BTN_PLUS` of `GENERAL_BUTTONS`: one more than the enumerator
before it. -/
def GENERAL_CLASSIC_BTN_PLUS : Nat := GENERAL_CLASSIC_BTN_MINUS + 1

/-- The enumerator `GENERAL_CLASSIC_BTN_HOME` of `GENERAL_BUTTONS`: one more than the enumerator
before it. -/
def GENERAL_CLASSIC_BTN_HOME : Nat := GENERAL_CLASSIC_BTN_PLUS + 1

/-- The enumerator `GENERAL_CLASSIC_BTN_RIGHT` of `GENERAL_BUTTONS`: one more than the enumerator
before it. -/
def GENERAL_CLASSIC_BTN_RIGHT : Nat := GENERAL_CLASSIC_BTN_HOME + 1

/-- The enumerator `GENERAL_CLASSIC_BTN_LEFT` of `GENERAL_BUTTONS`: one more than the enumerator
before it. -/
def GENERAL_CLASSIC_BTN_LEFT : Nat := GENERAL_CLASSIC_BTN_RIGHT + 1

/-- The enumerator `GENERAL_CLASSIC_BTN_DOWN` of `GENERAL_BUTTONS`: one more than the enumerator
before it. -/
def GENERAL_CLASSIC_BTN_DOWN : Nat := GENERAL_CLASSIC_BTN_LEFT + 1

/-- The enumerator `GENERAL_CLASSIC_BTN_UP` of `GENERAL_BUTTONS`: one more than the enumerator
before it. -/
def GENERAL_CLASSIC_BTN_UP : Nat := GENERAL_CLASSIC_BTN_DOWN + 1

/-- The enumerator `GENERAL_CLASSIC_BTN_LSTICK_RIGHT` of `GENERAL_BUTTONS`: one more than the enumerator
before it. -/
def GENERAL_CLASSIC_BTN_LSTICK_RIGHT : Nat := GENERAL_CLASSIC_BTN_UP + 1

/-- The enumerator `GENERAL_CLASSIC_BTN_LSTICK_LEFT` of `GENERAL_BUTTONS`: one more than the enumerator
before it. -/
def GENERAL_CLASSIC_BTN_LSTICK_LEFT : Nat := GENERAL_CLASSIC_BTN_LSTICK_RIGHT + 1

/-- The enumerator `GENERAL_CLASSIC_BTN_LSTICK_DOWN` of `GENERAL_BUTTONS`: one more than the enumerator
before it. -/
def GENERAL_CLASSIC_BTN_LSTICK_DOWN : Nat := GENERAL_CLASSIC_BTN_LSTICK_LEFT + 1

/-- The enumerator `GENERAL_CLASSIC_BTN_LSTICK_UP` of `GENERAL_BUTTONS`: one more than the enumerator
before it. -/
def GENERAL_CLASSIC_BTN_LSTICK_UP : Nat := GENERAL_CLASSIC_BTN_LSTICK_DOWN + 1

/-- The enumerator `GENERAL_CLASSIC_BTN_RSTICK_RIGHT` of `GENERAL_BUTTONS`: one more than the enumerator
before it. -/
def GENERAL_CLASSIC_BTN_RSTICK_RIGHT : Nat := GENERAL_CLASSIC_BTN_LSTICK_UP + 1

/-- The enumerator `GENERAL_CLASSIC_BTN_RSTICK_LEFT` of `GENERAL_BUTTONS`: one more than the enumerator
before it. -/
def GENERAL_CLASSIC_BTN_RSTICK_LEFT : Nat := GENERAL_CLASSIC_BTN_RSTICK_RIGHT + 1

/-- The enumerator `GENERAL_CLASSIC_BTN_RSTICK_DOWN` of `GENERAL_BUTTONS`: one more than the enumerator
before it. -/
def GENERAL_CLASSIC_BTN_RSTICK_DOWN : Nat := GENERAL_CLASSIC_BTN_RSTICK_LEFT + 1

/-- The enumerator `GENERAL_CLASSIC_BTN_RSTICK_UP` of `GENERAL_BUTTONS`: one more than the enumerator
before it. -/
def GENERAL_CLASSIC_BTN_RSTICK_UP : Nat := GENERAL_CLASSIC_BTN_RSTICK_DOWN + 1

/-- The enumerator `GENERAL_WIIMOTE_BTN_SHIFT_SHAKE` of `GENERAL_BUTTONS`: one more than the enumerator
before it. -/
def GENERAL_WIIMOTE_BTN_SHIFT_SHAKE : Nat := GENERAL_CLASSIC_BTN_RSTICK_UP + 1

/-- The enumerator `GENERAL_NUNCHUK_BTN_SHIFT_SHAKE` of `GENERAL_BUTTONS`: one more than the enumerator
before it. -/
def GENERAL_NUNCHUK_BTN_SHIFT_SHAKE : Nat := GENERAL_WIIMOTE_BTN_SHIFT_SHAKE + 1

/-- The macro `calcbit(x)`: the `uint64` value 1 shifted left by `x`. -/
def calcbit (x : Nat) : Nat := (1 <<< x) % 2 ^ 64

/-- The constant `WIIMOTE_BTN_1`. -/
def WIIMOTE_BTN_1 : Nat := calcbit GENERAL_WIIMOTE_BTN_1

/-- The constant `WIIMOTE_BTN_2`. -/
def WIIMOTE_BTN_2 : Nat := calcbit GENERAL_WIIMOTE_BTN_2

/-- The constant `WIIMOTE_BTN_A`. -/
def WIIMOTE_BTN_A : Nat := calcbit GENERAL_WIIMOTE_BTN_A

/-- The constant `WIIMOTE_BTN_B`. -/
def WIIMOTE_BTN_B : Nat := calcbit GENERAL_WIIMOTE_BTN_B

/-- The constant `WIIMOTE_BTN_MINUS`. -/
def WIIMOTE_BTN_MINUS : Nat := calcbit GENERAL_WIIMOTE_BTN_MINUS

/-- The constant `WIIMOTE_BTN_PLUS`. -/
def WIIMOTE_BTN_PLUS : Nat := calcbit GENERAL_WIIMOTE_BTN_PLUS

/-- The constant `WIIMOTE_BTN_HOME`. -/
def WIIMOTE_BTN_HOME : Nat := calcbit GENERAL_WIIMOTE_BTN_HOME

/-- The constant `WIIMOTE_BTN_RIGHT`. -/
def WIIMOTE_BTN_RIGHT : Nat := calcbit GENERAL_WIIMOTE_BTN_RIGHT

/-- The constant `WIIMOTE_BTN_LEFT`. -/
def WIIMOTE_BTN_LEFT : Nat := calcbit GENERAL_WIIMOTE_BTN_LEFT

/-- The constant `WIIMOTE_BTN_DOWN`. -/
def WIIMOTE_BTN_DOWN : Nat := calcbit GENERAL_WIIMOTE_BTN_DOWN

/-- The constant `WIIMOTE_BTN_UP`. -/
def WIIMOTE_BTN_UP : Nat := calcbit GENERAL_WIIMOTE_BTN_UP

/-- The constant `WIIMOTE_BTN_SHIFT_BACKWARD`. -/
def WIIMOTE_BTN_SHIFT_BACKWARD : Nat := calcbit GENERAL_WIIMOTE_BTN_SHIFT_BACKWARD

/-- The constant `WIIMOTE_BTN_SHIFT_FORWARD`. -/
def WIIMOTE_BTN_SHIFT_FORWARD : Nat := calcbit GENERAL_WIIMOTE_BTN_SHIFT_FORWARD

/-- The constant `WIIMOTE_BTN_SHIFT_RIGHT`. -/
def WIIMOTE_BTN_SHIFT_RIGHT : Nat := calcbit GENERAL_WIIMOTE_BTN_SHIFT_RIGHT

/-- The constant `WIIMOTE_BTN_SHIFT_LEFT`. -/
def WIIMOTE_BTN_SHIFT_LEFT : Nat := calcbit GENERAL_WIIMOTE_BTN_SHIFT_LEFT

/-- The constant `WIIMOTE_BTN_SHIFT_DOWN`. -/
def WIIMOTE_BTN_SHIFT_DOWN : Nat := calcbit GENERAL_WIIMOTE_BTN_SHIFT_DOWN

/-- The constant `WIIMOTE_BTN_SHIFT_UP`. -/
def WIIMOTE_BTN_SHIFT_UP : Nat := calcbit GENERAL_WIIMOTE_BTN_SHIFT_UP

/-- The constant `WIIMOTE_BTN_TILT_FRONT`. -/
def WIIMOTE_BTN_TILT_FRONT : Nat := calcbit GENERAL_WIIMOTE_BTN_TILT_FRONT

/-- The constant `WIIMOTE_BTN_TILT_BACK`. -/
def WIIMOTE_BTN_TILT_BACK : Nat := calcbit GENERAL_WIIMOTE_BTN_TILT_BACK

/-- The constant `WIIMOTE_BTN_TILT_RIGHT`. -/
def WIIMOTE_BTN_TILT_RIGHT : Nat := calcbit GENERAL_WIIMOTE_BTN_TILT_RIGHT

/-- The constant `WIIMOTE_BTN_TILT_LEFT`. -/
def WIIMOTE_BTN_TILT_LEFT : Nat := calcbit GENERAL_WIIMOTE_BTN_TILT_LEFT

/-- The constant `NUNCHUK_BTN_C`. -/
def NUNCHUK_BTN_C : Nat := calcbit GENERAL_NUNCHUK_BTN_C

/-- The constant `NUNCHUK_BTN_Z`. -/
def NUNCHUK_BTN_Z : Nat := calcbit GENERAL_NUNCHUK_BTN_Z

/-- The constant `NUNCHUK_BTN_STICK_RIGHT`. -/
def NUNCHUK_BTN_STICK_RIGHT : Nat := calcbit GENERAL_NUNCHUK_BTN_STICK_RIGHT

/-- The constant `NUNCHUK_BTN_STICK_LEFT`. -/
def NUNCHUK_BTN_STICK_LEFT : Nat := calcbit GENERAL_NUNCHUK_BTN_STICK_LEFT

/-- The constant `NUNCHUK_BTN_STICK_DOWN`. -/
def NUNCHUK_BTN_STICK_DOWN : Nat := calcbit GENERAL_NUNCHUK_BTN_STICK_DOWN

/-- The constant `NUNCHUK_BTN_STICK_UP`. -/
def NUNCHUK_BTN_STICK_UP : Nat := calcbit GENERAL_NUNCHUK_BTN_STICK_UP

/-- The constant `NUNCHUK_BTN_SHIFT_BACKWARD`. -/
def NUNCHUK_BTN_SHIFT_BACKWARD : Nat := calcbit GENERAL_NUNCHUK_BTN_SHIFT_BACKWARD

/-- The constant `NUNCHUK_BTN_SHIFT_FORWARD`. -/
def NUNCHUK_BTN_SHIFT_FORWARD : Nat := calcbit GENERAL_NUNCHUK_BTN_SHIFT_FORWARD

/-- The constant `NUNCHUK_BTN_SHIFT_RIGHT`. -/
def NUNCHUK_BTN_SHIFT_RIGHT : Nat := calcbit GENERAL_NUNCHUK_BTN_SHIFT_RIGHT

/-- The constant `NUNCHUK_BTN_SHIFT_LEFT`. -/
def NUNCHUK_BTN_SHIFT_LEFT : Nat := calcbit GENERAL_NUNCHUK_BTN_SHIFT_LEFT

/-- The constant `NUNCHUK_BTN_SHIFT_DOWN`. -/
def NUNCHUK_BTN_SHIFT_DOWN : Nat := calcbit GENERAL_NUNCHUK_BTN_SHIFT_DOWN

/-- The constant `NUNCHUK_BTN_SHIFT_UP`. -/
def NUNCHUK_BTN_SHIFT_UP : Nat := calcbit GENERAL_NUNCHUK_BTN_SHIFT_UP

/-- The constant `NUNCHUK_BTN_TILT_FRONT`. -/
def NUNCHUK_BTN_TILT_FRONT : Nat := calcbit GENERAL_NUNCHUK_BTN_TILT_FRONT

/-- The constant `NUNCHUK_BTN_TILT_BACK`. -/
def NUNCHUK_BTN_TILT_BACK : Nat := calcbit GENERAL_NUNCHUK_BTN_TILT_BACK

/-- The constant `NUNCHUK_BTN_TILT_RIGHT`. -/
def NUNCHUK_BTN_TILT_RIGHT : Nat := calcbit GENERAL_NUNCHUK_BTN_TILT_RIGHT

/-- The constant `NUNCHUK_BTN_TILT_LEFT`. -/
def NUNCHUK_BTN_TILT_LEFT : Nat := calcbit GENERAL_NUNCHUK_BTN_TILT_LEFT

/-- The constant `CLASSIC_BTN_X`. -/
def CLASSIC_BTN_X : Nat := calcbit GENERAL_CLASSIC_BTN_X

/-- The constant `CLASSIC_BTN_Y`. -/
def CLASSIC_BTN_Y : Nat := calcbit GENERAL_CLASSIC_BTN_Y

/-- The constant `CLASSIC_BTN_A`. -/
def CLASSIC_BTN_A : Nat := calcbit GENERAL_CLASSIC_BTN_A

/-- The constant `CLASSIC_BTN_B`. -/
def CLASSIC_BTN_B : Nat := calcbit GENERAL_CLASSIC_BTN_B

/-- The constant `CLASSIC_BTN_L`. -/
def CLASSIC_BTN_L : Nat := calcbit GENERAL_CLASSIC_BTN_L

/-- The constant `CLASSIC_BTN_R`. -/
def CLASSIC_BTN_R : Nat := calcbit GENERAL_CLASSIC_BTN_R

/-- The constant `CLASSIC_BTN_ZL`. -/
def CLASSIC_BTN_ZL : Nat := calcbit GENERAL_CLASSIC_BTN_ZL

/-- The constant `CLASSIC_BTN_ZR`. -/
def CLASSIC_BTN_ZR : Nat := calcbit GENERAL_CLASSIC_BTN_ZR

/-- The constant `CLASSIC_BTN_MINUS`. -/
def CLASSIC_BTN_MINUS : Nat := calcbit GENERAL_CLASSIC_BTN_MINUS

/-- The constant `CLASSIC_BTN_PLUS`. -/
def CLASSIC_BTN_PLUS : Nat := calcbit GENERAL_CLASSIC_BTN_PLUS

/-- The constant `CLASSIC_BTN_HOME`. -/
def CLASSIC_BTN_HOME : Nat := calcbit GENERAL_CLASSIC_BTN_HOME

/-- The constant `CLASSIC_BTN_RIGHT`. -/
def CLASSIC_BTN_RIGHT : Nat := calcbit GENERAL_CLASSIC_BTN_RIGHT

/-- The constant `CLASSIC_BTN_LEFT`. -/
def CLASSIC_BTN_LEFT : Nat := calcbit GENERAL_CLASSIC_BTN_LEFT

/-- The constant `CLASSIC_BTN_DOWN`. -/
def CLASSIC_BTN_DOWN : Nat := calcbit GENERAL_CLASSIC_BTN_DOWN

/-- The constant `CLASSIC_BTN_UP`. -/
def CLASSIC_BTN_UP : Nat := calcbit GENERAL_CLASSIC_BTN_UP

/-- The constant `CLASSIC_BTN_LSTICK_RIGHT`. -/
def CLASSIC_BTN_LSTICK_RIGHT : Nat := calcbit GENERAL_CLASSIC_BTN_LSTICK_RIGHT

/-- The constant `CLASSIC_BTN_LSTICK_LEFT`. -/
def CLASSIC_BTN_LSTICK_LEFT : Nat := calcbit GENERAL_CLASSIC_BTN_LSTICK_LEFT

/-- The constant `CLASSIC_BTN_LSTICK_DOWN`. -/
def CLASSIC_BTN_LSTICK_DOWN : Nat := calcbit GENERAL_CLASSIC_BTN_LSTICK_DOWN

/-- The constant `CLASSIC_BTN_LSTICK_UP`. -/
def CLASSIC_BTN_LSTICK_UP : Nat := calcbit GENERAL_CLASSIC_BTN_LSTICK_UP

/-- The constant `CLASSIC_BTN_RSTICK_RIGHT`. -/
def CLASSIC_BTN_RSTICK_RIGHT : Nat := calcbit GENERAL_CLASSIC_BTN_RSTICK_RIGHT

/-- The constant `CLASSIC_BTN_RSTICK_LEFT`. -/
def CLASSIC_BTN_RSTICK_LEFT : Nat := calcbit GENERAL_CLASSIC_BTN_RSTICK_LEFT

/-- The constant `CLASSIC_BTN_RSTICK_DOWN`. -/
def CLASSIC_BTN_RSTICK_DOWN : Nat := calcbit GENERAL_CLASSIC_BTN_RSTICK_DOWN

/-- The constant `CLASSIC_BTN_RSTICK_UP`. -/
def CLASSIC_BTN_RSTICK_UP : Nat := calcbit GENERAL_CLASSIC_BTN_RSTICK_UP

/-- The constant `WIIMOTE_BTN_SHIFT_SHAKE`. -/
def WIIMOTE_BTN_SHIFT_SHAKE : Nat := calcbit GENERAL_WIIMOTE_BTN_SHIFT_SHAKE

/-- The constant `NUNCHUK_BTN_SHIFT_SHAKE`. -/
def NUNCHUK_BTN_SHIFT_SHAKE : Nat := calcbit GENERAL_NUNCHUK_BTN_SHIFT_SHAKE

/-- The constant `WIIMOTE_BUTTON_MASK`. -/
def WIIMOTE_BUTTON_MASK : Nat :=
  WIIMOTE_BTN_1 |||
    WIIMOTE_BTN_2 |||
    WIIMOTE_BTN_A |||
    WIIMOTE_BTN_B |||
    WIIMOTE_BTN_MINUS |||
    WIIMOTE_BTN_PLUS |||
    WIIMOTE_BTN_HOME |||
    WIIMOTE_BTN_RIGHT |||
    WIIMOTE_BTN_LEFT |||
    WIIMOTE_BTN_DOWN |||
    WIIMOTE_BTN_UP

/-- The constant `WIIMOTE_SHIFT_MASK`. -/
def WIIMOTE_SHIFT_MASK : Nat :=
  WIIMOTE_BTN_SHIFT_BACKWARD |||
    WIIMOTE_BTN_SHIFT_FORWARD |||
    WIIMOTE_BTN_SHIFT_RIGHT |||
    WIIMOTE_BTN_SHIFT_LEFT |||
    WIIMOTE_BTN_SHIFT_DOWN |||
    WIIMOTE_BTN_SHIFT_UP |||
    WIIMOTE_BTN_SHIFT_SHAKE

/-- The constant `WIIMOTE_TILT_MASK`. -/
def WIIMOTE_TILT_MASK : Nat :=
  WIIMOTE_BTN_TILT_FRONT |||
    WIIMOTE_BTN_TILT_BACK |||
    WIIMOTE_BTN_TILT_RIGHT |||
    WIIMOTE_BTN_TILT_LEFT

/-- The constant `NUNCHUK_BUTTON_MASK`. -/
def NUNCHUK_BUTTON_MASK : Nat :=
  NUNCHUK_BTN_C |||
    NUNCHUK_BTN_Z

/-- The constant `NUNCHUK_STICK_MASK`. -/
def NUNCHUK_STICK_MASK : Nat :=
  NUNCHUK_BTN_STICK_RIGHT |||
    NUNCHUK_BTN_STICK_LEFT |||
    NUNCHUK_BTN_STICK_DOWN |||
    NUNCHUK_BTN_STICK_UP

/-- The constant `NUNCHUK_SHIFT_MASK`. -/
def NUNCHUK_SHIFT_MASK : Nat :=
  NUNCHUK_BTN_SHIFT_BACKWARD |||
    NUNCHUK_BTN_SHIFT_FORWARD |||
    NUNCHUK_BTN_SHIFT_RIGHT |||
    NUNCHUK_BTN_SHIFT_LEFT |||
    NUNCHUK_BTN_SHIFT_DOWN |||
    NUNCHUK_BTN_SHIFT_UP |||
    NUNCHUK_BTN_SHIFT_SHAKE

/-- The constant `NUNCHUK_TILT_MASK`. -/
def NUNCHUK_TILT_MASK : Nat :=
  NUNCHUK_BTN_TILT_FRONT |||
    NUNCHUK_BTN_TILT_BACK |||
    NUNCHUK_BTN_TILT_RIGHT |||
    NUNCHUK_BTN_TILT_LEFT

/-- The constant `CLASSIC_BUTTON_MASK`. -/
def CLASSIC_BUTTON_MASK : Nat :=
  CLASSIC_BTN_X |||
    CLASSIC_BTN_Y |||
    CLASSIC_BTN_A |||
    CLASSIC_BTN_B |||
    CLASSIC_BTN_L |||
    CLASSIC_BTN_R |||
    CLASSIC_BTN_ZL |||
    CLASSIC_BTN_ZR |||
    CLASSIC_BTN_MINUS |||
    CLASSIC_BTN_PLUS |||
    CLASSIC_BTN_HOME |||
    CLASSIC_BTN_RIGHT |||
    CLASSIC_BTN_LEFT |||
    CLASSIC_BTN_DOWN |||
    CLASSIC_BTN_UP

/-- The constant `CLASSIC_LSTICK_MASK`. -/
def CLASSIC_LSTICK_MASK : Nat :=
  CLASSIC_BTN_LSTICK_RIGHT |||
    CLASSIC_BTN_LSTICK_LEFT |||
    CLASSIC_BTN_LSTICK_DOWN |||
    CLASSIC_BTN_LSTICK_UP

/-- The constant `CLASSIC_RSTICK_MASK`. -/
def CLASSIC_RSTICK_MASK : Nat :=
  CLASSIC_BTN_RSTICK_RIGHT |||
    CLASSIC_BTN_RSTICK_LEFT |||
    CLASSIC_BTN_RSTICK_DOWN |||
    CLASSIC_BTN_RSTICK_UP

/-- The operator `~` on a `uint64`. -/
def complement (x : Nat) : Nat := 2 ^ 64 - 1 - x % 2 ^ 64

/-- The constant `WIIMOTE_BUTTON_NOTMASK`. -/
def WIIMOTE_BUTTON_NOTMASK : Nat := complement WIIMOTE_BUTTON_MASK

/-- The constant `WIIMOTE_SHIFT_NOTMASK`. -/
def WIIMOTE_SHIFT_NOTMASK : Nat := complement WIIMOTE_SHIFT_MASK

/-- The constant `WIIMOTE_TILT_NOTMASK`. -/
def WIIMOTE_TILT_NOTMASK : Nat := complement WIIMOTE_TILT_MASK

/-- The constant `NUNCHUK_BUTTON_NOTMASK`. -/
def NUNCHUK_BUTTON_NOTMASK : Nat := complement NUNCHUK_BUTTON_MASK

/-- The constant `NUNCHUK_STICK_NOTMASK`. -/
def NUNCHUK_STICK_NOTMASK : Nat := complement NUNCHUK_STICK_MASK

/-- The constant `NUNCHUK_SHIFT_NOTMASK`. -/
def NUNCHUK_SHIFT_NOTMASK : Nat := complement NUNCHUK_SHIFT_MASK

/-- The constant `NUNCHUK_TILT_NOTMASK`. -/
def NUNCHUK_TILT_NOTMASK : Nat := complement NUNCHUK_TILT_MASK

/-- The constant `CLASSIC_BUTTON_NOTMASK`. -/
def CLASSIC_BUTTON_NOTMASK : Nat := complement CLASSIC_BUTTON_MASK

/-- The constant `CLASSIC_LSTICK_NOTMASK`. -/
def CLASSIC_LSTICK_NOTMASK : Nat := complement CLASSIC_LSTICK_MASK

/-- The constant `CLASSIC_RSTICK_NOTMASK`. -/
def CLASSIC_RSTICK_NOTMASK : Nat := complement CLASSIC_RSTICK_MASK

/-- Every button constant with its enumerator, in the order of the enumeration. -/
def buttons : List (Nat × Nat) :=
  [(WIIMOTE_BTN_1, GENERAL_WIIMOTE_BTN_1),
    (WIIMOTE_BTN_2, GENERAL_WIIMOTE_BTN_2),
    (WIIMOTE_BTN_A, GENERAL_WIIMOTE_BTN_A),
    (WIIMOTE_BTN_B, GENERAL_WIIMOTE_BTN_B),
    (WIIMOTE_BTN_MINUS, GENERAL_WIIMOTE_BTN_MINUS),
    (WIIMOTE_BTN_PLUS, GENERAL_WIIMOTE_BTN_PLUS),
    (WIIMOTE_BTN_HOME, GENERAL_WIIMOTE_BTN_HOME),
    (WIIMOTE_BTN_RIGHT, GENERAL_WIIMOTE_BTN_RIGHT),
    (WIIMOTE_BTN_LEFT, GENERAL_WIIMOTE_BTN_LEFT),
    (WIIMOTE_BTN_DOWN, GENERAL_WIIMOTE_BTN_DOWN),
    (WIIMOTE_BTN_UP, GENERAL_WIIMOTE_BTN_UP),
    (WIIMOTE_BTN_SHIFT_BACKWARD, GENERAL_WIIMOTE_BTN_SHIFT_BACKWARD),
    (WIIMOTE_BTN_SHIFT_FORWARD, GENERAL_WIIMOTE_BTN_SHIFT_FORWARD),
    (WIIMOTE_BTN_SHIFT_RIGHT, GENERAL_WIIMOTE_BTN_SHIFT_RIGHT),
    (WIIMOTE_BTN_SHIFT_LEFT, GENERAL_WIIMOTE_BTN_SHIFT_LEFT),
    (WIIMOTE_BTN_SHIFT_DOWN, GENERAL_WIIMOTE_BTN_SHIFT_DOWN),
    (WIIMOTE_BTN_SHIFT_UP, GENERAL_WIIMOTE_BTN_SHIFT_UP),
    (WIIMOTE_BTN_TILT_FRONT, GENERAL_WIIMOTE_BTN_TILT_FRONT),
    (WIIMOTE_BTN_TILT_BACK, GENERAL_WIIMOTE_BTN_TILT_BACK),
    (WIIMOTE_BTN_TILT_RIGHT, GENERAL_WIIMOTE_BTN_TILT_RIGHT),
    (WIIMOTE_BTN_TILT_LEFT, GENERAL_WIIMOTE_BTN_TILT_LEFT),
    (NUNCHUK_BTN_C, GENERAL_NUNCHUK_BTN_C),
    (NUNCHUK_BTN_Z, GENERAL_NUNCHUK_BTN_Z),
    (NUNCHUK_BTN_STICK_RIGHT, GENERAL_NUNCHUK_BTN_STICK_RIGHT),
    (NUNCHUK_BTN_STICK_LEFT, GENERAL_NUNCHUK_BTN_STICK_LEFT),
    (NUNCHUK_BTN_STICK_DOWN, GENERAL_NUNCHUK_BTN_STICK_DOWN),
    (NUNCHUK_BTN_STICK_UP, GENERAL_NUNCHUK_BTN_STICK_UP),
    (NUNCHUK_BTN_SHIFT_BACKWARD, GENERAL_NUNCHUK_BTN_SHIFT_BACKWARD),
    (NUNCHUK_BTN_SHIFT_FORWARD, GENERAL_NUNCHUK_BTN_SHIFT_FORWARD),
    (NUNCHUK_BTN_SHIFT_RIGHT, GENERAL_NUNCHUK_BTN_SHIFT_RIGHT),
    (NUNCHUK_BTN_SHIFT_LEFT, GENERAL_NUNCHUK_BTN_SHIFT_LEFT),
    (NUNCHUK_BTN_SHIFT_DOWN, GENERAL_NUNCHUK_BTN_SHIFT_DOWN),
    (NUNCHUK_BTN_SHIFT_UP, GENERAL_NUNCHUK_BTN_SHIFT_UP),
    (NUNCHUK_BTN_TILT_FRONT, GENERAL_NUNCHUK_BTN_TILT_FRONT),
    (NUNCHUK_BTN_TILT_BACK, GENERAL_NUNCHUK_BTN_TILT_BACK),
    (NUNCHUK_BTN_TILT_RIGHT, GENERAL_NUNCHUK_BTN_TILT_RIGHT),
    (NUNCHUK_BTN_TILT_LEFT, GENERAL_NUNCHUK_BTN_TILT_LEFT),
    (CLASSIC_BTN_X, GENERAL_CLASSIC_BTN_X),
    (CLASSIC_BTN_Y, GENERAL_CLASSIC_BTN_Y),
    (CLASSIC_BTN_A, GENERAL_CLASSIC_BTN_A),
    (CLASSIC_BTN_B, GENERAL_CLASSIC_BTN_B),
    (CLASSIC_BTN_L, GENERAL_CLASSIC_BTN_L),
    (CLASSIC_BTN_R, GENERAL_CLASSIC_BTN_R),
    (CLASSIC_BTN_ZL, GENERAL_CLASSIC_BTN_ZL),
    (CLASSIC_BTN_ZR, GENERAL_CLASSIC_BTN_ZR),
    (CLASSIC_BTN_MINUS, GENERAL_CLASSIC_BTN_MINUS),
    (CLASSIC_BTN_PLUS, GENERAL_CLASSIC_BTN_PLUS),
    (CLASSIC_BTN_HOME, GENERAL_CLASSIC_BTN_HOME),
    (CLASSIC_BTN_RIGHT, GENERAL_CLASSIC_BTN_RIGHT),
    (CLASSIC_BTN_LEFT, GENERAL_CLASSIC_BTN_LEFT),
    (CLASSIC_BTN_DOWN, GENERAL_CLASSIC_BTN_DOWN),
    (CLASSIC_BTN_UP, GENERAL_CLASSIC_BTN_UP),
    (CLASSIC_BTN_LSTICK_RIGHT, GENERAL_CLASSIC_BTN_LSTICK_RIGHT),
    (CLASSIC_BTN_LSTICK_LEFT, GENERAL_CLASSIC_BTN_LSTICK_LEFT),
    (CLASSIC_BTN_LSTICK_DOWN, GENERAL_CLASSIC_BTN_LSTICK_DOWN),
    (CLASSIC_BTN_LSTICK_UP, GENERAL_CLASSIC_BTN_LSTICK_UP),
    (CLASSIC_BTN_RSTICK_RIGHT, GENERAL_CLASSIC_BTN_RSTICK_RIGHT),
    (CLASSIC_BTN_RSTICK_LEFT, GENERAL_CLASSIC_BTN_RSTICK_LEFT),
    (CLASSIC_BTN_RSTICK_DOWN, GENERAL_CLASSIC_BTN_RSTICK_DOWN),
    (CLASSIC_BTN_RSTICK_UP, GENERAL_CLASSIC_BTN_RSTICK_UP),
    (WIIMOTE_BTN_SHIFT_SHAKE, GENERAL_WIIMOTE_BTN_SHIFT_SHAKE),
    (NUNCHUK_BTN_SHIFT_SHAKE, GENERAL_NUNCHUK_BTN_SHIFT_SHAKE)]

/-- The ten group masks. -/
def masks : List Nat :=
  [WIIMOTE_BUTTON_MASK,
    WIIMOTE_SHIFT_MASK,
    WIIMOTE_TILT_MASK,
    NUNCHUK_BUTTON_MASK,
    NUNCHUK_STICK_MASK,
    NUNCHUK_SHIFT_MASK,
    NUNCHUK_TILT_MASK,
    CLASSIC_BUTTON_MASK,
    CLASSIC_LSTICK_MASK,
    CLASSIC_RSTICK_MASK]

/-- The ten group masks, each with its complement constant. -/
def maskPairs : List (Nat × Nat) :=
  [(WIIMOTE_BUTTON_MASK, WIIMOTE_BUTTON_NOTMASK),
    (WIIMOTE_SHIFT_MASK, WIIMOTE_SHIFT_NOTMASK),
    (WIIMOTE_TILT_MASK, WIIMOTE_TILT_NOTMASK),
    (NUNCHUK_BUTTON_MASK, NUNCHUK_BUTTON_NOTMASK),
    (NUNCHUK_STICK_MASK, NUNCHUK_STICK_NOTMASK),
    (NUNCHUK_SHIFT_MASK, NUNCHUK_SHIFT_NOTMASK),
    (NUNCHUK_TILT_MASK, NUNCHUK_TILT_NOTMASK),
    (CLASSIC_BUTTON_MASK, CLASSIC_BUTTON_NOTMASK),
    (CLASSIC_LSTICK_MASK, CLASSIC_LSTICK_NOTMASK),
    (CLASSIC_RSTICK_MASK, CLASSIC_RSTICK_NOTMASK)]

end WiimoteDev

/-! ## Example states -/

/-- An engine whose sample buffer holds two samples and whose snapshot has four
entries. -/
def engineWithTwoSamples : VlcEngine :=
  { VlcEngine.create 4 with
    scope_data_ := { capacity := 4096, items := [1, -2] }
    scope_ := [7, 8, 9, 10] }

/-- The constructed engine after `Load` on a source for which
`libvlc_media_new` raised an exception. -/
def engineAfterFailedLoad : VlcEngine :=
  ((VlcEngine.create 4).Load "file:///missing.mp3" true false).2

/-- The native player answering that it is not playing, without raising. -/
def notPlaying : Reply Bool := { value := false, raises := false }

/-- The native player answering that it is playing, without raising. -/
def playing : Reply Bool := { value := true, raises := false }

/-- Native events of a track that is opened, played, paused, runs to its end
and is stopped. -/
def playThenEnd : List libvlc_event_type_t :=
  [libvlc_event_type_t.MediaPlayerOpening, libvlc_event_type_t.MediaPlayerPlaying,
    libvlc_event_type_t.MediaPlayerPaused, libvlc_event_type_t.MediaPlayerEndReached,
    libvlc_event_type_t.MediaPlayerStopped]

/-- Two native state changes that follow a change at time 0, at 50 ms and at
140 ms. -/
def settledBurst : List (Nat × Phonon.State) :=
  [(50, Phonon.State.BufferingState), (140, Phonon.State.PausedState)]

/-- A freshly constructed Phonon engine whose media object is stopped. -/
def stoppedPhonon : PhononEngine :=
  PhononEngine.create ⟨Phonon.State.StoppedState, "", 0, 0⟩

/-- An engine whose sample buffer holds six samples and whose snapshot has four
entries. -/
def engineWithSixSamples : VlcEngine :=
  { VlcEngine.create 4 with
    scope_data_ := { capacity := 4096, items := [1 / 2, -1 / 4, 0, 3 / 4, -1, 1 / 8] } }

/-- Native state changes that precede the start of playback. -/
def changesBeforePlaying : List (Nat × Phonon.State) :=
  [(0, Phonon.State.LoadingState), (20, Phonon.State.BufferingState)]

/-- Native state changes after playback started: paused, then playing again. -/
def changesAfterPlaying : List (Nat × Phonon.State) :=
  [(300, Phonon.State.PausedState), (900, Phonon.State.PlayingState)]

/-- A fetcher with two pending requests, for the replies at 100 and 200. -/
def pendingFetcher : EchoNestImages :=
  (EchoNestImages.FetchInfo ⟨[], [], []⟩ 5 "Artist" 100).FetchInfo 6 "Other" 200

/-- A parser that leaves two images in the artist and throws `ParseError`. -/
def parsedTwoImages (a : Echonest.Artist) (_reply : Nat) : Echonest.Parsed :=
  { artist := { a with images := ["http://img/1", "http://img/2"] }, threw := true }

/-- A valid pipeline with two registered buffer consumers. -/
def pipelineWithConsumers : GstEnginePipeline :=
  { valid_ := true, sink_ := "", device_ := "", buffer_consumers_ := [11, 12],
    segment_start_ := 0, segment_start_received_ := false, eq_enabled_ := false,
    eq_preamp_ := 0, eq_band_gains_ := [], rg_enabled_ := false, rg_mode_ := 0,
    rg_preamp_ := 0, rg_compression_ := false, buffer_duration_ms_ := 1000,
    url_ := "file:///a.mp3", next_url_ := "", ignore_tags_ := false, redirect_url_ := "",
    volume_percent_ := 100, volume_modifier_ := 1 }

/-- Notifications during start-up, before the playlist with the stored id 1
arrives: two other playlists, each followed by a tab change. -/
def notificationsBeforeStartupTab : List PlaylistContainer.Notification :=
  [PlaylistContainer.Notification.PlaylistAdded 2 "Second" false 24 0,
    PlaylistContainer.Notification.Save,
    PlaylistContainer.Notification.PlaylistAdded 3 "Third" false 24 3,
    PlaylistContainer.Notification.Save]

/-! ## Properties of `VlcEngine` -/

namespace VlcEngine

/-- C1: when the sample buffer holds fewer than `kScopeSize` samples, `Scope`
returns the stored snapshot `scope_` as it was and leaves the engine, hence the
sample buffer `scope_data_` and the snapshot, unchanged. -/
theorem Scope_unchanged_of_few_samples (kScopeSize : Nat) (e : VlcEngine)
    (h : e.scope_data_.size < kScopeSize) :
    (e.Scope kScopeSize).1 = e.scope_ ∧ (e.Scope kScopeSize).2 = e ∧
      (e.Scope kScopeSize).2.scope_data_ = e.scope_data_ ∧
      (e.Scope kScopeSize).2.scope_ = e.scope_ := by
  simp [Scope, h]

/-- Witness of C1: two samples buffered, four needed. -/
theorem Scope_unchanged_of_few_samples_witness :
    engineWithTwoSamples.scope_data_.size < 4 ∧
      ((engineWithTwoSamples.Scope 4).1 = engineWithTwoSamples.scope_ ∧
        (engineWithTwoSamples.Scope 4).2 = engineWithTwoSamples ∧
        (engineWithTwoSamples.Scope 4).2.scope_data_ = engineWithTwoSamples.scope_data_ ∧
        (engineWithTwoSamples.Scope 4).2.scope_ = engineWithTwoSamples.scope_) :=
  ⟨by decide, Scope_unchanged_of_few_samples 4 engineWithTwoSamples (by decide)⟩

/-- C4, as stated, fails: asked to seek to 5000 ms in a track of 1000 ms, `Seek`
returns normally after handing the native player the position 5, which is not
below 1. -/
theorem Seek_target_counterexample :
    ((create 4).Seek 5000 playing ⟨1000, false⟩ false).isReturned = true ∧
      ((create 4).Seek 5000 playing ⟨1000, false⟩ false).engine.setPositions = [5] ∧
      ¬ ((5 : Rat) < 1) := by
  refine ⟨?_, ?_, by norm_num⟩
  · simp [Seek, length, HandleErrors, call, create, playing, Outcome.isReturned]
  · simp [Seek, length, HandleErrors, call, create, playing, Outcome.engine, setPositions]
    norm_num

/-- A native call adds its position to the log exactly when it is a set-position call. -/
theorem setPositions_call (e : VlcEngine) (c : NativeCall) (r : Bool) :
    (e.call c r).setPositions = e.setPositions ++
      (match c with
        | .media_player_set_position p => [p]
        | _ => []) := by
  cases c <;> simp [call, setPositions, List.filterMap_append]

/-- The method `HandleErrors` leaves the engine as it is. -/
theorem engine_HandleErrors (e : VlcEngine) : (HandleErrors e).engine = e := by
  unfold HandleErrors; split <;> rfl

/-- The method `length` hands no position to the native player. -/
theorem setPositions_length (e : VlcEngine) (is_playing : Reply Bool) (get_length : Reply Int) :
    (e.length is_playing get_length).engine.setPositions = e.setPositions := by
  unfold length HandleErrors
  split_ifs <;> simp only [Outcome.engine, setPositions_call, List.append_nil]
  split_ifs <;> simp only [Outcome.engine, setPositions_call, List.append_nil]

/-- C4, amended: `Seek` does not clamp.  When `length()` returns `len > 0`,
`Seek(ms)` hands the native player exactly one position, the quotient
`ms / len`; it is never negative, and it is below 1 (the time `ms` lies inside
the track) exactly when `ms < len`. -/
theorem Seek_target (e e1 : VlcEngine) (ms len : Nat) (is_playing : Reply Bool)
    (get_length : Reply Int) (set_position : Bool)
    (hlen : e.length is_playing get_length = Outcome.returned len e1) (hpos : 0 < len) :
    (e.Seek ms is_playing get_length set_position).engine.setPositions
        = e.setPositions ++ [(ms : Rat) / (len : Rat)] ∧
      0 ≤ (ms : Rat) / (len : Rat) ∧
      ((ms : Rat) / (len : Rat) < 1 ↔ ms < len) := by
  have hlen0 : len ≠ 0 := Nat.pos_iff_ne_zero.mp hpos
  have hq : (0 : Rat) < (len : Rat) := by exact_mod_cast hpos
  have h := setPositions_length e is_playing get_length
  rw [hlen] at h
  refine ⟨?_, by positivity, ?_⟩
  · simp only [Seek, hlen, hlen0, if_false, engine_HandleErrors, setPositions_call]
    rw [show (Outcome.returned len e1).engine = e1 from rfl] at h
    rw [h]
  · rw [div_lt_one hq]; exact_mod_cast Iff.rfl

/-- Witness of C4, amended: seeking to 250 ms in a playing track of 1000 ms. -/
theorem Seek_target_witness :
    ((create 4).length playing ⟨1000, false⟩
        = Outcome.returned 1000 (((create 4).call NativeCall.media_player_is_playing false).call
            NativeCall.media_player_get_length false) ∧ 0 < 1000) ∧
      (((create 4).Seek 250 playing ⟨1000, false⟩ false).engine.setPositions
          = (create 4).setPositions ++ [((250 : Nat) : Rat) / ((1000 : Nat) : Rat)] ∧
        0 ≤ ((250 : Nat) : Rat) / ((1000 : Nat) : Rat) ∧
        (((250 : Nat) : Rat) / ((1000 : Nat) : Rat) < 1 ↔ 250 < 1000)) :=
  ⟨⟨rfl, by decide⟩, Seek_target (create 4) _ 250 1000 playing ⟨1000, false⟩ false rfl (by decide)⟩

/-- C6, as stated, fails: on `libvlc_MediaPlayerEncounteredError` the constructed
engine emits `StateChanged(Empty)` and no `Error` signal. -/
theorem EncounteredError_counterexample :
    ((create 4).StateChangedCallback libvlc_event_type_t.MediaPlayerEncounteredError).emitted
        = [Signal.StateChanged Engine.State.Empty] ∧
      ((create 4).StateChangedCallback
        libvlc_event_type_t.MediaPlayerEncounteredError).emitted.filter Signal.isError = [] := by
  decide

/-- C6, amended: on `libvlc_MediaPlayerEncounteredError` the callback sets
`state_` to `Empty` and emits `StateChanged(Empty)`, nothing else; no `Error`
signal is added. -/
theorem EncounteredError_publishes_Empty (e : VlcEngine) :
    e.StateChangedCallback libvlc_event_type_t.MediaPlayerEncounteredError
        = { e with state_ := Engine.State.Empty,
                   emitted := e.emitted ++ [Signal.StateChanged Engine.State.Empty] } ∧
      (e.StateChangedCallback libvlc_event_type_t.MediaPlayerEncounteredError).emitted.filter
          Signal.isError = e.emitted.filter Signal.isError := by
  simp [StateChangedCallback, List.filter_append, Signal.isError]

/-- C7, as stated, fails: when `libvlc_media_player_stop` raises an exception,
`Stop` does not return, `qFatal` aborts the process, and no signal was
emitted. -/
theorem Stop_fatal_counterexample :
    ((create 4).Stop true).isReturned = false ∧ ((create 4).Stop true).engine.emitted = [] := by
  decide

/-- The method `HandleErrors` returns exactly when no exception is raised. -/
theorem isReturned_HandleErrors (e : VlcEngine) :
    (HandleErrors e).isReturned = true ↔ e.exception_ = false := by
  unfold HandleErrors; split <;> simp_all [Outcome.isReturned]

/-- A native call emits no signal. -/
theorem emitted_call (e : VlcEngine) (c : NativeCall) (r : Bool) :
    (e.call c r).emitted = e.emitted := rfl

/-- After a native call the exception is raised when it was before or the call raised. -/
theorem exception_call (e : VlcEngine) (c : NativeCall) (r : Bool) :
    (e.call c r).exception_ = (e.exception_ || r) := rfl

/-- When `length` returns. -/
theorem isReturned_length (e : VlcEngine) (is_playing : Reply Bool) (get_length : Reply Int) :
    (e.length is_playing get_length).isReturned = true ↔
      e.exception_ = false ∧ is_playing.raises = false ∧
        (is_playing.value = true → get_length.raises = false) := by
  obtain ⟨v1, r1⟩ := is_playing
  obtain ⟨v4, r4⟩ := get_length
  cases hx : e.exception_ <;> cases r1 <;> cases v1 <;> cases r4 <;>
    simp [length, HandleErrors, call, hx, Outcome.isReturned]

/-- The method `length` emits no signal. -/
theorem emitted_length (e : VlcEngine) (is_playing : Reply Bool) (get_length : Reply Int) :
    (e.length is_playing get_length).engine.emitted = e.emitted := by
  obtain ⟨v1, r1⟩ := is_playing
  obtain ⟨v4, r4⟩ := get_length
  cases hx : e.exception_ <;> cases r1 <;> cases v1 <;> cases r4 <;>
    simp [length, HandleErrors, call, hx, Outcome.engine]

/-- When `position` returns. -/
theorem isReturned_position (e : VlcEngine) (is_playing is_playing2 : Reply Bool)
    (get_position : Reply Rat) (get_length : Reply Int) :
    (e.position is_playing get_position is_playing2 get_length).isReturned = true ↔
      e.exception_ = false ∧ is_playing.raises = false ∧
        (is_playing.value = true → get_position.raises = false ∧ is_playing2.raises = false ∧
          (is_playing2.value = true → get_length.raises = false)) := by
  obtain ⟨v1, r1⟩ := is_playing
  obtain ⟨v2, r2⟩ := is_playing2
  obtain ⟨v3, r3⟩ := get_position
  obtain ⟨v4, r4⟩ := get_length
  cases hx : e.exception_ <;> cases r1 <;> cases v1 <;> cases r3 <;> cases r2 <;> cases v2 <;>
    cases r4 <;> simp [position, length, HandleErrors, call, hx, Outcome.isReturned]

/-- The method `position` emits no signal. -/
theorem emitted_position (e : VlcEngine) (is_playing is_playing2 : Reply Bool)
    (get_position : Reply Rat) (get_length : Reply Int) :
    (e.position is_playing get_position is_playing2 get_length).engine.emitted = e.emitted := by
  obtain ⟨v1, r1⟩ := is_playing
  obtain ⟨v2, r2⟩ := is_playing2
  obtain ⟨v3, r3⟩ := get_position
  obtain ⟨v4, r4⟩ := get_length
  cases hx : e.exception_ <;> cases r1 <;> cases v1 <;> cases r3 <;> cases r2 <;> cases v2 <;>
    cases r4 <;> simp [position, length, HandleErrors, call, hx, Outcome.engine]

/-- When `Seek` returns. -/
theorem isReturned_Seek (e : VlcEngine) (ms : Nat) (is_playing : Reply Bool)
    (get_length : Reply Int) (raises : Bool) :
    (e.Seek ms is_playing get_length raises).isReturned = true ↔
      e.exception_ = false ∧ is_playing.raises = false ∧
        (is_playing.value = true → get_length.raises = false ∧
          ((get_length.value % 2 ^ 32).toNat ≠ 0 → raises = false)) := by
  obtain ⟨v1, r1⟩ := is_playing
  obtain ⟨v4, r4⟩ := get_length
  simp only [Seek, length, HandleErrors, call]
  generalize (v4 % 2 ^ 32).toNat = len
  cases len <;> cases hx : e.exception_ <;> cases r1 <;> cases v1 <;> cases r4 <;>
    cases raises <;> simp [hx, Outcome.isReturned]

/-- The method `Seek` emits no signal. -/
theorem emitted_Seek (e : VlcEngine) (ms : Nat) (is_playing : Reply Bool)
    (get_length : Reply Int) (raises : Bool) :
    (e.Seek ms is_playing get_length raises).engine.emitted = e.emitted := by
  obtain ⟨v1, r1⟩ := is_playing
  obtain ⟨v4, r4⟩ := get_length
  simp only [Seek, length, HandleErrors, call]
  generalize (v4 % 2 ^ 32).toNat = len
  cases len <;> cases hx : e.exception_ <;> cases r1 <;> cases v1 <;> cases r4 <;>
    cases raises <;> simp [hx, Outcome.engine]

/-- One native call followed by `HandleErrors` returns exactly when no exception
was pending and the call did not raise. -/
theorem isReturned_after_call (e : VlcEngine) (c : NativeCall) (raises : Bool) :
    (HandleErrors (e.call c raises)).isReturned = true ↔
      e.exception_ = false ∧ raises = false := by
  rw [isReturned_HandleErrors, exception_call]; simp

/-- C7, amended: each of `Stop`, `Pause`, `Unpause`, `SetVolumeSW`, `length`,
`position` and `Seek` returns normally exactly when the libvlc exception is
raised at none of its `HandleErrors` checks, that is when no exception was
pending and none of the native calls it makes raises; otherwise `qFatal` aborts
the process.  Returning or not, the method emits no signal. -/
theorem native_failure_fatal (e : VlcEngine) (raises : Bool) (volume ms : Nat)
    (is_playing is_playing2 : Reply Bool) (get_position : Reply Rat) (get_length : Reply Int) :
    ((e.Stop raises).isReturned = true ↔ e.exception_ = false ∧ raises = false) ∧
      ((e.Pause raises).isReturned = true ↔ e.exception_ = false ∧ raises = false) ∧
      ((e.Unpause raises).isReturned = true ↔ e.exception_ = false ∧ raises = false) ∧
      ((e.SetVolumeSW volume raises).isReturned = true ↔
        e.exception_ = false ∧ raises = false) ∧
      ((e.length is_playing get_length).isReturned = true ↔
        e.exception_ = false ∧ is_playing.raises = false ∧
          (is_playing.value = true → get_length.raises = false)) ∧
      ((e.position is_playing get_position is_playing2 get_length).isReturned = true ↔
        e.exception_ = false ∧ is_playing.raises = false ∧
          (is_playing.value = true → get_position.raises = false ∧ is_playing2.raises = false ∧
            (is_playing2.value = true → get_length.raises = false))) ∧
      ((e.Seek ms is_playing get_length raises).isReturned = true ↔
        e.exception_ = false ∧ is_playing.raises = false ∧
          (is_playing.value = true → get_length.raises = false ∧
            ((get_length.value % 2 ^ 32).toNat ≠ 0 → raises = false))) ∧
      (e.Stop raises).engine.emitted = e.emitted ∧
      (e.Pause raises).engine.emitted = e.emitted ∧
      (e.Unpause raises).engine.emitted = e.emitted ∧
      (e.SetVolumeSW volume raises).engine.emitted = e.emitted ∧
      (e.length is_playing get_length).engine.emitted = e.emitted ∧
      (e.position is_playing get_position is_playing2 get_length).engine.emitted = e.emitted ∧
      (e.Seek ms is_playing get_length raises).engine.emitted = e.emitted :=
  ⟨isReturned_after_call e _ raises, isReturned_after_call e _ raises,
    isReturned_after_call e _ raises, isReturned_after_call e _ raises,
    isReturned_length e is_playing get_length,
    isReturned_position e is_playing is_playing2 get_position get_length,
    isReturned_Seek e ms is_playing get_length raises,
    by rw [Stop, engine_HandleErrors, emitted_call],
    by rw [Pause, engine_HandleErrors, emitted_call],
    by rw [Unpause, engine_HandleErrors, emitted_call],
    by rw [SetVolumeSW, engine_HandleErrors, emitted_call],
    emitted_length e is_playing get_length,
    emitted_position e is_playing is_playing2 get_position get_length,
    emitted_Seek e ms is_playing get_length raises⟩

/-- The method `Load` returns false exactly when the exception is raised after
creating the media object or after attaching it, and then leaves it raised. -/
theorem Load_returns_false_iff (e : VlcEngine) (url : String) (media_new set_media : Bool) :
    ((e.Load url media_new set_media).1 = false ↔
        (e.call (NativeCall.media_new url) media_new).exception_ = true ∨
          ((e.call (NativeCall.media_new url) media_new).call
            NativeCall.media_player_set_media set_media).exception_ = true) ∧
      (e.Load url media_new set_media).2.exception_ = !(e.Load url media_new set_media).1 := by
  cases hx : e.exception_ <;> cases media_new <;> cases set_media <;> simp [Load, call, hx]

/-- C8, the code at the failing input: `Load` on the constructed engine returns
false when `libvlc_media_new` raises, the exception stays raised, and the next
`Stop` or `position` ends in `qFatal` although no further native call fails. -/
theorem failed_Load_then_fatal :
    ((create 4).Load "file:///missing.mp3" true false).1 = false ∧
      engineAfterFailedLoad.exception_ = true ∧
      (engineAfterFailedLoad.Stop false).isReturned = false ∧
      (engineAfterFailedLoad.position notPlaying ⟨0, false⟩ notPlaying ⟨0, false⟩).isReturned
        = false := by
  refine ⟨rfl, rfl, rfl, ?_⟩
  simp [engineAfterFailedLoad, notPlaying, position, Load, call, HandleErrors, create,
    Outcome.isReturned]

/-- C9: on `libvlc_MediaPlayerEndReached` the callback sets `state_` to `Idle`,
emits `TrackEnded` once and no `StateChanged`; on every other event type it
emits no `TrackEnded`. -/
theorem EndReached_emits_TrackEnded (e : VlcEngine) (type : libvlc_event_type_t) :
    (e.StateChangedCallback libvlc_event_type_t.MediaPlayerEndReached).state_
        = Engine.State.Idle ∧
      (e.StateChangedCallback libvlc_event_type_t.MediaPlayerEndReached).emitted
        = e.emitted ++ [Signal.TrackEnded] ∧
      (e.StateChangedCallback libvlc_event_type_t.MediaPlayerEndReached).emitted.filter
          Signal.isStateChanged = e.emitted.filter Signal.isStateChanged ∧
      (e.StateChangedCallback type).emitted.filter Signal.isTrackEnded
        = e.emitted.filter Signal.isTrackEnded ++
          (if type = libvlc_event_type_t.MediaPlayerEndReached then [Signal.TrackEnded] else []) := by
  refine ⟨rfl, rfl, ?_, ?_⟩
  · simp [StateChangedCallback, List.filter_append, Signal.isStateChanged]
  · cases type <;> simp [StateChangedCallback, List.filter_append, Signal.isTrackEnded]

/-- An event type with a specified state sets that state and publishes it. -/
theorem StateChangedCallback_of_specified (e : VlcEngine) (type : libvlc_event_type_t)
    (s : Engine.State) (h : specifiedState type = some s) :
    e.StateChangedCallback type
      = { e with state_ := s, emitted := e.emitted ++ [Signal.StateChanged s] } := by
  cases type <;> simp [specifiedState] at h <;> subst h <;> rfl

/-- The published states of a sequence of attached events. -/
theorem stateChanged_handleEvents (events : List libvlc_event_type_t) :
    ∀ e : VlcEngine, events.all attached = true →
      (e.handleEvents events).emitted.filter Signal.isStateChanged
        = e.emitted.filter Signal.isStateChanged ++
          (events.filterMap specifiedState).map Signal.StateChanged := by
  induction events with
  | nil => intro e _; simp [handleEvents]
  | cons ev rest ih =>
    intro e h
    simp only [List.all_cons, Bool.and_eq_true] at h
    have hstep : e.handleEvents (ev :: rest) = (e.StateChangedCallback ev).handleEvents rest := by
      simp [handleEvents]
    rw [hstep, ih _ h.2]
    cases ev <;>
      simp [StateChangedCallback, specifiedState, List.filter_append, Signal.isStateChanged,
        attached] at h ⊢

/-- C10: for a sequence of native events of the types the callback is attached
to, the `StateChanged` signals emitted are, in order, the specified states of
the events other than EndReached; the state emitted for an event depends only
on its type, not on the engine it arrives at, and `state_` afterwards is the
state just emitted; EndReached is the only attached type without a state. -/
theorem StateChanged_in_order (e : VlcEngine) (events : List libvlc_event_type_t)
    (h : events.all attached = true) :
    (e.handleEvents events).emitted.filter Signal.isStateChanged
        = e.emitted.filter Signal.isStateChanged ++
          (events.filterMap specifiedState).map Signal.StateChanged ∧
      (∀ (e1 e2 : VlcEngine) (type : libvlc_event_type_t) (s : Engine.State),
        specifiedState type = some s →
          (e1.StateChangedCallback type).emitted = e1.emitted ++ [Signal.StateChanged s] ∧
            (e2.StateChangedCallback type).emitted = e2.emitted ++ [Signal.StateChanged s] ∧
            (e1.StateChangedCallback type).state_ = s ∧
            (e2.StateChangedCallback type).state_ = s) ∧
      (∀ type : libvlc_event_type_t, attached type = true →
        (specifiedState type = none ↔ type = libvlc_event_type_t.MediaPlayerEndReached)) := by
  refine ⟨stateChanged_handleEvents events e h, ?_, ?_⟩
  · intro e1 e2 type s hs
    rw [StateChangedCallback_of_specified e1 type s hs,
      StateChangedCallback_of_specified e2 type s hs]
    exact ⟨rfl, rfl, rfl, rfl⟩
  · intro type ht
    cases type <;> simp [specifiedState, attached] at ht ⊢

/-- Witness of C10: a track opened, played, paused, ended and stopped. -/
theorem StateChanged_in_order_witness :
    playThenEnd.all attached = true ∧
      ((create 4).handleEvents playThenEnd).emitted.filter Signal.isStateChanged
        = (create 4).emitted.filter Signal.isStateChanged ++
          (playThenEnd.filterMap specifiedState).map Signal.StateChanged :=
  ⟨by decide, (StateChanged_in_order (create 4) playThenEnd (by decide)).1⟩

end VlcEngine

/-! ## Properties of `PhononEngine` -/

namespace PhononEngine

/-- The slot `PhononStateChanged` emits no `StateChanged`. -/
theorem stateChanges_PhononStateChanged (e : PhononEngine) (now : Nat) (s : Phonon.State) :
    (e.PhononStateChanged now s).stateChanges = e.stateChanges := by
  unfold PhononStateChanged stateChanges
  by_cases h1 : s = Phonon.State.ErrorState <;>
    by_cases h2 : s = Phonon.State.PlayingState ∧ e.seek_offset_ ≠ -1 <;>
    simp [h1, h2, Signal.isStateChanged]

/-- The slot `PhononStateChanged` restarts the timer for 100 ms from now. -/
theorem timer_PhononStateChanged (e : PhononEngine) (now : Nat) (s : Phonon.State) :
    (e.PhononStateChanged now s).state_timer_ = some (now + 100) := by
  simp [PhononStateChanged]

/-- The slot `PhononStateChanged` does not touch what the media object reports. -/
theorem media_PhononStateChanged (e : PhononEngine) (now : Nat) (s : Phonon.State) :
    (e.PhononStateChanged now s).media_object_ = e.media_object_ := by
  unfold PhononStateChanged
  by_cases h1 : s = Phonon.State.ErrorState <;>
    by_cases h2 : s = Phonon.State.PlayingState ∧ e.seek_offset_ ≠ -1 <;>
    simp [h1, h2]


/-- A timer that is not due yet does nothing. -/
theorem processTimers_not_due (e : PhononEngine) (d now : Nat)
    (hd : e.state_timer_ = some d) (h : now < d) : e.processTimers now = e := by
  simp [processTimers, hd, Nat.not_le.mpr h]

/-- An inactive timer does nothing. -/
theorem processTimers_inactive (e : PhononEngine) (now : Nat)
    (hd : e.state_timer_ = none) : e.processTimers now = e := by
  simp [processTimers, hd]

/-- A due timer becomes inactive and emits `StateChanged(state())` once. -/
theorem processTimers_due (e : PhononEngine) (d now : Nat)
    (hd : e.state_timer_ = some d) (h : d ≤ now) :
    e.processTimers now =
      { e with state_timer_ := none, emitted := e.emitted ++ [Signal.StateChanged e.state] } := by
  simp [processTimers, hd, h, StateTimeoutExpired, state]

/-- A native change emits no `StateChanged` beyond what timers due by then
emitted, restarts the timer and leaves the media object in the new state. -/
theorem nativeStateChange_settles (e : PhononEngine) (c : Nat × Phonon.State) :
    (e.nativeStateChange c).stateChanges = (e.processTimers c.1).stateChanges ∧
      (e.nativeStateChange c).state_timer_ = some (c.1 + 100) ∧
      (e.nativeStateChange c).media_object_.state = c.2 := by
  unfold nativeStateChange
  refine ⟨?_, timer_PhononStateChanged _ _ _, ?_⟩
  · rw [stateChanges_PhononStateChanged]; rfl
  · rw [media_PhononStateChanged]

/-- Inside a burst the timer never expires: no `StateChanged` is emitted, and
the timer is left running from the last change. -/
theorem run_burst (rest : List (Nat × Phonon.State)) :
    ∀ (e : PhononEngine) (c : Nat × Phonon.State), isBurst c rest = true →
      e.state_timer_ = some (c.1 + 100) → e.media_object_.state = c.2 →
      (e.run rest).stateChanges = e.stateChanges ∧
        (e.run rest).state_timer_ = some (((c :: rest).getLast (List.cons_ne_nil c rest)).1 + 100) ∧
        (e.run rest).media_object_.state = ((c :: rest).getLast (List.cons_ne_nil c rest)).2 := by
  induction rest with
  | nil => intro e c _ ht hs; simp [run, ht, hs]
  | cons d rest ih =>
    intro e c hch ht hs
    simp only [isBurst, closeInTime, Bool.and_eq_true, decide_eq_true_eq] at hch
    obtain ⟨hcd, hrest⟩ := hch
    have hq : e.processTimers d.1 = e := processTimers_not_due e _ _ ht hcd.2
    obtain ⟨h1, h2, h3⟩ := nativeStateChange_settles e d
    rw [hq] at h1
    obtain ⟨k1, k2, k3⟩ := ih (e.nativeStateChange d) d hrest h2 h3
    have hrun : e.run (d :: rest) = (e.nativeStateChange d).run rest := by simp [run]
    rw [hrun, List.getLast_cons (List.cons_ne_nil d rest)]
    exact ⟨k1.trans h1, k2, k3⟩

/-- C3: native state changes are debounced.  `PhononStateChanged` never emits
`StateChanged`, it only restarts the 100 ms single-shot timer, and
`StateTimeoutExpired` emits `StateChanged(state())`.  Hence for a burst of
changes `first :: rest` in which each change arrives less than 100 ms after
the previous one: from the arrival of the first change on, no `StateChanged`
is emitted during the burst nor before 100 ms have passed since the last
change; once they have passed exactly one `StateChanged` is emitted, carrying
`state()` as read then, the media object still reporting the state of the last
change; and the timer is inactive afterwards. -/
theorem debounce_burst (e : PhononEngine) (first : Nat × Phonon.State)
    (rest : List (Nat × Phonon.State)) (t : Nat)
    (hburst : isBurst first rest = true)
    (ht : ((first :: rest).getLast (List.cons_ne_nil first rest)).1 + 100 ≤ t) :
    (∀ (e' : PhononEngine) (now : Nat) (s : Phonon.State),
        (e'.PhononStateChanged now s).stateChanges = e'.stateChanges ∧
          (e'.PhononStateChanged now s).state_timer_ = some (now + 100)) ∧
      (∀ e' : PhononEngine,
        e'.StateTimeoutExpired.emitted = e'.emitted ++ [Signal.StateChanged e'.state]) ∧
      (e.run (first :: rest)).stateChanges = (e.processTimers first.1).stateChanges ∧
      (∀ t', t' < ((first :: rest).getLast (List.cons_ne_nil first rest)).1 + 100 →
        (e.run (first :: rest)).processTimers t' = e.run (first :: rest)) ∧
      ((e.run (first :: rest)).processTimers t).emitted
        = (e.run (first :: rest)).emitted ++ [Signal.StateChanged (e.run (first :: rest)).state] ∧
      ((e.run (first :: rest)).processTimers t).stateChanges
        = (e.processTimers first.1).stateChanges ++
          [Signal.StateChanged (e.run (first :: rest)).state] ∧
      (e.run (first :: rest)).media_object_.state
        = ((first :: rest).getLast (List.cons_ne_nil first rest)).2 ∧
      ((e.run (first :: rest)).processTimers t).state_timer_ = none := by
  obtain ⟨h1, h2, h3⟩ := nativeStateChange_settles e first
  obtain ⟨k1, k2, k3⟩ := run_burst rest (e.nativeStateChange first) first hburst h2 h3
  have hrun : e.run (first :: rest) = (e.nativeStateChange first).run rest := by simp [run]
  rw [hrun]
  have hdue := processTimers_due _ _ t k2 ht
  refine ⟨fun e' now s => ⟨stateChanges_PhononStateChanged e' now s,
      timer_PhononStateChanged e' now s⟩, fun e' => rfl, k1.trans h1,
    fun t' ht' => processTimers_not_due _ _ t' k2 ht', ?_, ?_, k3, ?_⟩
  · rw [hdue]
  · rw [hdue]
    have := k1.trans h1
    simp only [stateChanges] at this ⊢
    simp [List.filter_append, this, Signal.isStateChanged]
  · rw [hdue]

/-- Witness of C3: on a freshly constructed engine, changes at 0, 50 and 140 ms
and the timer expiring by 240 ms: one `StateChanged` in all. -/
theorem debounce_burst_witness :
    (isBurst (0, Phonon.State.LoadingState) settledBurst = true ∧
      (((0, Phonon.State.LoadingState) :: settledBurst).getLast
        (List.cons_ne_nil _ _)).1 + 100 ≤ 240) ∧
      ((stoppedPhonon.run
          ((0, Phonon.State.LoadingState) :: settledBurst)).processTimers 240).stateChanges
        = (stoppedPhonon.processTimers 0).stateChanges ++
          [Signal.StateChanged (stoppedPhonon.run
            ((0, Phonon.State.LoadingState) :: settledBurst)).state] :=
  ⟨⟨by decide, by decide⟩,
    (debounce_burst stoppedPhonon (0, Phonon.State.LoadingState)
      settledBurst 240 (by decide) (by decide)).2.2.2.2.2.1⟩

/-- C5: `PhononStateChanged(new_state)` emits `Error` exactly once, carrying the
error string of the media object, when `new_state` is `ErrorState`, and emits
nothing for any other state; in both cases the timer that publishes the
debounced `StateChanged` is started for 100 ms. -/
theorem PhononStateChanged_Error (e : PhononEngine) (now : Nat) (new_state : Phonon.State) :
    (e.PhononStateChanged now new_state).emitted
        = e.emitted ++
          (if new_state = Phonon.State.ErrorState then [Signal.Error e.media_object_.errorString]
            else []) ∧
      (e.PhononStateChanged now new_state).errors
        = e.errors ++
          (if new_state = Phonon.State.ErrorState then [Signal.Error e.media_object_.errorString]
            else []) ∧
      (e.PhononStateChanged now new_state).state_timer_ = some (now + 100) := by
  unfold PhononStateChanged errors
  by_cases h1 : new_state = Phonon.State.ErrorState <;>
    by_cases h2 : new_state = Phonon.State.PlayingState ∧ e.seek_offset_ ≠ -1 <;>
    simp [h1, h2, Signal.isError, List.filter_append]

end PhononEngine

/-! ## The scope buffer and seeking in `VlcEngine` -/

namespace VlcEngine

/-- The loop that fills the snapshot keeps its length. -/
theorem length_fillScope (data : CircularBuffer Rat) (fuel : Nat) :
    ∀ (i : Nat) (scope : List Int), (fillScope data fuel i scope).length = scope.length := by
  induction fuel with
  | zero => intro i scope; rfl
  | succ fuel ih => intro i scope; rw [fillScope, ih]; simp

/-- The entry the loop leaves at index `j`: the converted sample when the loop
wrote there, the old entry otherwise. -/
theorem entry_fillScope (data : CircularBuffer Rat) (fuel : Nat) :
    ∀ (i : Nat) (scope : List Int) (j : Nat),
      (fillScope data fuel i scope)[j]?
        = if i ≤ j ∧ j < i + fuel ∧ j < scope.length then
            some (toScopeEntry (data.get j 0 * (2 : Rat) ^ 15))
          else scope[j]? := by
  induction fuel with
  | zero =>
    intro i scope j
    have h : ¬ (i ≤ j ∧ j < i + 0 ∧ j < scope.length) := by omega
    simp only [fillScope, h, if_false]
  | succ fuel ih =>
    intro i scope j
    rw [fillScope, ih]
    simp only [List.length_set, List.getElem?_set]
    by_cases hij : i = j
    · subst hij
      by_cases hlt : i < scope.length
      · simp [hlt]
      · simp [hlt]
        omega
    · simp only [hij, if_false]
      by_cases h1 : i + 1 ≤ j ∧ j < i + 1 + fuel ∧ j < scope.length
      · have h2 : i ≤ j ∧ j < i + (fuel + 1) ∧ j < scope.length := by omega
        simp [h1, h2]
      · have h2 : ¬ (i ≤ j ∧ j < i + (fuel + 1) ∧ j < scope.length) := by omega
        simp [h1, h2]

/-- On a snapshot of `k` entries and a buffer of at least `k` samples the loop
leaves the first `k` samples, scaled and converted, in order. -/
theorem fillScope_eq_map (data : CircularBuffer Rat) (k : Nat) (scope : List Int)
    (hscope : scope.length = k) (hdata : k ≤ data.size) :
    fillScope data k 0 scope
      = (data.items.take k).map fun x => toScopeEntry (x * (2 : Rat) ^ 15) := by
  apply List.ext_getElem?
  intro j
  rw [entry_fillScope]
  simp only [CircularBuffer.size] at hdata
  by_cases hj : j < k
  · have : 0 ≤ j ∧ j < 0 + k ∧ j < scope.length := by omega
    have hjl : j < data.items.length := by omega
    simp [this, List.getElem?_take, hj, CircularBuffer.get, List.getD, List.getElem?_eq_getElem hjl]
  · have : ¬ (0 ≤ j ∧ j < 0 + k ∧ j < scope.length) := by omega
    have h1 : scope.length ≤ j := by omega
    simp [this, List.getElem?_take, hj, List.getElem?_eq_none h1]

/-- C11, as stated, fails: with six samples buffered and `kScopeSize = 4`, the
two samples behind the first four are not left for the next query; `Scope`
leaves the buffer empty. -/
theorem Scope_drains_counterexample :
    4 ≤ engineWithSixSamples.scope_data_.size ∧
      engineWithSixSamples.scope_data_.items.drop 4 = [-1, 1 / 8] ∧
      (engineWithSixSamples.Scope 4).2.scope_data_.items = [] := by
  refine ⟨by decide, rfl, ?_⟩
  simp [Scope, engineWithSixSamples, CircularBuffer.size, CircularBuffer.rresize, create]

/-- The `rresize` call of `Scope` erases the first `2 * kScopeSize` samples, all
of them when there are fewer. -/
theorem rresize_drop (b : CircularBuffer Rat) (k : Nat) :
    b.rresize (max 0 ((b.size : Int) - (k : Int) * 2)).toNat 0
      = { b with items := b.items.drop (2 * k) } := by
  have hsize : (max 0 ((b.size : Int) - (k : Int) * 2)).toNat = b.size - 2 * k := by omega
  rw [hsize]
  unfold CircularBuffer.rresize CircularBuffer.size
  have h : ¬ b.items.length < b.items.length - 2 * k := by omega
  rw [if_neg h]
  by_cases h2 : 2 * k ≤ b.items.length
  · have : b.items.length - (b.items.length - 2 * k) = 2 * k := by omega
    rw [this]
  · have : b.items.length - (b.items.length - 2 * k) = b.items.length := by omega
    rw [this, List.drop_length, List.drop_eq_nil_of_le (by omega)]

/-- A sample from -1 up to, not including, 1 scales to a value within the range
of `int16_t`, and its entry is the truncated scaled value. -/
theorem toScopeEntry_of_range (x : Rat) (h : -1 ≤ x ∧ x < 1) :
    toScopeEntry (x * (2 : Rat) ^ 15) = truncate (x * (2 : Rat) ^ 15) ∧
      -2 ^ 15 ≤ truncate (x * (2 : Rat) ^ 15) ∧ truncate (x * (2 : Rat) ^ 15) < 2 ^ 15 := by
  obtain ⟨hlo, hhi⟩ := h
  have hbound : (-2 : Int) ^ 15 ≤ truncate (x * (2 : Rat) ^ 15) ∧
      truncate (x * (2 : Rat) ^ 15) < 2 ^ 15 := by
    unfold truncate
    split_ifs with h0
    · constructor
      · have : (0 : Int) ≤ (x * (2 : Rat) ^ 15).floor := Rat.le_floor.mpr (by simpa using h0)
        omega
      · by_contra hge
        have hge' : ((2 ^ 15 : Int) : Rat) ≤ x * (2 : Rat) ^ 15 :=
          Rat.le_floor.mp (not_lt.mp hge)
        norm_num at hge'
        linarith
    · have hneg : x * (2 : Rat) ^ 15 < 0 := not_le.mp h0
      constructor
      · have hle : ¬ ((2 ^ 15 + 1 : Int) ≤ (-(x * (2 : Rat) ^ 15)).floor) := by
          intro hge
          have hge' : ((2 ^ 15 + 1 : Int) : Rat) ≤ -(x * (2 : Rat) ^ 15) := Rat.le_floor.mp hge
          norm_num at hge'
          linarith
        omega
      · have : (0 : Int) ≤ (-(x * (2 : Rat) ^ 15)).floor :=
          Rat.le_floor.mpr (by simpa using (le_of_lt hneg))
        omega
  refine ⟨?_, by omega, hbound.2⟩
  unfold toScopeEntry toInt16
  omega

/-- C11, amended: for a buffer of at least `kScopeSize` samples, the first
`kScopeSize` of them from -1 up to, not including, 1, and a snapshot of
`kScopeSize` entries, `Scope` fills the snapshot with the first `kScopeSize`
buffered samples in order, each scaled by `2 ^ 15` and truncated to an entry
within the range of `int16_t`, and removes the first `2 * kScopeSize` samples
from the front of the buffer (all of them when fewer are buffered); the samples
behind them stay in their order. -/
theorem Scope_drains (kScopeSize : Nat) (e : VlcEngine)
    (hdata : kScopeSize ≤ e.scope_data_.size) (hscope : e.scope_.length = kScopeSize)
    (hrange : ∀ x ∈ e.scope_data_.items.take kScopeSize, -1 ≤ x ∧ x < 1) :
    (e.Scope kScopeSize).1
        = (e.scope_data_.items.take kScopeSize).map (fun x => truncate (x * (2 : Rat) ^ 15)) ∧
      (∀ entry ∈ (e.Scope kScopeSize).1, -2 ^ 15 ≤ entry ∧ entry < 2 ^ 15) ∧
      (e.Scope kScopeSize).2.scope_ = (e.Scope kScopeSize).1 ∧
      (e.Scope kScopeSize).2.scope_data_.items = e.scope_data_.items.drop (2 * kScopeSize) ∧
      (e.Scope kScopeSize).2.scope_data_.size = e.scope_data_.size - 2 * kScopeSize ∧
      (e.Scope kScopeSize).2.scope_data_.capacity = e.scope_data_.capacity := by
  have h : ¬ e.scope_data_.size < kScopeSize := by omega
  have hmap : (e.scope_data_.items.take kScopeSize).map
        (fun x => toScopeEntry (x * (2 : Rat) ^ 15))
      = (e.scope_data_.items.take kScopeSize).map (fun x => truncate (x * (2 : Rat) ^ 15)) :=
    List.map_congr_left fun x hx => (toScopeEntry_of_range x (hrange x hx)).1
  have hS : e.Scope kScopeSize
      = ((e.scope_data_.items.take kScopeSize).map (fun x => truncate (x * (2 : Rat) ^ 15)),
          { e with
            scope_ := (e.scope_data_.items.take kScopeSize).map
              (fun x => truncate (x * (2 : Rat) ^ 15))
            scope_data_ := { e.scope_data_ with items := e.scope_data_.items.drop (2 * kScopeSize) } }) := by
    unfold Scope
    rw [if_neg h]
    simp only [rresize_drop, fillScope_eq_map _ _ _ hscope hdata, hmap]
  rw [hS]
  refine ⟨rfl, ?_, rfl, rfl, ?_, rfl⟩
  · intro entry hentry
    obtain ⟨x, hx, rfl⟩ := List.mem_map.mp hentry
    exact (toScopeEntry_of_range x (hrange x hx)).2
  · simp [CircularBuffer.size]

/-- Witness of C11, amended: six samples buffered, `kScopeSize = 4`. -/
theorem Scope_drains_witness :
    (4 ≤ engineWithSixSamples.scope_data_.size ∧ engineWithSixSamples.scope_.length = 4 ∧
        ∀ x ∈ engineWithSixSamples.scope_data_.items.take 4, -1 ≤ x ∧ x < 1) ∧
      (engineWithSixSamples.Scope 4).1 = [16384, -8192, 0, 24576] ∧
      (engineWithSixSamples.Scope 4).2.scope_data_.items
        = engineWithSixSamples.scope_data_.items.drop (2 * 4) :=
  ⟨⟨by decide, by decide, by simp [engineWithSixSamples]; norm_num⟩,
    (Scope_drains 4 engineWithSixSamples (by decide) (by decide)
      (by simp [engineWithSixSamples]; norm_num)).1.trans (by
        simp only [engineWithSixSamples, List.take, List.map, truncate]
        norm_num
        refine ⟨?_, ?_, ?_⟩ <;> first | rfl | decide),
    (Scope_drains 4 engineWithSixSamples (by decide) (by decide)
      (by simp [engineWithSixSamples]; norm_num)).2.2.2.1⟩

/-- A list of at most `n` items is its own last `n` items. -/
theorem lastItems_of_length_le {α : Type} (n : Nat) (items : List α) (h : items.length ≤ n) :
    lastItems n items = items := by
  unfold lastItems
  rw [Nat.sub_eq_zero_of_le h, List.drop_zero]

/-- The last `n` items are at most `n`. -/
theorem length_lastItems_le {α : Type} (n : Nat) (items : List α) :
    (lastItems n items).length ≤ n := by
  unfold lastItems
  rw [List.length_drop]; omega

/-- Cutting to the last `n` items before appending changes nothing in the end. -/
theorem lastItems_append {α : Type} (n : Nat) (xs ys : List α) :
    lastItems n (lastItems n xs ++ ys) = lastItems n (xs ++ ys) := by
  by_cases h : xs.length ≤ n
  · rw [lastItems_of_length_le n xs h]
  · unfold lastItems
    have hlen : (xs.drop (xs.length - n) ++ ys).length - n = ys.length := by
      rw [List.length_append, List.length_drop]; omega
    have hsplit : (xs ++ ys).length - n = (xs.length - n) + ys.length := by
      rw [List.length_append]; omega
    have hd : (xs ++ ys).drop (xs.length - n) = xs.drop (xs.length - n) ++ ys :=
      List.drop_append_of_le_length (by omega)
    rw [hlen, hsplit, ← List.drop_drop, hd]

/-- One `push_back` on a buffer within its capacity. -/
theorem push_back_items (b : CircularBuffer Rat) (x : Rat) (hcap : 0 < b.capacity)
    (hlen : b.items.length ≤ b.capacity) :
    b.push_back x = { b with items := lastItems b.capacity (b.items ++ [x]) } := by
  unfold CircularBuffer.push_back lastItems
  rw [if_neg (by omega)]
  by_cases hfull : b.capacity ≤ b.items.length
  · have h1 : (b.items ++ [x]).length - b.capacity = 1 := by
      rw [List.length_append, List.length_singleton]; omega
    have hne : b.items ≠ [] := by
      intro h0; rw [h0] at hfull; simp at hfull; omega
    rw [if_pos hfull, h1]
    cases hitems : b.items with
    | nil => exact absurd hitems hne
    | cons y ys => simp
  · have h1 : (b.items ++ [x]).length - b.capacity = 0 := by
      rw [List.length_append, List.length_singleton]; omega
    rw [if_neg hfull, h1, List.drop_zero]

/-- The push loop leaves the last `capacity` items of the old contents followed
by the pushed samples. -/
theorem pushSamples_items (data : Nat → Rat) (fuel : Nat) :
    ∀ (i : Nat) (b : CircularBuffer Rat), 0 < b.capacity → b.items.length ≤ b.capacity →
      pushSamples data fuel i b
        = { b with items := lastItems b.capacity (b.items ++ (List.range' i fuel).map data) } := by
  induction fuel with
  | zero =>
    intro i b _ hlen
    simp [pushSamples, lastItems_of_length_le _ _ hlen]
  | succ fuel ih =>
    intro i b hcap hlen
    have hstep := ih (i + 1)
      { capacity := b.capacity, items := lastItems b.capacity (b.items ++ [data i]) } hcap
      (length_lastItems_le _ _)
    rw [pushSamples, push_back_items b (data i) hcap hlen, hstep]
    simp only [lastItems_append, List.range'_succ, List.map_cons, List.append_assoc,
      List.singleton_append]

/-- The method `Scope` keeps the capacity and does not grow the buffer. -/
theorem scope_data_Scope (kScopeSize : Nat) (e : VlcEngine) :
    (e.Scope kScopeSize).2.scope_data_.capacity = e.scope_data_.capacity ∧
      (e.Scope kScopeSize).2.scope_data_.items.length ≤ e.scope_data_.items.length := by
  unfold Scope
  split_ifs with h
  · exact ⟨rfl, Nat.le_refl _⟩
  · simp only [rresize_drop, List.length_drop]
    exact ⟨trivial, Nat.sub_le _ _⟩

/-- Capacity 4096 and at most 4096 samples are kept by every call. -/
theorem scopeCalls_bounded (kScopeSize : Nat) (calls : List ScopeCall) :
    ∀ e : VlcEngine, e.scope_data_.capacity = 4096 → e.scope_data_.items.length ≤ 4096 →
      (scopeCalls kScopeSize e calls).scope_data_.capacity = 4096 ∧
        (scopeCalls kScopeSize e calls).scope_data_.items.length ≤ 4096 := by
  induction calls with
  | nil => intro e hc hl; exact ⟨hc, hl⟩
  | cons c rest ih =>
    intro e hc hl
    have hstep : scopeCalls kScopeSize e (c :: rest)
        = scopeCalls kScopeSize (scopeCall kScopeSize e c) rest := by simp [scopeCalls]
    rw [hstep]
    cases c with
    | SetScopeData data size =>
      have hp := pushSamples_items data size.toNat 0 e.scope_data_ (by omega) (by omega)
      apply ih
      · simp [scopeCall, SetScopeData, hp, hc]
      · simp only [scopeCall, SetScopeData, hp, Option.getD_some]
        have := length_lastItems_le e.scope_data_.capacity
          (e.scope_data_.items ++ (List.range' 0 size.toNat).map data)
        omega
    | Scope =>
      obtain ⟨h1, h2⟩ := scope_data_Scope kScopeSize e
      apply ih
      · simp only [scopeCall]; omega
      · simp only [scopeCall]; omega

/-- C12: starting from the constructed engine, after every sequence of
`SetScopeData` and `Scope` calls the buffer has capacity 4096 and holds at most
4096 samples; a further `SetScopeData` leaves in it the last 4096 of the old
contents followed by the pushed samples, in push order; and `SetScopeData` does
nothing when there is no engine instance. -/
theorem scope_buffer_circular (kScopeSize : Nat) (calls : List ScopeCall) (data : Nat → Rat)
    (size : Int) :
    ((scopeCalls kScopeSize (create kScopeSize) calls).scope_data_.capacity = 4096 ∧
        (scopeCalls kScopeSize (create kScopeSize) calls).scope_data_.size ≤ 4096) ∧
      SetScopeData (some (scopeCalls kScopeSize (create kScopeSize) calls)) data size
        = some { scopeCalls kScopeSize (create kScopeSize) calls with
            scope_data_ :=
              { capacity := 4096
                items := lastItems 4096
                  ((scopeCalls kScopeSize (create kScopeSize) calls).scope_data_.items ++
                    (List.range size.toNat).map data) } } ∧
      SetScopeData none data size = none := by
  obtain ⟨hc, hl⟩ := scopeCalls_bounded kScopeSize calls (create kScopeSize) rfl
    (by simp [create, CircularBuffer.create])
  refine ⟨⟨hc, hl⟩, ?_, rfl⟩
  have hp := pushSamples_items data size.toNat 0
    (scopeCalls kScopeSize (create kScopeSize) calls).scope_data_ (by omega) (by omega)
  simp only [SetScopeData, hp, hc, List.range_eq_range']

/-- C20: when `length()` returns 0, `Seek` returns without any native call after
those of `length()`, so without a set-position call and without the quotient
`ms / len`; when `length()` returns `len > 0` it issues exactly one native
call, a set-position with the quotient `ms / len`. -/
theorem Seek_zero_length (e e1 : VlcEngine) (ms len : Nat) (is_playing : Reply Bool)
    (get_length : Reply Int) (set_position : Bool)
    (hlen : e.length is_playing get_length = Outcome.returned len e1) :
    ((e.Seek ms is_playing get_length set_position).isReturned = true ∨ 0 < len) ∧
      (e.Seek ms is_playing get_length set_position).engine.native
        = e1.native ++
          (if len = 0 then []
            else [NativeCall.media_player_set_position ((ms : Rat) / (len : Rat))]) ∧
      (e.Seek ms is_playing get_length set_position).engine.setPositions
        = e.setPositions ++ (if len = 0 then [] else [(ms : Rat) / (len : Rat)]) := by
  have h := setPositions_length e is_playing get_length
  rw [hlen] at h
  have h1 : e1.setPositions = e.setPositions := h
  by_cases h0 : len = 0
  · have hS : e.Seek ms is_playing get_length set_position = Outcome.returned () e1 := by
      simp only [Seek, hlen, h0, if_true]
    rw [hS]
    simp [h0, Outcome.isReturned, Outcome.engine, h1]
  · have hS : e.Seek ms is_playing get_length set_position
        = HandleErrors (e1.call (NativeCall.media_player_set_position ((ms : Rat) / (len : Rat)))
            set_position) := by
      simp only [Seek, hlen, h0, if_false]
    rw [hS, engine_HandleErrors, setPositions_call, h1]
    simp only [h0, if_false]
    exact ⟨Or.inr (Nat.pos_of_ne_zero h0), rfl, trivial⟩

/-- Witness of C20: seeking while the player is not playing. -/
theorem Seek_zero_length_witness :
    (create 4).length notPlaying ⟨1000, false⟩
        = Outcome.returned 0 ((create 4).call NativeCall.media_player_is_playing false) ∧
      (((create 4).Seek 250 notPlaying ⟨1000, false⟩ false).isReturned = true ∨ 0 < 0) ∧
      ((create 4).Seek 250 notPlaying ⟨1000, false⟩ false).engine.native
        = ((create 4).call NativeCall.media_player_is_playing false).native ++ [] ∧
      ((create 4).Seek 250 notPlaying ⟨1000, false⟩ false).engine.setPositions
        = (create 4).setPositions ++ [] :=
  ⟨rfl, Seek_zero_length (create 4) _ 250 0 notPlaying ⟨1000, false⟩ false rfl⟩

end VlcEngine

/-! ## The volume handed to the native output -/

/-- The method `VlcEngine::SetVolumeSW` hands its argument to libvlc, converted
to `int`. -/
theorem volumes_Vlc_SetVolumeSW (e : VlcEngine) (volume : Nat) (raises : Bool) :
    (e.SetVolumeSW volume raises).engine.volumes
      = e.volumes ++ [VlcEngine.uintToInt volume] := by
  rw [VlcEngine.SetVolumeSW, VlcEngine.engine_HandleErrors]
  simp [VlcEngine.call, VlcEngine.volumes, List.filterMap_append]

/-- The method `PhononEngine::SetVolumeSW` hands its argument to the audio output
as it is. -/
theorem volumes_Phonon_SetVolumeSW (e : PhononEngine) (volume : Nat) :
    (e.SetVolumeSW volume).volumes = e.volumes ++ [volume] := by
  simp [PhononEngine.SetVolumeSW, PhononEngine.volumes, List.filterMap_append]

/-- C13, as stated, fails: asked for the volume 150, both engines hand 150 to the
native output, which is above the value for 100 percent. -/
theorem SetVolumeSW_counterexample :
    ((VlcEngine.create 4).SetVolumeSW 150 false).isReturned = true ∧
      ((VlcEngine.create 4).SetVolumeSW 150 false).engine.volumes = [150] ∧
      (stoppedPhonon.SetVolumeSW 150).volumes = [150] ∧
      ¬ (150 ≤ 100) := by
  decide

/-- C13, amended: neither engine clamps.  For every `uint` volume `v`,
`PhononEngine::SetVolumeSW(v)` hands exactly `v` to the audio output, and
`VlcEngine::SetVolumeSW(v)` hands libvlc the `int` that `v` converts to: `v`
itself below `2 ^ 31`, `v - 2 ^ 32` from there on.  The value libvlc is given
lies within 0 to 100 exactly when `v ≤ 100`. -/
theorem SetVolumeSW_unclamped (ev : VlcEngine) (ep : PhononEngine) (volume : Nat)
    (raises : Bool) (huint : volume < 2 ^ 32) :
    (ev.SetVolumeSW volume raises).engine.volumes
        = ev.volumes ++
          [if volume < 2 ^ 31 then (volume : Int) else (volume : Int) - 2 ^ 32] ∧
      (ep.SetVolumeSW volume).volumes = ep.volumes ++ [volume] ∧
      ((0 ≤ VlcEngine.uintToInt volume ∧ VlcEngine.uintToInt volume ≤ 100) ↔ volume ≤ 100) := by
  have hmod : volume % 2 ^ 32 = volume := Nat.mod_eq_of_lt huint
  have hconv : VlcEngine.uintToInt volume
      = if volume < 2 ^ 31 then (volume : Int) else (volume : Int) - 2 ^ 32 := by
    unfold VlcEngine.uintToInt
    rw [hmod]
  refine ⟨?_, volumes_Phonon_SetVolumeSW ep volume, ?_⟩
  · rw [volumes_Vlc_SetVolumeSW, hconv]
  · rw [hconv]
    split_ifs with h <;> omega

/-- Witness of C13, amended: the volume 150. -/
theorem SetVolumeSW_unclamped_witness :
    150 < 2 ^ 32 ∧
      ((VlcEngine.create 4).SetVolumeSW 150 false).engine.volumes
        = (VlcEngine.create 4).volumes ++
          [if 150 < 2 ^ 31 then ((150 : Nat) : Int) else ((150 : Nat) : Int) - 2 ^ 32] :=
  ⟨by decide,
    (SetVolumeSW_unclamped (VlcEngine.create 4) stoppedPhonon 150 false (by decide)).1⟩

/-- C14, as stated, fails for `VlcEngine`: the requested volumes `2 ^ 31 - 1` and
`2 ^ 31` are in order, but libvlc is handed 2147483647 for the first and
-2147483648 for the second. -/
theorem SetVolumeSW_monotone_counterexample :
    2147483647 ≤ 2147483648 ∧
      ((VlcEngine.create 4).SetVolumeSW 2147483647 false).engine.volumes = [2147483647] ∧
      ((VlcEngine.create 4).SetVolumeSW 2147483648 false).engine.volumes = [-2147483648] ∧
      ¬ ((2147483647 : Int) ≤ -2147483648) := by
  decide

/-- C14, amended: for requested `uint` volumes `a ≤ b`, the value
`VlcEngine::SetVolumeSW(a)` hands to libvlc is at most the value
`SetVolumeSW(b)` hands to it exactly when `a` and `b` are on the same side of
`2 ^ 31`, so always for `b` below `2 ^ 31`; the value `PhononEngine` hands over
for `a` is at most the one for `b`; and the value handed over for the requested
volume 0 is 0, in both engines. -/
theorem SetVolumeSW_monotone (ev ev' : VlcEngine) (ep ep' : PhononEngine) (a b : Nat)
    (raises raises' : Bool) (hab : a ≤ b) (huint : b < 2 ^ 32) :
    (ev.SetVolumeSW a raises).engine.volumes = ev.volumes ++ [VlcEngine.uintToInt a] ∧
      (ev'.SetVolumeSW b raises').engine.volumes = ev'.volumes ++ [VlcEngine.uintToInt b] ∧
      (VlcEngine.uintToInt a ≤ VlcEngine.uintToInt b ↔ (b < 2 ^ 31 ∨ 2 ^ 31 ≤ a)) ∧
      (∃ x y, (ep.SetVolumeSW a).volumes = ep.volumes ++ [x] ∧
        (ep'.SetVolumeSW b).volumes = ep'.volumes ++ [y] ∧ x ≤ y) ∧
      (ev.SetVolumeSW 0 raises).engine.volumes = ev.volumes ++ [0] ∧
      (ep.SetVolumeSW 0).volumes = ep.volumes ++ [0] := by
  have ha : a % 2 ^ 32 = a := Nat.mod_eq_of_lt (by omega)
  have hb : b % 2 ^ 32 = b := Nat.mod_eq_of_lt huint
  refine ⟨volumes_Vlc_SetVolumeSW ev a raises, volumes_Vlc_SetVolumeSW ev' b raises', ?_,
    ⟨a, b, volumes_Phonon_SetVolumeSW ep a, volumes_Phonon_SetVolumeSW ep' b, hab⟩,
    volumes_Vlc_SetVolumeSW ev 0 raises, volumes_Phonon_SetVolumeSW ep 0⟩
  unfold VlcEngine.uintToInt
  rw [ha, hb]
  split_ifs <;> omega

/-- Witness of C14, amended: the volumes 30 and 70. -/
theorem SetVolumeSW_monotone_witness :
    (30 ≤ 70 ∧ 70 < 2 ^ 32) ∧
      ((VlcEngine.create 4).SetVolumeSW 30 false).engine.volumes
        = (VlcEngine.create 4).volumes ++ [VlcEngine.uintToInt 30] ∧
      ((VlcEngine.create 4).SetVolumeSW 70 false).engine.volumes
        = (VlcEngine.create 4).volumes ++ [VlcEngine.uintToInt 70] ∧
      (VlcEngine.uintToInt 30 ≤ VlcEngine.uintToInt 70 ↔ (70 < 2 ^ 31 ∨ 2 ^ 31 ≤ 30)) :=
  ⟨⟨by decide, by decide⟩,
    (SetVolumeSW_monotone (VlcEngine.create 4) (VlcEngine.create 4) stoppedPhonon stoppedPhonon
      30 70 false false (by decide) (by decide)).1,
    (SetVolumeSW_monotone (VlcEngine.create 4) (VlcEngine.create 4) stoppedPhonon stoppedPhonon
      30 70 false false (by decide) (by decide)).2.1,
    (SetVolumeSW_monotone (VlcEngine.create 4) (VlcEngine.create 4) stoppedPhonon stoppedPhonon
      30 70 false false (by decide) (by decide)).2.2.1⟩

/-! ## States and the start offset of `PhononEngine` -/

namespace PhononEngine

/-- C15: `state()` maps Loading, Playing and Buffering to Playing, Paused to
Paused, and Stopped, Error and every other native value to Empty; it never
returns Idle, and it returns Playing only for Loading, Playing or Buffering. -/
theorem state_total (e : PhononEngine) (code : Nat) :
    (e.withNativeState Phonon.State.LoadingState).state = Engine.State.Playing ∧
      (e.withNativeState Phonon.State.PlayingState).state = Engine.State.Playing ∧
      (e.withNativeState Phonon.State.BufferingState).state = Engine.State.Playing ∧
      (e.withNativeState Phonon.State.PausedState).state = Engine.State.Paused ∧
      (e.withNativeState Phonon.State.StoppedState).state = Engine.State.Empty ∧
      (e.withNativeState Phonon.State.ErrorState).state = Engine.State.Empty ∧
      (e.withNativeState (Phonon.State.Other code)).state = Engine.State.Empty ∧
      e.state ≠ Engine.State.Idle ∧
      (e.state = Engine.State.Playing ↔
        e.media_object_.state = Phonon.State.LoadingState ∨
          e.media_object_.state = Phonon.State.PlayingState ∨
          e.media_object_.state = Phonon.State.BufferingState) := by
  refine ⟨rfl, rfl, rfl, rfl, rfl, rfl, rfl, ?_, ?_⟩ <;>
    cases h : e.media_object_.state <;> simp [state, h]

/-- Timers neither seek nor touch the pending offset. -/
theorem seeks_processTimers (e : PhononEngine) (now : Nat) :
    (e.processTimers now).seeks = e.seeks ∧
      (e.processTimers now).seek_offset_ = e.seek_offset_ := by
  unfold processTimers
  split
  · split_ifs <;> simp [StateTimeoutExpired, seeks]
  · exact ⟨rfl, rfl⟩

/-- A notification for a state other than Playing neither seeks nor clears the
pending offset. -/
theorem PhononStateChanged_not_playing (e : PhononEngine) (now : Nat) (s : Phonon.State)
    (hs : s ≠ Phonon.State.PlayingState) :
    (e.PhononStateChanged now s).seeks = e.seeks ∧
      (e.PhononStateChanged now s).seek_offset_ = e.seek_offset_ := by
  unfold PhononStateChanged
  by_cases h1 : s = Phonon.State.ErrorState <;> simp [h1, hs, seeks]

/-- A Playing notification with an offset pending seeks to it once and clears it. -/
theorem PhononStateChanged_pending (e : PhononEngine) (now : Nat)
    (hpending : e.seek_offset_ ≠ -1) :
    (e.PhononStateChanged now Phonon.State.PlayingState).seeks = e.seeks ++ [e.seek_offset_] ∧
      (e.PhononStateChanged now Phonon.State.PlayingState).seek_offset_ = -1 := by
  simp [PhononStateChanged, hpending, seeks, List.filterMap_append]

/-- With no offset pending no notification seeks. -/
theorem PhononStateChanged_idle (e : PhononEngine) (now : Nat) (s : Phonon.State)
    (hidle : e.seek_offset_ = -1) :
    (e.PhononStateChanged now s).seeks = e.seeks ∧
      (e.PhononStateChanged now s).seek_offset_ = -1 := by
  unfold PhononStateChanged
  by_cases h1 : s = Phonon.State.ErrorState <;> simp [h1, hidle, seeks]

/-- The three cases of a native state change, timers included. -/
theorem seeks_nativeStateChange (e : PhononEngine) (c : Nat × Phonon.State) :
    (c.2 ≠ Phonon.State.PlayingState →
        (e.nativeStateChange c).seeks = e.seeks ∧
          (e.nativeStateChange c).seek_offset_ = e.seek_offset_) ∧
      (e.seek_offset_ = -1 →
        (e.nativeStateChange c).seeks = e.seeks ∧ (e.nativeStateChange c).seek_offset_ = -1) ∧
      (c.2 = Phonon.State.PlayingState → e.seek_offset_ ≠ -1 →
        (e.nativeStateChange c).seeks = e.seeks ++ [e.seek_offset_] ∧
          (e.nativeStateChange c).seek_offset_ = -1) := by
  obtain ⟨t, s⟩ := c
  obtain ⟨hp1, hp2⟩ := seeks_processTimers e t
  have hstep : e.nativeStateChange (t, s)
      = ((e.processTimers t).withNativeState s).PhononStateChanged t s := rfl
  have hs1 : ((e.processTimers t).withNativeState s).seeks = e.seeks := hp1
  have hs2 : ((e.processTimers t).withNativeState s).seek_offset_ = e.seek_offset_ := hp2
  rw [hstep]
  refine ⟨fun h => ?_, fun h => ?_, fun h h' => ?_⟩
  · obtain ⟨k1, k2⟩ := PhononStateChanged_not_playing
      ((e.processTimers t).withNativeState s) t s h
    exact ⟨k1.trans hs1, k2.trans hs2⟩
  · obtain ⟨k1, k2⟩ := PhononStateChanged_idle
      ((e.processTimers t).withNativeState s) t s (hs2.trans h)
    exact ⟨k1.trans hs1, k2⟩
  · simp only at h
    subst h
    obtain ⟨k1, k2⟩ := PhononStateChanged_pending
      ((e.processTimers t).withNativeState Phonon.State.PlayingState) t (by rw [hs2]; exact h')
    rw [hs1, hs2] at k1
    exact ⟨k1, k2⟩

/-- Changes to states other than Playing neither seek nor clear the offset. -/
theorem run_noPlaying (changes : List (Nat × Phonon.State)) :
    ∀ e : PhononEngine, noPlaying changes = true →
      (e.run changes).seeks = e.seeks ∧ (e.run changes).seek_offset_ = e.seek_offset_ := by
  induction changes with
  | nil => intro e _; exact ⟨rfl, rfl⟩
  | cons c rest ih =>
    intro e h
    simp only [noPlaying, List.all_cons, Bool.and_eq_true, decide_eq_true_eq] at h
    obtain ⟨k1, k2⟩ := (seeks_nativeStateChange e c).1 h.1
    obtain ⟨m1, m2⟩ := ih (e.nativeStateChange c) (by simpa [noPlaying] using h.2)
    have hrun : e.run (c :: rest) = (e.nativeStateChange c).run rest := by simp [run]
    rw [hrun]
    exact ⟨m1.trans k1, m2.trans k2⟩

/-- With no offset pending a sequence of changes issues no seek. -/
theorem run_idle (changes : List (Nat × Phonon.State)) :
    ∀ e : PhononEngine, e.seek_offset_ = -1 →
      (e.run changes).seeks = e.seeks ∧ (e.run changes).seek_offset_ = -1 := by
  induction changes with
  | nil => intro e h; exact ⟨rfl, h⟩
  | cons c rest ih =>
    intro e h
    obtain ⟨k1, k2⟩ := (seeks_nativeStateChange e c).2.1 h
    obtain ⟨m1, m2⟩ := ih (e.nativeStateChange c) k2
    have hrun : e.run (c :: rest) = (e.nativeStateChange c).run rest := by simp [run]
    rw [hrun]
    exact ⟨m1.trans k1, m2⟩

/-- C19: `Play(offset)` issues no seek and stores the offset; native changes to
states other than Playing issue no seek and keep the offset pending; the first
change to Playing issues exactly one seek, to `offset`, and resets
`seek_offset_` to -1; whatever changes follow, with no further `Play`, issue no
seek.  A notification for a state other than Playing never seeks and never
clears the pending offset. -/
theorem start_offset_once (e : PhononEngine) (offset now : Nat)
    (before after : List (Nat × Phonon.State)) (hbefore : noPlaying before = true) :
    (e.Play offset).2.seeks = e.seeks ∧
      (e.Play offset).2.seek_offset_ = (offset : Int) ∧
      ((e.Play offset).2.run before).seeks = e.seeks ∧
      ((e.Play offset).2.run before).seek_offset_ = (offset : Int) ∧
      (((e.Play offset).2.run before).nativeStateChange (now, Phonon.State.PlayingState)).seeks
        = e.seeks ++ [(offset : Int)] ∧
      (((e.Play offset).2.run before).nativeStateChange
        (now, Phonon.State.PlayingState)).seek_offset_ = -1 ∧
      ((((e.Play offset).2.run before).nativeStateChange
        (now, Phonon.State.PlayingState)).run after).seeks = e.seeks ++ [(offset : Int)] ∧
      (∀ (e' : PhononEngine) (t : Nat) (s : Phonon.State), s ≠ Phonon.State.PlayingState →
        (e'.PhononStateChanged t s).seeks = e'.seeks ∧
          (e'.PhononStateChanged t s).seek_offset_ = e'.seek_offset_) := by
  have hplay : (e.Play offset).2.seeks = e.seeks := by
    simp [Play, seeks, List.filterMap_append]
  have hoff : (e.Play offset).2.seek_offset_ = (offset : Int) := rfl
  obtain ⟨b1, b2⟩ := run_noPlaying before (e.Play offset).2 hbefore
  have hne : ((e.Play offset).2.run before).seek_offset_ ≠ -1 := by
    rw [b2, hoff]; omega
  obtain ⟨p1, p2⟩ := (seeks_nativeStateChange ((e.Play offset).2.run before)
    (now, Phonon.State.PlayingState)).2.2 rfl hne
  obtain ⟨a1, _⟩ := run_idle after _ p2
  rw [b1, b2, hplay, hoff] at p1
  exact ⟨hplay, hoff, b1.trans hplay, b2.trans hoff, p1, p2, a1.trans p1,
    fun e' t s hs => PhononStateChanged_not_playing e' t s hs⟩

/-- Witness of C19: `Play(5000)`, loading and buffering, playing at 40 ms, then
paused and playing again. -/
theorem start_offset_once_witness :
    noPlaying changesBeforePlaying = true ∧
      ((((stoppedPhonon.Play 5000).2.run changesBeforePlaying).nativeStateChange
        (40, Phonon.State.PlayingState)).run changesAfterPlaying).seeks
        = stoppedPhonon.seeks ++ [((5000 : Nat) : Int)] :=
  ⟨by decide,
    (start_offset_once stoppedPhonon 5000 40 changesBeforePlaying changesAfterPlaying
      (by decide)).2.2.2.2.2.2.1⟩

end PhononEngine

/-! ## Properties of `EchoNestImages` -/

namespace EchoNestImages

/-- A key with a value is contained in the map. -/
theorem contains_of_value (requests : List (Nat × Request)) (reply : Nat) (request : Request)
    (h : value requests reply = some request) : contains requests reply = true := by
  induction requests with
  | nil => simp [value] at h
  | cons entry rest ih =>
    obtain ⟨k, v⟩ := entry
    by_cases hk : reply = k
    · simp [contains, hk]
    · have hne : (reply == k) = false := by simpa using hk
      simp only [value, List.lookup, hne] at h
      have := ih h
      simp only [contains, List.any_cons, Bool.or_eq_true] at this ⊢
      exact Or.inr this

/-- Taking a key out of the map removes its entry and no other. -/
theorem value_remove (requests : List (Nat × Request)) (reply other : Nat) :
    value (remove requests reply) other
      = if other = reply then none else value requests other := by
  induction requests with
  | nil => simp [value, remove]
  | cons entry rest ih =>
    obtain ⟨k, v⟩ := entry
    simp only [value, remove] at ih ⊢
    by_cases hk : k = reply
    · subst hk
      by_cases ho : other = k
      · subst ho; simpa [List.filter_cons] using ih
      · have hne : (other == k) = false := by simpa using ho
        simp only [List.filter_cons, beq_self_eq_true, Bool.not_true, List.lookup, hne]
        simpa [ho] using ih
    · have hkr : (k == reply) = false := by simpa using hk
      simp only [List.filter_cons, hkr, Bool.not_false, if_true, List.lookup]
      by_cases ho : other = k
      · subst ho; simp [hk]
      · have hne : (other == k) = false := by simpa using ho
        simp only [hne]
        exact ih

/-- C16: for a finished reply with a registered request, `RequestFinished`
removes that request from the pending map (and no other), emits
`ImageReady(id, url)` once for each image the artist holds after parsing, in
order, and then `Finished(id)` once; the outcome depends on the parser only
through the artist it leaves, not on whether it threw `ParseError`.  For a
sender that is no reply with a registered request it changes nothing. -/
theorem RequestFinished_registered (e : EchoNestImages) (reply : Nat) (request : Request)
    (parseProfile : Echonest.Artist → Nat → Echonest.Parsed)
    (hregistered : value e.requests_ reply = some request) :
    e.RequestFinished (some reply) parseProfile
        = { requests_ := remove e.requests_ reply
            emitted := e.emitted ++
              (parseProfile request.artist_ reply).artist.images.map
                (FetcherSignal.ImageReady request.id_) ++
              [FetcherSignal.Finished request.id_]
            deleted := e.deleted ++ [reply] } ∧
      value (remove e.requests_ reply) reply = none ∧
      (∀ other : Nat, other ≠ reply →
        value (remove e.requests_ reply) other = value e.requests_ other) ∧
      (∀ parse2 : Echonest.Artist → Nat → Echonest.Parsed,
        (parse2 request.artist_ reply).artist = (parseProfile request.artist_ reply).artist →
          e.RequestFinished (some reply) parse2 = e.RequestFinished (some reply) parseProfile) ∧
      (∀ (e' : EchoNestImages) (sender : Option Nat),
        (∀ r, sender = some r → value e'.requests_ r = none) →
          e'.RequestFinished sender parseProfile = e') := by
  have hc := contains_of_value _ _ _ hregistered
  have hrun : ∀ parse : Echonest.Artist → Nat → Echonest.Parsed,
      e.RequestFinished (some reply) parse
        = { requests_ := remove e.requests_ reply
            emitted := e.emitted ++
              (parse request.artist_ reply).artist.images.map
                (FetcherSignal.ImageReady request.id_) ++
              [FetcherSignal.Finished request.id_]
            deleted := e.deleted ++ [reply] } := by
    intro parse
    simp only [RequestFinished, hc, hregistered, Bool.not_true, Bool.false_eq_true, if_false]
  refine ⟨hrun parseProfile, ?_, ?_, ?_, ?_⟩
  · rw [value_remove]; simp
  · intro other ho; rw [value_remove]; simp [ho]
  · intro parse2 h; rw [hrun parse2, hrun parseProfile, h]
  · intro e' sender h
    cases sender with
    | none => rfl
    | some r =>
      have hv := h r rfl
      unfold RequestFinished
      simp only
      split_ifs with hcon
      · rfl
      · rw [hv]

/-- Witness of C16: the reply at 100 finishes and parsing it throws after two
images. -/
theorem RequestFinished_registered_witness :
    value pendingFetcher.requests_ 100 = some ⟨5, ⟨"Artist", []⟩⟩ ∧
      pendingFetcher.RequestFinished (some 100) parsedTwoImages
        = { requests_ := remove pendingFetcher.requests_ 100
            emitted := pendingFetcher.emitted ++
              (parsedTwoImages (⟨5, ⟨"Artist", []⟩⟩ : Request).artist_ 100).artist.images.map
                (FetcherSignal.ImageReady (⟨5, ⟨"Artist", []⟩⟩ : Request).id_) ++
              [FetcherSignal.Finished (⟨5, ⟨"Artist", []⟩⟩ : Request).id_]
            deleted := pendingFetcher.deleted ++ [100] } :=
  ⟨by decide, (RequestFinished_registered pendingFetcher 100 ⟨5, ⟨"Artist", []⟩⟩ parsedTwoImages
    (by decide)).1⟩

end EchoNestImages

/-! ## Properties of `GstEnginePipeline` -/

namespace GstEnginePipeline

/-- C17: `SetNextUrl(u)` changes only `next_url_`: `url()`, `is_valid()`,
`segment_start()` and `redirect_url()` return what they returned before,
putting the old `next_url_` back gives the old pipeline, and after `SetNextUrl`
with `u1` and then `u2` the next URL is `u2`. -/
theorem SetNextUrl_frame (p : GstEnginePipeline) (u u1 u2 : String) :
    (p.SetNextUrl u).url = p.url ∧
      (p.SetNextUrl u).is_valid = p.is_valid ∧
      (p.SetNextUrl u).segment_start = p.segment_start ∧
      (p.SetNextUrl u).redirect_url = p.redirect_url ∧
      (p.SetNextUrl u).next_url_ = u ∧
      { p.SetNextUrl u with next_url_ := p.next_url_ } = p ∧
      ((p.SetNextUrl u1).SetNextUrl u2).next_url_ = u2 ∧
      (p.SetNextUrl u1).SetNextUrl u2 = p.SetNextUrl u2 :=
  ⟨rfl, rfl, rfl, rfl, rfl, rfl, rfl, rfl⟩

/-- A call keeps every consumer registered at most once. -/
theorem nodup_consumerCall (p : GstEnginePipeline) (call : ConsumerCall)
    (h : p.buffer_consumers_.Nodup) : (p.consumerCall call).buffer_consumers_.Nodup := by
  cases call with
  | Add c =>
    show (p.AddBufferConsumer c).buffer_consumers_.Nodup
    unfold AddBufferConsumer
    split_ifs with hc
    · exact h
    · simp only
      rw [List.nodup_append]
      refine ⟨h, List.nodup_singleton c, ?_⟩
      intro x hx hx'
      rw [List.mem_singleton] at hx'
      subst hx'
      exact hc hx
  | Remove c => exact h.filter _
  | RemoveAll => exact List.nodup_nil

/-- A sequence of calls keeps every consumer registered at most once. -/
theorem nodup_consumerCalls (calls : List ConsumerCall) :
    ∀ p : GstEnginePipeline, p.buffer_consumers_.Nodup →
      (p.consumerCalls calls).buffer_consumers_.Nodup := by
  induction calls with
  | nil => intro p h; exact h
  | cons c rest ih =>
    intro p h
    have hstep : p.consumerCalls (c :: rest) = (p.consumerCall c).consumerCalls rest := by
      simp [consumerCalls]
    rw [hstep]
    exact ih _ (nodup_consumerCall p c h)

/-- C18: on a pipeline whose consumers are registered once each,
`AddBufferConsumer(c)` for a consumer already held changes nothing and `c` is
held exactly once, `RemoveBufferConsumer(c)` for a consumer not held changes
nothing, and `RemoveAllBufferConsumers` leaves no consumer; after
`AddBufferConsumer(c)` the consumer is held exactly once, after
`RemoveBufferConsumer(c)` not at all, and every sequence of calls keeps each
consumer registered at most once. -/
theorem buffer_consumers_once (p : GstEnginePipeline) (c : Nat) (calls : List ConsumerCall)
    (hnodup : p.buffer_consumers_.Nodup) :
    (c ∈ p.buffer_consumers_ →
        p.AddBufferConsumer c = p ∧ (p.AddBufferConsumer c).buffer_consumers_.count c = 1) ∧
      (c ∉ p.buffer_consumers_ → p.RemoveBufferConsumer c = p) ∧
      p.RemoveAllBufferConsumers.buffer_consumers_ = [] ∧
      (p.AddBufferConsumer c).buffer_consumers_.count c = 1 ∧
      (p.RemoveBufferConsumer c).buffer_consumers_.count c = 0 ∧
      (p.consumerCalls calls).buffer_consumers_.Nodup := by
  have hadd : (p.AddBufferConsumer c).buffer_consumers_.count c = 1 := by
    have hn := nodup_consumerCall p (ConsumerCall.Add c) hnodup
    apply List.count_eq_one_of_mem hn
    show c ∈ (p.AddBufferConsumer c).buffer_consumers_
    unfold AddBufferConsumer
    split_ifs with hc
    · exact hc
    · simp
  refine ⟨fun hc => ⟨by simp [AddBufferConsumer, hc], hadd⟩, fun hc => ?_, rfl, hadd, ?_,
    nodup_consumerCalls calls p hnodup⟩
  · unfold RemoveBufferConsumer
    have : p.buffer_consumers_.filter (fun x => !(x == c)) = p.buffer_consumers_ := by
      rw [List.filter_eq_self]
      intro x hx
      have : x ≠ c := fun h => hc (h ▸ hx)
      simpa using this
    rw [this]
  · rw [List.count_eq_zero]
    simp [RemoveBufferConsumer, List.mem_filter]

/-- Witness of C18: two consumers registered, then a duplicate registration, a
new one, a removal and another duplicate. -/
theorem buffer_consumers_once_witness :
    pipelineWithConsumers.buffer_consumers_.Nodup ∧
      (pipelineWithConsumers.consumerCalls
        [ConsumerCall.Add 11, ConsumerCall.Add 13, ConsumerCall.Remove 12,
          ConsumerCall.Add 13]).buffer_consumers_.Nodup :=
  ⟨by decide, (buffer_consumers_once pipelineWithConsumers 11
    [ConsumerCall.Add 11, ConsumerCall.Add 13, ConsumerCall.Remove 12, ConsumerCall.Add 13]
    (by decide)).2.2.2.2.2⟩

end GstEnginePipeline

/-! ## Properties of `PlaylistContainer` -/

namespace PlaylistTabBar

/-- The method `InsertTab` adds one tab. -/
theorem length_InsertTab (t : PlaylistTabBar) (id : Int) (index : Nat) (name : String) :
    (t.InsertTab id index name).tabs.length = t.tabs.length + 1 := by
  simp only [InsertTab, List.length_append, List.length_take, List.length_cons,
    List.length_drop]
  omega

/-- The method `set_current_id` keeps the tabs. -/
theorem length_set_current_id (t : PlaylistTabBar) (id : Int) :
    (t.set_current_id id).tabs.length = t.tabs.length := by
  unfold set_current_id
  split_ifs <;> rfl

/-- The method `RemoveTab` adds no tab. -/
theorem length_RemoveTab (t : PlaylistTabBar) (id : Int) :
    (t.RemoveTab id).tabs.length ≤ t.tabs.length := by
  unfold RemoveTab
  split_ifs
  · exact Nat.le_refl _
  all_goals exact List.length_eraseIdx_le _ _

/-- After `set_current_id` for an id some tab has, that id is current. -/
theorem current_id_set_current_id (t : PlaylistTabBar) (id : Int)
    (h : ∃ tab, tab ∈ t.tabs ∧ tab.1 = id) : (t.set_current_id id).current_id = id := by
  cases hfind : t.tabs.findIdx? (fun tab => tab.1 == id) with
  | none =>
    rw [List.findIdx?_eq_none_iff] at hfind
    obtain ⟨tab, hmem, hid⟩ := h
    have := hfind tab hmem
    simp [hid] at this
  | some i =>
    obtain ⟨hlt, hp, _⟩ := List.findIdx?_eq_some_iff_getElem.mp hfind
    have hidx : t.index_of id = (i : Int) := by simp [index_of, hfind]
    have hnot : ¬ ((i : Int) < 0) := by omega
    simp only [set_current_id, hidx, hnot, if_false, current_id, Int.toNat_ofNat,
      List.get?_eq_getElem?, List.getElem?_eq_getElem hlt]
    simpa using hp

/-- The inserted tab is in the bar. -/
theorem mem_InsertTab (t : PlaylistTabBar) (id : Int) (index : Nat) (name : String) :
    (id, name) ∈ (t.InsertTab id index name).tabs := by
  simp [InsertTab]

/-- A tab appended at the end of the bar. -/
theorem tabs_InsertTab_count (t : PlaylistTabBar) (id : Int) (name : String) :
    (t.InsertTab id t.count name).tabs = t.tabs ++ [(id, name)] := by
  simp [InsertTab, count]

/-- The current index after a tab is appended to a bar whose current index is
within the bar. -/
theorem currentIndex_InsertTab_count (t : PlaylistTabBar) (id : Int) (name : String)
    (h : t.currentIndex < t.tabs.length) :
    (t.InsertTab id t.count name).currentIndex
      = if t.tabs.isEmpty then 0 else t.currentIndex := by
  unfold InsertTab count
  simp only
  split_ifs with h1 h2
  · rfl
  · omega
  · rfl

/-- The index of a tab is within the bar. -/
theorem index_of_lt (t : PlaylistTabBar) (id : Int) : t.index_of id < t.tabs.length := by
  unfold index_of
  cases hfind : t.tabs.findIdx? (fun tab => tab.1 == id) with
  | none =>
    simp only
    omega
  | some i =>
    obtain ⟨hlt, _, _⟩ := List.findIdx?_eq_some_iff_getElem.mp hfind
    simp only
    omega

/-- The index of an appended tab whose id no other tab has is the old number of
tabs. -/
theorem index_of_InsertTab_count (t : PlaylistTabBar) (id : Int) (name : String)
    (h : ∀ tab ∈ t.tabs, tab.1 ≠ id) :
    (t.InsertTab id t.count name).index_of id = t.tabs.length := by
  have hnone : t.tabs.findIdx? (fun tab => tab.1 == id) = none := by
    rw [List.findIdx?_eq_none_iff]
    intro tab hmem
    simpa using h tab hmem
  unfold index_of
  rw [tabs_InsertTab_count, List.findIdx?_append, hnone]
  simp

/-- Appending a tab whose id no other tab has and making it current emits
`currentChanged` exactly when the bar had a tab before. -/
theorem set_current_id_emits_InsertTab (t : PlaylistTabBar) (id : Int) (name : String)
    (hcur : t.currentIndex < t.tabs.length) (h : ∀ tab ∈ t.tabs, tab.1 ≠ id) :
    (t.InsertTab id t.count name).set_current_id_emits id = !t.tabs.isEmpty := by
  unfold set_current_id_emits
  rw [index_of_InsertTab_count t id name h, currentIndex_InsertTab_count t id name hcur]
  cases ht : t.tabs with
  | nil => simp
  | cons tab rest =>
    rw [ht] at hcur
    simp only [List.isEmpty_cons, Bool.false_eq_true, if_false, Bool.not_false,
      decide_eq_true_eq]
    exact ⟨by omega, by omega⟩

/-- The method `RemoveTab` brings no new tab and keeps the current index within
the bar. -/
theorem RemoveTab_within (t : PlaylistTabBar) (id : Int)
    (hcur : t.currentIndex < t.tabs.length) :
    (t.RemoveTab id).currentIndex < (t.RemoveTab id).tabs.length ∧
      ∀ tab ∈ (t.RemoveTab id).tabs, tab ∈ t.tabs := by
  have hlt := index_of_lt t id
  by_cases h0 : t.index_of id < 0
  · simp only [RemoveTab, h0, if_true]
    exact ⟨hcur, fun _ h => h⟩
  · have hidx : (t.index_of id).toNat < t.tabs.length := by omega
    have hlen : (t.tabs.eraseIdx (t.index_of id).toNat).length = t.tabs.length - 1 := by
      rw [List.length_eraseIdx]
      simp [hidx]
    simp only [RemoveTab, h0, if_false]
    refine ⟨?_, fun tab hmem => List.mem_of_mem_eraseIdx hmem⟩
    rw [hlen]
    by_cases h1 : t.index_of id < t.currentIndex
    · simp only [h1, if_true]
      omega
    · by_cases h2 : t.index_of id = t.currentIndex
      · simp only [h1, h2, if_false, if_true, lt_self_iff_false]
        have := min_le_right t.currentIndex (((t.tabs.length - 1 : Nat) : Int) - 1)
        omega
      · simp only [h1, h2, if_false]
        omega
end PlaylistTabBar

namespace PlaylistContainer

/-- The slot `SetTabBarVisible` leaves the flag at its argument and the tab bar
as it is. -/
theorem SetTabBarVisible_visible (c : PlaylistContainer) (visible : Bool) :
    (c.SetTabBarVisible visible).tab_bar_visible_ = visible ∧
      (c.SetTabBarVisible visible).tab_bar = c.tab_bar := by
  unfold SetTabBarVisible
  split_ifs with h
  · exact ⟨h, rfl⟩
  · exact ⟨rfl, rfl⟩

/-- The slot `Save` touches neither the tab bar nor the flag. -/
theorem Save_visible (c : PlaylistContainer) :
    c.Save.tab_bar = c.tab_bar ∧ c.Save.tab_bar_visible_ = c.tab_bar_visible_ := by
  unfold Save
  split_ifs <;> exact ⟨rfl, rfl⟩

/-- The signal `currentChanged` touches neither the tab bar, nor the flag, nor
`starting_up_`, nor the animation. -/
theorem currentChanged_visible (c : PlaylistContainer) (emitted : Bool) :
    (c.currentChanged emitted).tab_bar = c.tab_bar ∧
      (c.currentChanged emitted).tab_bar_visible_ = c.tab_bar_visible_ ∧
      (c.currentChanged emitted).starting_up_ = c.starting_up_ ∧
      (c.currentChanged emitted).tab_bar_animation_ = c.tab_bar_animation_ := by
  unfold currentChanged Save
  split_ifs <;> exact ⟨rfl, rfl, rfl, rfl⟩

/-- The signal `currentChanged` stores the current id of the tab bar once the
start-up is over, and nothing before. -/
theorem currentChanged_current_playlist (c : PlaylistContainer) (emitted : Bool) :
    (c.currentChanged emitted).current_playlist
      = if emitted = true ∧ c.starting_up_ = false then some c.tab_bar.current_id
        else c.current_playlist := by
  unfold currentChanged Save
  cases emitted <;> cases h : c.starting_up_ <;> simp [h]

/-- The tab bar that the slot `PlaylistAdded` leaves has the tabs that `InsertTab`
gives. -/
theorem PlaylistAdded_tabs (c : PlaylistContainer) (id : Int) (name : String)
    (isVisible : Bool) (height idOnInsert : Int) :
    (c.PlaylistAdded id name isVisible height idOnInsert).tab_bar.tabs
      = (c.tab_bar.InsertTab id c.tab_bar.count name).tabs := by
  have hset : ∀ t : PlaylistTabBar, (t.set_current_id id).tabs = t.tabs := by
    intro t
    unfold PlaylistTabBar.set_current_id
    split_ifs <;> rfl
  unfold PlaylistAdded
  simp only [PlaylistTabBar.count]
  split_ifs <;>
    simp [(currentChanged_visible _ _).1, (SetTabBarVisible_visible _ _).2, hset]

/-- The slot `PlaylistAdded` adds one tab and sets the flag when there is more
than one tab then. -/
theorem PlaylistAdded_visible (c : PlaylistContainer) (id : Int) (name : String)
    (isVisible : Bool) (height idOnInsert : Int) :
    (c.PlaylistAdded id name isVisible height idOnInsert).tab_bar.tabs.length
        = c.tab_bar.tabs.length + 1 ∧
      ((c.PlaylistAdded id name isVisible height idOnInsert).tab_bar_visible_
        = if 1 ≤ c.tab_bar.tabs.length then true else c.tab_bar_visible_) := by
  refine ⟨by rw [PlaylistAdded_tabs, PlaylistTabBar.length_InsertTab], ?_⟩
  unfold PlaylistAdded
  simp only [PlaylistTabBar.count]
  split_ifs <;>
    simp_all [PlaylistTabBar.length_set_current_id, PlaylistTabBar.length_InsertTab,
      (SetTabBarVisible_visible _ _).1, (currentChanged_visible _ _).1,
      (currentChanged_visible _ _).2.1]

/-- The tab bar that the slot `PlaylistRemoved` leaves is the one `RemoveTab`
gives. -/
theorem PlaylistRemoved_tab_bar (c : PlaylistContainer) (id : Int) :
    (c.PlaylistRemoved id).tab_bar = c.tab_bar.RemoveTab id := by
  unfold PlaylistRemoved
  simp only
  split_ifs <;>
    simp [(currentChanged_visible _ _).1, (SetTabBarVisible_visible _ _).2]

/-- The slot `PlaylistRemoved` adds no tab and clears the flag when at most one
tab is left. -/
theorem PlaylistRemoved_visible (c : PlaylistContainer) (id : Int) :
    (c.PlaylistRemoved id).tab_bar.tabs.length ≤ c.tab_bar.tabs.length ∧
      ((c.PlaylistRemoved id).tab_bar_visible_
        = if (c.PlaylistRemoved id).tab_bar.tabs.length ≤ 1 then false
          else c.tab_bar_visible_) := by
  have hlen := PlaylistTabBar.length_RemoveTab c.tab_bar id
  rw [PlaylistRemoved_tab_bar]
  refine ⟨hlen, ?_⟩
  unfold PlaylistRemoved
  simp only [PlaylistTabBar.count, (currentChanged_visible _ _).1]
  by_cases h1 : (c.tab_bar.RemoveTab id).tabs.length ≤ 1
  · simp only [h1, if_true, (SetTabBarVisible_visible _ false).1]
  · simp only [h1, if_false, (currentChanged_visible _ _).2.1]

/-- A notification keeps the flag equal to there being more than one tab. -/
theorem notify_visible (c : PlaylistContainer) (n : Notification)
    (h : c.tab_bar_visible_ = true ↔ 1 < c.tab_bar.count) :
    (c.notify n).tab_bar_visible_ = true ↔ 1 < (c.notify n).tab_bar.count := by
  simp only [PlaylistTabBar.count] at h ⊢
  cases n with
  | PlaylistAdded id name isVisible height idOnInsert =>
    obtain ⟨h1, h2⟩ := PlaylistAdded_visible c id name isVisible height idOnInsert
    simp only [notify]
    rw [h1, h2]
    by_cases hc : 1 ≤ c.tab_bar.tabs.length
    · simp only [hc, if_true, true_iff]
      omega
    · simp only [hc, if_false, h]
      omega
  | PlaylistRemoved id =>
    obtain ⟨h1, h2⟩ := PlaylistRemoved_visible c id
    simp only [notify]
    rw [h2]
    by_cases hc : (c.PlaylistRemoved id).tab_bar.tabs.length ≤ 1
    · simp only [hc, if_true]
      constructor
      · intro hf; exact absurd hf (by decide)
      · intro hf; omega
    · simp only [hc, if_false, h]
      omega
  | Save =>
    obtain ⟨h1, h2⟩ := Save_visible c
    simp only [notify]
    rw [h1, h2]
    exact h

/-- A sequence of notifications keeps the flag equal to there being more than
one tab. -/
theorem notifyAll_visible (notifications : List Notification) :
    ∀ c : PlaylistContainer, (c.tab_bar_visible_ = true ↔ 1 < c.tab_bar.count) →
      ((c.notifyAll notifications).tab_bar_visible_ = true ↔
        1 < (c.notifyAll notifications).tab_bar.count) := by
  induction notifications with
  | nil => intro c h; exact h
  | cons n rest ih =>
    intro c h
    have hstep : c.notifyAll (n :: rest) = (c.notify n).notifyAll rest := by simp [notifyAll]
    rw [hstep]
    exact ih _ (notify_visible c n h)

/-- C21: starting from the constructed container, after every sequence of
notifications `tab_bar_visible_` is true exactly when the tab bar holds more
than one tab; and `SetTabBarVisible` with the current value of the flag changes
nothing, so does not start the animation. -/
theorem tab_bar_visible_iff (stored : Option Int) (notifications : List Notification)
    (c : PlaylistContainer) :
    (((create stored).notifyAll notifications).tab_bar_visible_ = true ↔
        1 < ((create stored).notifyAll notifications).tab_bar.count) ∧
      c.SetTabBarVisible c.tab_bar_visible_ = c ∧
      (c.SetTabBarVisible c.tab_bar_visible_).tab_bar_animation_.starts
        = c.tab_bar_animation_.starts := by
  refine ⟨notifyAll_visible notifications (create stored) ?_, ?_, ?_⟩
  · simp [create, PlaylistTabBar.count]
  · simp [SetTabBarVisible]
  · simp [SetTabBarVisible]

/-- The slot `SetTabBarVisible` touches neither `starting_up_` nor the settings. -/
theorem SetTabBarVisible_startup (c : PlaylistContainer) (visible : Bool) :
    (c.SetTabBarVisible visible).starting_up_ = c.starting_up_ ∧
      (c.SetTabBarVisible visible).current_playlist = c.current_playlist := by
  unfold SetTabBarVisible
  split_ifs <;> exact ⟨rfl, rfl⟩

/-- During start-up the signal `currentChanged` changes nothing. -/
theorem currentChanged_starting (c : PlaylistContainer) (emitted : Bool)
    (h : c.starting_up_ = true) : c.currentChanged emitted = c := by
  unfold currentChanged Save
  simp [h]

/-- The slot `PlaylistAdded` clears `starting_up_` exactly for the id the entry
names. -/
theorem PlaylistAdded_startup (c : PlaylistContainer) (id : Int) (name : String)
    (isVisible : Bool) (height idOnInsert : Int) :
    (c.PlaylistAdded id name isVisible height idOnInsert).starting_up_
      = (c.starting_up_ && !decide (c.current_playlist.getD 1 = id)) := by
  cases hstart : c.starting_up_ with
  | false =>
    unfold PlaylistAdded
    simp only [(currentChanged_visible _ _).2.2.1, hstart, Bool.false_eq_true, false_and,
      if_false, Bool.false_and]
    split_ifs <;>
      simp [(SetTabBarVisible_startup _ _).1, (currentChanged_visible _ _).2.2.1, hstart]
  | true =>
    have h0 := currentChanged_starting
      { c with tab_bar := c.tab_bar.InsertTab idOnInsert c.tab_bar.count name }
      c.tab_bar.InsertTab_emits hstart
    unfold PlaylistAdded
    simp only [h0]
    simp only [hstart, true_and, Bool.true_and]
    split_ifs <;>
      simp_all [(SetTabBarVisible_startup _ _).1, (currentChanged_visible _ _).2.2.1]

/-- During start-up the slot `PlaylistAdded` for another id than the entry names
keeps the entry. -/
theorem PlaylistAdded_keeps (c : PlaylistContainer) (id : Int) (name : String)
    (isVisible : Bool) (height idOnInsert : Int) (hstart : c.starting_up_ = true)
    (hid : ¬ c.current_playlist.getD 1 = id) :
    (c.PlaylistAdded id name isVisible height idOnInsert).current_playlist
      = c.current_playlist := by
  have h0 := currentChanged_starting
    { c with tab_bar := c.tab_bar.InsertTab idOnInsert c.tab_bar.count name }
    c.tab_bar.InsertTab_emits hstart
  unfold PlaylistAdded
  simp only [h0]
  simp only [hstart, hid, and_false, if_false]
  split_ifs <;> simp [(SetTabBarVisible_startup _ _).2]

/-- The `PlaylistAdded` that ends the start-up makes its tab current. -/
theorem PlaylistAdded_selects (c : PlaylistContainer) (id : Int) (name : String)
    (isVisible : Bool) (height idOnInsert : Int) (hstart : c.starting_up_ = true)
    (hid : c.current_playlist.getD 1 = id) :
    (c.PlaylistAdded id name isVisible height idOnInsert).tab_bar.current_id = id := by
  have hsel := PlaylistTabBar.current_id_set_current_id
    (c.tab_bar.InsertTab id c.tab_bar.count name) id
    ⟨(id, name), PlaylistTabBar.mem_InsertTab _ _ _ _, rfl⟩
  have hcur : ∀ (t : PlaylistTabBar) (h : Int),
      ({ t with maximumHeight := h } : PlaylistTabBar).current_id = t.current_id := fun _ _ => rfl
  have h0 := currentChanged_starting
    { c with tab_bar := c.tab_bar.InsertTab idOnInsert c.tab_bar.count name }
    c.tab_bar.InsertTab_emits hstart
  unfold PlaylistAdded
  simp only [h0]
  simp only [hstart, hid, and_self, if_true]
  split_ifs
  · rw [hcur, (currentChanged_visible _ _).1]; exact hsel
  · rw [(SetTabBarVisible_visible _ true).2, (currentChanged_visible _ _).1]; exact hsel
  · rw [(currentChanged_visible _ _).1]; exact hsel

/-- The `PlaylistAdded` that ends the start-up stores its id when its tab was
not current already, and keeps the entry otherwise. -/
theorem PlaylistAdded_ends (c : PlaylistContainer) (id : Int) (name : String)
    (isVisible : Bool) (height idOnInsert : Int) (hstart : c.starting_up_ = true)
    (hid : c.current_playlist.getD 1 = id) :
    (c.PlaylistAdded id name isVisible height idOnInsert).current_playlist
      = if (c.tab_bar.InsertTab id c.tab_bar.count name).set_current_id_emits id = true
        then some id else c.current_playlist := by
  have hsel := PlaylistTabBar.current_id_set_current_id
    (c.tab_bar.InsertTab id c.tab_bar.count name) id
    ⟨(id, name), PlaylistTabBar.mem_InsertTab _ _ _ _, rfl⟩
  have h0 := currentChanged_starting
    { c with tab_bar := c.tab_bar.InsertTab idOnInsert c.tab_bar.count name }
    c.tab_bar.InsertTab_emits hstart
  unfold PlaylistAdded
  simp only [h0]
  simp only [hstart, hid, and_self, if_true]
  split_ifs <;>
    simp_all [(SetTabBarVisible_startup _ _).2, currentChanged_current_playlist]

/-- During start-up the slot `PlaylistAdded` for another id than the entry names
leaves the current index that `InsertTab` gives. -/
theorem PlaylistAdded_currentIndex (c : PlaylistContainer) (id : Int) (name : String)
    (isVisible : Bool) (height idOnInsert : Int) (hstart : c.starting_up_ = true)
    (hid : ¬ c.current_playlist.getD 1 = id) :
    (c.PlaylistAdded id name isVisible height idOnInsert).tab_bar.currentIndex
      = (c.tab_bar.InsertTab id c.tab_bar.count name).currentIndex := by
  have h0 := currentChanged_starting
    { c with tab_bar := c.tab_bar.InsertTab idOnInsert c.tab_bar.count name }
    c.tab_bar.InsertTab_emits hstart
  unfold PlaylistAdded
  simp only [h0]
  simp only [hstart, hid, and_false, if_false]
  split_ifs <;> simp [(SetTabBarVisible_visible _ _).2]

/-- The slot `PlaylistRemoved` keeps `starting_up_`, and during start-up the
entry. -/
theorem PlaylistRemoved_startup (c : PlaylistContainer) (id : Int) :
    (c.PlaylistRemoved id).starting_up_ = c.starting_up_ ∧
      (c.starting_up_ = true →
        (c.PlaylistRemoved id).current_playlist = c.current_playlist) := by
  constructor
  · unfold PlaylistRemoved
    simp only
    split_ifs <;>
      simp [(SetTabBarVisible_startup _ false).1, (currentChanged_visible _ _).2.2.1]
  · intro hstart
    have h0 := currentChanged_starting { c with tab_bar := c.tab_bar.RemoveTab id }
      (c.tab_bar.RemoveTab_emits id) hstart
    unfold PlaylistRemoved
    simp only [h0]
    split_ifs <;> simp [(SetTabBarVisible_startup _ false).2]

/-- During start-up a notification other than the addition of the stored
playlist keeps the entry and the start-up. -/
theorem notify_startup (c : PlaylistContainer) (n : Notification)
    (hstart : c.starting_up_ = true)
    (hn : addsPlaylist (c.current_playlist.getD 1) n = false) :
    (c.notify n).current_playlist = c.current_playlist ∧ (c.notify n).starting_up_ = true := by
  cases n with
  | PlaylistAdded id name isVisible height idOnInsert =>
    have hne : ¬ c.current_playlist.getD 1 = id := by
      intro h; simp [addsPlaylist, h] at hn
    refine ⟨PlaylistAdded_keeps c id name isVisible height idOnInsert hstart hne, ?_⟩
    rw [notify, PlaylistAdded_startup, hstart]
    simp [hne]
  | PlaylistRemoved id =>
    obtain ⟨h1, h2⟩ := PlaylistRemoved_startup c id
    exact ⟨h2 hstart, h1.trans hstart⟩
  | Save => simp [notify, Save, hstart]

/-- During start-up a notification other than the addition of the stored
playlist keeps the current index within the bar and brings no tab with the
stored id. -/
theorem notify_within (c : PlaylistContainer) (n : Notification)
    (hstart : c.starting_up_ = true)
    (hn : addsPlaylist (c.current_playlist.getD 1) n = false)
    (hcur : c.tab_bar.currentIndex < c.tab_bar.tabs.length)
    (htabs : ∀ tab ∈ c.tab_bar.tabs, tab.1 ≠ c.current_playlist.getD 1) :
    (c.notify n).tab_bar.currentIndex < (c.notify n).tab_bar.tabs.length ∧
      ∀ tab ∈ (c.notify n).tab_bar.tabs, tab.1 ≠ c.current_playlist.getD 1 := by
  cases n with
  | PlaylistAdded id name isVisible height idOnInsert =>
    have hne : ¬ c.current_playlist.getD 1 = id := by
      intro h; simp [addsPlaylist, h] at hn
    simp only [notify]
    rw [PlaylistAdded_currentIndex c id name isVisible height idOnInsert hstart hne,
      PlaylistAdded_tabs, PlaylistTabBar.currentIndex_InsertTab_count _ _ _ hcur,
      PlaylistTabBar.tabs_InsertTab_count]
    constructor
    · rw [List.length_append, List.length_singleton]
      split_ifs <;> omega
    · intro tab hmem
      rcases List.mem_append.mp hmem with h | h
      · exact htabs tab h
      · rw [List.mem_singleton.mp h]
        exact fun h' => hne h'.symm
  | PlaylistRemoved id =>
    simp only [notify]
    rw [PlaylistRemoved_tab_bar]
    obtain ⟨h1, h2⟩ := PlaylistTabBar.RemoveTab_within c.tab_bar id hcur
    exact ⟨h1, fun tab hmem => htabs tab (h2 tab hmem)⟩
  | Save =>
    simp only [notify]
    rw [(Save_visible c).1]
    exact ⟨hcur, htabs⟩

/-- Once the start-up is over it stays over. -/
theorem notify_started (c : PlaylistContainer) (n : Notification)
    (hstarted : c.starting_up_ = false) : (c.notify n).starting_up_ = false := by
  cases n with
  | PlaylistAdded id name isVisible height idOnInsert =>
    rw [notify, PlaylistAdded_startup c id name isVisible height idOnInsert, hstarted]; rfl
  | PlaylistRemoved id => rw [notify, (PlaylistRemoved_startup c id).1, hstarted]
  | Save => simp [notify, Save, hstarted]

/-- During start-up a sequence without the addition of the stored playlist keeps
the entry and the start-up, keeps the current index within the bar and brings
no tab with the stored id. -/
theorem notifyAll_startup (notifications : List Notification) :
    ∀ c : PlaylistContainer, c.starting_up_ = true →
      notifications.all (fun n => !addsPlaylist (c.current_playlist.getD 1) n) = true →
      c.tab_bar.currentIndex < c.tab_bar.tabs.length →
      (∀ tab ∈ c.tab_bar.tabs, tab.1 ≠ c.current_playlist.getD 1) →
      (c.notifyAll notifications).current_playlist = c.current_playlist ∧
        (c.notifyAll notifications).starting_up_ = true ∧
        (c.notifyAll notifications).tab_bar.currentIndex
          < (c.notifyAll notifications).tab_bar.tabs.length ∧
        ∀ tab ∈ (c.notifyAll notifications).tab_bar.tabs,
          tab.1 ≠ c.current_playlist.getD 1 := by
  induction notifications with
  | nil => intro c h _ hcur htabs; exact ⟨rfl, h, hcur, htabs⟩
  | cons n rest ih =>
    intro c hstart hall hcur htabs
    simp only [List.all_cons, Bool.and_eq_true, Bool.not_eq_true'] at hall
    obtain ⟨h1, h2⟩ := notify_startup c n hstart hall.1
    obtain ⟨h3, h4⟩ := notify_within c n hstart hall.1 hcur htabs
    have hstep : c.notifyAll (n :: rest) = (c.notify n).notifyAll rest := by simp [notifyAll]
    rw [hstep]
    obtain ⟨k1, k2, k3, k4⟩ := ih (c.notify n) h2 (by rw [h1]; simpa using hall.2) h3
      (by rw [h1]; exact h4)
    rw [h1] at k4
    exact ⟨k1.trans h1, k2, k3, k4⟩

/-- Once the start-up is over it stays over, whatever follows. -/
theorem notifyAll_started (notifications : List Notification) :
    ∀ c : PlaylistContainer, c.starting_up_ = false →
      (c.notifyAll notifications).starting_up_ = false := by
  induction notifications with
  | nil => intro c h; exact h
  | cons n rest ih =>
    intro c h
    have hstep : c.notifyAll (n :: rest) = (c.notify n).notifyAll rest := by simp [notifyAll]
    rw [hstep]
    exact ih _ (notify_started c n h)

/-- C23: starting from the constructed container, as long as no playlist with
the stored id (1 when nothing is stored) was added, the stored
`current_playlist` entry is unchanged and `starting_up_` stays set, whatever
`Save` and other notifications arrive, the `Save` that the tab bar runs through
`currentChanged` included.  The `PlaylistAdded` for that id clears
`starting_up_` and makes that tab current; the `Save` that `set_current_id`
runs then leaves the entry as it is when the tab is the first of the bar, and
stores the id otherwise, so the entry names the same playlist as before, 1 now
written out when nothing was stored.  From then on `starting_up_` stays clear
and `Save` stores the current id of the tab bar.  Only that `PlaylistAdded`
clears `starting_up_`. -/
theorem current_playlist_kept_during_startup (stored : Option Int)
    (before later : List Notification) (name : String) (isVisible : Bool)
    (height idOnInsert : Int)
    (hbefore : before.all (fun n => !addsPlaylist (stored.getD 1) n) = true) :
    ((create stored).notifyAll before).current_playlist = stored ∧
      ((create stored).notifyAll before).starting_up_ = true ∧
      (((create stored).notifyAll before).PlaylistAdded (stored.getD 1) name isVisible
        height idOnInsert).starting_up_ = false ∧
      (((create stored).notifyAll before).PlaylistAdded (stored.getD 1) name isVisible
        height idOnInsert).current_playlist
        = (if ((create stored).notifyAll before).tab_bar.count = 0 then stored
          else some (stored.getD 1)) ∧
      (((create stored).notifyAll before).PlaylistAdded (stored.getD 1) name isVisible
        height idOnInsert).current_playlist.getD 1 = stored.getD 1 ∧
      (((create stored).notifyAll before).PlaylistAdded (stored.getD 1) name isVisible
        height idOnInsert).tab_bar.current_id = stored.getD 1 ∧
      ((((create stored).notifyAll before).PlaylistAdded (stored.getD 1) name isVisible
        height idOnInsert).notifyAll later).starting_up_ = false ∧
      ((((create stored).notifyAll before).PlaylistAdded (stored.getD 1) name isVisible
        height idOnInsert).notifyAll later).Save.current_playlist
        = some ((((create stored).notifyAll before).PlaylistAdded (stored.getD 1) name isVisible
            height idOnInsert).notifyAll later).tab_bar.current_id ∧
      (∀ (c : PlaylistContainer) (n : Notification), c.starting_up_ = true →
        (c.notify n).starting_up_ = false →
          addsPlaylist (c.current_playlist.getD 1) n = true) := by
  obtain ⟨h1, h2, h3, h4⟩ := notifyAll_startup before (create stored) rfl hbefore
    (by simp [create]) (by simp [create])
  have h1' : ((create stored).notifyAll before).current_playlist = stored := h1
  have h4' : ∀ tab ∈ ((create stored).notifyAll before).tab_bar.tabs, tab.1 ≠ stored.getD 1 := h4
  have hid : ((create stored).notifyAll before).current_playlist.getD 1 = stored.getD 1 := by
    rw [h1']
  have hsel := PlaylistAdded_selects ((create stored).notifyAll before) (stored.getD 1)
    name isVisible height idOnInsert h2 hid
  have hends := PlaylistAdded_ends ((create stored).notifyAll before) (stored.getD 1)
    name isVisible height idOnInsert h2 hid
  rw [PlaylistTabBar.set_current_id_emits_InsertTab _ _ _ h3 h4', h1'] at hends
  have hentry : (((create stored).notifyAll before).PlaylistAdded (stored.getD 1) name isVisible
      height idOnInsert).current_playlist
      = (if ((create stored).notifyAll before).tab_bar.count = 0 then stored
        else some (stored.getD 1)) := by
    rw [hends]
    unfold PlaylistTabBar.count
    cases ((create stored).notifyAll before).tab_bar.tabs <;> simp
  have hdone : (((create stored).notifyAll before).PlaylistAdded (stored.getD 1) name isVisible
      height idOnInsert).starting_up_ = false := by
    rw [PlaylistAdded_startup, h2, h1']; simp
  have hlater := notifyAll_started later _ hdone
  refine ⟨h1', h2, hdone, hentry, ?_, hsel, hlater, ?_, ?_⟩
  · rw [hentry]
    split_ifs <;> rfl
  · simp [Save, hlater]
  · intro c n hstart hend
    cases hadd : addsPlaylist (c.current_playlist.getD 1) n with
    | true => rfl
    | false =>
      have := (notify_startup c n hstart hadd).2
      rw [hend] at this
      exact absurd this (by decide)

/-- Witness of C23: nothing stored, playlists 2 and 3 added with tab changes in
between; the entry is absent until playlist 1 is added, which writes 1. -/
theorem current_playlist_kept_during_startup_witness :
    notificationsBeforeStartupTab.all (fun n => !addsPlaylist ((none : Option Int).getD 1) n)
        = true ∧
      ((create none).notifyAll notificationsBeforeStartupTab).current_playlist = none ∧
      ((create none).notifyAll notificationsBeforeStartupTab).starting_up_ = true ∧
      (((create none).notifyAll notificationsBeforeStartupTab).PlaylistAdded 1 "First" true
        24 0).current_playlist = some 1 :=
  ⟨by decide,
    (current_playlist_kept_during_startup none notificationsBeforeStartupTab
      [Notification.Save] "First" true 24 0 (by decide)).1,
    (current_playlist_kept_during_startup none notificationsBeforeStartupTab
      [Notification.Save] "First" true 24 0 (by decide)).2.1,
    (current_playlist_kept_during_startup none notificationsBeforeStartupTab
      [Notification.Save] "First" true 24 0 (by decide)).2.2.2.1.trans (by decide)⟩

/-- A text always has a field. -/
theorem splitSections_ne_nil (sep : Char) (text : List Char) : splitSections sep text ≠ [] := by
  induction text with
  | nil => simp [splitSections]
  | cons c cs ih =>
    unfold splitSections
    split_ifs
    · simp
    · split <;> simp

/-- Joining a field in front of further fields. -/
theorem joinSections_cons (sep : Char) (field : List Char) (fields : List (List Char))
    (h : fields ≠ []) :
    joinSections sep (field :: fields) = field ++ sep :: joinSections sep fields := by
  cases fields with
  | nil => exact absurd rfl h
  | cons next rest => rfl

/-- Joining the fields of a text gives the text back. -/
theorem joinSections_splitSections (sep : Char) (text : List Char) :
    joinSections sep (splitSections sep text) = text := by
  induction text with
  | nil => rfl
  | cons c cs ih =>
    unfold splitSections
    split_ifs with hc
    · rw [joinSections_cons _ _ _ (splitSections_ne_nil sep cs), ih, hc]; rfl
    · cases hs : splitSections sep cs with
      | nil => exact absurd hs (splitSections_ne_nil sep cs)
      | cons field fields =>
        rw [hs] at ih
        simp only
        cases fields with
        | nil =>
          simp only [joinSections] at ih ⊢
          rw [ih]
        | cons next rest =>
          simp only [joinSections] at ih ⊢
          rw [← ih]; rfl

/-- Joining a last field behind further fields. -/
theorem joinSections_append_singleton (sep : Char) (init : List (List Char)) (last : List Char)
    (h : init ≠ []) :
    joinSections sep (init ++ [last]) = joinSections sep init ++ sep :: last := by
  induction init with
  | nil => exact absurd rfl h
  | cons field rest ih =>
    cases rest with
    | nil => rfl
    | cons next rest' =>
      have hne : next :: rest' ≠ [] := List.cons_ne_nil _ _
      rw [List.cons_append, joinSections_cons _ _ _ (by simp), ih hne,
        joinSections_cons _ _ _ hne]
      simp

/-- The call `section(sep, 0, -2)` joins all fields but the last. -/
theorem section_eq_dropLast (text : List Char) (sep : Char) :
    «section» text sep 0 (-2) = joinSections sep (splitSections sep text).dropLast := by
  have hne := splitSections_ne_nil sep text
  have hpos : 0 < (splitSections sep text).length := List.length_pos.mpr hne
  unfold «section»
  simp only [Int.lt_irrefl, if_false, Int.toNat_zero, List.drop_zero]
  have hneg : ((-2 : Int) < 0) := by decide
  rw [if_pos hneg]
  have hn : ((-2 : Int) + ((splitSections sep text).length : Int) + 1).toNat
      = (splitSections sep text).length - 1 := by omega
  rw [hn, List.dropLast_eq_take]

/-- A text that is not empty is what `section(sep, 0, -2)` leaves of it, followed
by something. -/
theorem section_shorter (text : List Char) (sep : Char) (h : text ≠ []) :
    ∃ rest, rest ≠ [] ∧ text = «section» text sep 0 (-2) ++ rest := by
  rw [section_eq_dropLast]
  have hne := splitSections_ne_nil sep text
  have hjoin := joinSections_splitSections sep text
  obtain ⟨init, last, hfields⟩ : ∃ init last, splitSections sep text = init ++ [last] :=
    ⟨_, _, (List.dropLast_append_getLast hne).symm⟩
  rw [hfields] at hjoin ⊢
  rw [List.dropLast_concat]
  by_cases hinit : init = []
  · subst hinit
    refine ⟨text, h, ?_⟩
    simp [joinSections]
  · refine ⟨sep :: last, List.cons_ne_nil _ _, ?_⟩
    rw [← hjoin, joinSections_append_singleton _ _ _ hinit]

/-- With more iterations allowed than the path is long the loop ends, on the
empty path or on a directory, and what it leaves starts the path. -/
theorem stripToFolder_of_fuel (isDir : Nat → List Char → Bool) (fuel : Nat) :
    ∀ (n : Nat) (filename : List Char), filename.length < fuel →
      ∃ folder rest, stripToFolder isDir fuel n filename = some folder ∧
        filename = folder ++ rest ∧ (folder = [] ∨ ∃ m, isDir m folder = true) := by
  induction fuel with
  | zero => intro n filename h; exact absurd h (Nat.not_lt_zero _)
  | succ fuel ih =>
    intro n filename hlen
    unfold stripToFolder
    by_cases hstop : (filename.isEmpty || isDir n filename) = true
    · rw [if_pos hstop]
      refine ⟨filename, [], rfl, by simp, ?_⟩
      rw [Bool.or_eq_true] at hstop
      rcases hstop with h | h
      · exact Or.inl (List.isEmpty_iff.mp h)
      · exact Or.inr ⟨n, h⟩
    · rw [if_neg hstop]
      have hne : filename ≠ [] := by
        intro h0; apply hstop; simp [h0]
      obtain ⟨rest, hrest, hsplit⟩ := section_shorter filename '/' hne
      have hshort : («section» filename '/' 0 (-2)).length < fuel := by
        have hl := congrArg List.length hsplit
        rw [List.length_append] at hl
        have : 0 < rest.length := List.length_pos.mpr hrest
        omega
      obtain ⟨folder, rest', hrun, hpre, hdir⟩ := ih (n + 1) _ hshort
      refine ⟨folder, rest' ++ rest, hrun, ?_, hdir⟩
      rw [← List.append_assoc, ← hpre]
      exact hsplit

/-- Allowing more iterations does not change what the loop leaves. -/
theorem stripToFolder_more_fuel (isDir : Nat → List Char → Bool) (fuel : Nat) :
    ∀ (n : Nat) (filename folder : List Char) (extra : Nat),
      stripToFolder isDir fuel n filename = some folder →
        stripToFolder isDir (fuel + extra) n filename = some folder := by
  induction fuel with
  | zero => intro n filename folder extra h; simp [stripToFolder] at h
  | succ fuel ih =>
    intro n filename folder extra h
    rw [Nat.add_right_comm]
    unfold stripToFolder at h ⊢
    by_cases hstop : (filename.isEmpty || isDir n filename) = true
    · rw [if_pos hstop] at h ⊢; exact h
    · rw [if_neg hstop] at h ⊢; exact ih _ _ _ _ h

/-- C22: the loop of `SavePlaylist` terminates for every stored path and every
answer of the file system.  An iteration replaces a path that is not empty by
the path without its last component, which is strictly shorter and starts the
old path; the loop ends within one iteration more than the path is long,
whatever more is allowed; what it leaves starts the stored path and is empty,
in which case the home directory is used, or was answered to be a directory. -/
theorem stripToFolder_terminates (isDir : Nat → List Char → Bool)
    (homePath filename : List Char) :
    (∀ text : List Char, text = [] ∨
        ∃ rest, rest ≠ [] ∧ text = «section» text '/' 0 (-2) ++ rest ∧
          («section» text '/' 0 (-2)).length < text.length ∧
          «section» text '/' 0 (-2) = joinSections '/' (splitSections '/' text).dropLast) ∧
      ∃ folder rest,
        stripToFolder isDir (filename.length + 1) 0 filename = some folder ∧
          (∀ extra, stripToFolder isDir (filename.length + 1 + extra) 0 filename = some folder) ∧
          filename = folder ++ rest ∧
          (folder = [] ∨ ∃ n, isDir n folder = true) ∧
          saveFolder isDir homePath (filename.length + 1) filename
            = some (if folder = [] then homePath else folder) := by
  constructor
  · intro text
    by_cases h : text = []
    · exact Or.inl h
    · obtain ⟨rest, hrest, hsplit⟩ := section_shorter text '/' h
      refine Or.inr ⟨rest, hrest, hsplit, ?_, section_eq_dropLast text '/'⟩
      have hl := congrArg List.length hsplit
      rw [List.length_append] at hl
      have : 0 < rest.length := List.length_pos.mpr hrest
      omega
  · obtain ⟨folder, rest, hrun, hpre, hdir⟩ :=
      stripToFolder_of_fuel isDir (filename.length + 1) 0 filename (Nat.lt_succ_self _)
    refine ⟨folder, rest, hrun, fun extra => stripToFolder_more_fuel _ _ _ _ _ extra hrun, hpre,
      hdir, ?_⟩
    unfold saveFolder
    rw [hrun]
    cases folder <;> rfl

end PlaylistContainer

/-! ## Properties of the button constants -/

namespace WiimoteDev

/-- C24: every button constant is 1 shifted left by its enumerator, the 62
enumerators are 0 to 61, below 64, so no constant is 0 and no two are equal;
the ten group masks are pairwise disjoint and their bitwise or is `2 ^ 62 - 1`;
and every mask has no bit in common with its complement constant and gives
`2 ^ 64 - 1` together with it. -/
theorem button_masks_partition :
    (∀ b ∈ buttons, b.1 = 1 <<< b.2 ∧ b.2 < 64 ∧ b.1 ≠ 0) ∧
      buttons.map (fun b => b.2) = List.range 62 ∧
      (buttons.map fun b => b.1).Nodup ∧
      masks.length = 10 ∧
      masks.Pairwise (fun a b => a &&& b = 0) ∧
      masks.foldl (fun a b => a ||| b) 0 = 2 ^ 62 - 1 ∧
      maskPairs.map (fun m => m.1) = masks ∧
      (∀ m ∈ maskPairs, m.2 = 2 ^ 64 - 1 - m.1 ∧ m.1 &&& m.2 = 0 ∧ m.1 ||| m.2 = 2 ^ 64 - 1) := by
  refine ⟨by decide, by decide, by decide, by decide, by decide, by decide, by decide, by decide⟩

end WiimoteDev

end Clementine
